import Mathlib

/-!
Subscriber Manager (sprout): a shallow embedding.

The definitions below embed `src/src/subscriber_manager.cpp`.

Conventions of the embedding.

* `std::string` is `String`, `std::vector<T>` is `List T`, `HTTPCode` (a C `long`)
  is `Int`.
* `std::map<std::string, T*>` (`Bindings`, `Subscriptions`) is an association list
  `List (String × T)` read in iteration order; `find` is `List.lookup`, a range-for
  loop over the map visits the pairs of the list in order.  The pointers stored in
  the maps are dereferenced by the code without a check, so the stored values are
  the pointees.
* `std::set<std::string>` is a duplicate-free `List String`; `insert` is
  `List.insert`, `find(x) != end()` is membership.
* The collaborators `S4` and `HSSConnection` are not part of the embedded file;
  they are records of functions over an arbitrary collaborator state `σ`.  An
  out-parameter of a collaborator is a component of the value it returns.
* Every call made to a collaborator is appended to a ghost log (`World.calls`), so
  that statements about which calls are made, and in which order, can be written.
  The notify sender and the analytics logger return nothing to the manager: a call
  to one of them is an entry of the log and nothing else.
* An operation yields `none` when the C++ code would dereference a null pointer
  (a collaborator answered `HTTP_OK` without supplying an AoR) or, for the retry
  loop of `deregister_subscriber`, when the loop fuel is exhausted.
-/

namespace Sprout

/-! ## Data model -/

abbrev HTTPCode := Int

/-- Modelled from the spec: the HTTP status constants of `httpconnection.h`, which is
absent from the sources; the spec names the codes 200, 204, 400, 404 and 412. -/
def HTTP_OK : HTTPCode := 200

/-- Modelled from the spec: see `HTTP_OK`. -/
def HTTP_NO_CONTENT : HTTPCode := 204

/-- Modelled from the spec: see `HTTP_OK`. -/
def HTTP_BAD_REQUEST : HTTPCode := 400

/-- Modelled from the spec: see `HTTP_OK`. -/
def HTTP_NOT_FOUND : HTTPCode := 404

/-- Modelled from the spec: see `HTTP_OK`. -/
def HTTP_PRECONDITION_FAILED : HTTPCode := 412

/-- Modelled from the spec: the `Binding` class of `aor.h` (absent from the sources),
with the attributes listed in the data model of the spec.  The code reads `_uri`,
`_address_of_record` and `_expires`. -/
structure Binding where
  _address_of_record : String
  _uri : String
  _cid : String
  _cseq : Int
  _expires : Int
  _priority : Int
  _path_headers : List String
  _private_id : String
  _emergency_registration : Bool
  _timer_id : String
deriving DecidableEq, Repr

/-- Modelled from the spec: the `Subscription` class of `aor.h` (absent from the
sources), with the attributes listed in the data model of the spec.  The code reads
`_req_uri` and `_expires`. -/
structure Subscription where
  _req_uri : String
  _from_uri : String
  _from_tag : String
  _to_uri : String
  _to_tag : String
  _cid : String
  _route_uris : List String
  _expires : Int
  _notify_cseq : Int
deriving DecidableEq, Repr

abbrev Bindings := List (String × Binding)

abbrev BindingPair := String × Binding

abbrev Subscriptions := List (String × Subscription)

/-- A `SubscriptionPair` is `std::pair<std::string, Subscription*>`; the code tests
its pointer against `NULL`, so the pointee is optional. -/
abbrev SubscriptionPair := String × Option Subscription

/-- Modelled from the spec: `AssociatedURIs` (`associated_uris.h`, absent from the
sources) is an ordered sequence of (uri, barred?) pairs. -/
abbrev AssociatedURIs := List (String × Bool)

/-- Modelled from the spec: `AssociatedURIs::get_default_impu` (absent from the
sources) with `emergency = false`: the first non-barred entry is the default; there
is no default when every entry is barred or the sequence is empty. -/
def AssociatedURIs.get_default_impu (uris : AssociatedURIs) : Option String :=
  match uris.find? (fun p => !p.2) with
  | some p => some p.1
  | none => none

/-- Modelled from the spec: the `AoR` class of `aor.h` (absent from the sources):
associated URIs, bindings map, subscriptions map, notify-CSeq counter and S-CSCF
URI.  The version is handed over separately by `S4::handle_get`. -/
structure AoR where
  _uri : String
  _notify_cseq : Int
  _associated_uris : AssociatedURIs
  _scscf_uri : String
  _bindings : Bindings
  _subscriptions : Subscriptions
deriving DecidableEq, Repr

def AoR.bindings (aor : AoR) : Bindings := aor._bindings

def AoR.subscriptions (aor : AoR) : Subscriptions := aor._subscriptions

/-- Modelled from the spec: `PatchObject` (`aor.h`, absent from the sources): the
update-bindings set, remove-bindings list, update-subscriptions set,
remove-subscriptions list, associated-URIs replacement (absent means leave
unchanged) and CSeq-increment flag.  The field names are those the code and its
tests use. -/
structure PatchObject where
  _update_bindings : Bindings
  _remove_bindings : List String
  _update_subscriptions : Subscriptions
  _remove_subscriptions : List String
  _associated_uris : Option AssociatedURIs
  _increment_cseq : Bool
deriving DecidableEq, Repr

/-- The default-constructed `PatchObject patch_object;` of the code. -/
def PatchObject.new : PatchObject :=
  { _update_bindings := [], _remove_bindings := [], _update_subscriptions := [],
    _remove_subscriptions := [], _associated_uris := none, _increment_cseq := false }

def PatchObject.set_update_bindings (po : PatchObject) (b : Bindings) : PatchObject :=
  { po with _update_bindings := b }

def PatchObject.set_remove_bindings (po : PatchObject) (ids : List String) : PatchObject :=
  { po with _remove_bindings := ids }

def PatchObject.set_update_subscriptions (po : PatchObject) (s : Subscriptions) :
    PatchObject :=
  { po with _update_subscriptions := s }

def PatchObject.set_remove_subscriptions (po : PatchObject) (ids : List String) :
    PatchObject :=
  { po with _remove_subscriptions := ids }

def PatchObject.set_associated_uris (po : PatchObject) (uris : AssociatedURIs) :
    PatchObject :=
  { po with _associated_uris := some uris }

def PatchObject.set_increment_cseq (po : PatchObject) (b : Bool) : PatchObject :=
  { po with _increment_cseq := b }

/-- Modelled from the spec: `AoRUtils::copy_bindings` (`aor_utils.h`, absent from the
sources) returns a deep copy of the map; on values the copy is the map itself. -/
def AoRUtils.copy_bindings (b : Bindings) : Bindings := b

/-- Modelled from the spec: `AoRUtils::copy_subscriptions`, as `copy_bindings`. -/
def AoRUtils.copy_subscriptions (s : Subscriptions) : Subscriptions := s

/-! ## The cascade: `SubscriberManager::subscriptions_to_remove` -/

/-- First loop of `subscriptions_to_remove`: the contact URIs of the bindings to be
removed that are found in the original bindings. -/
def missing_uris_of_removed (orig_bindings : Bindings) (binding_ids_to_remove : List String)
    (missing_uris : List String) : List String :=
  binding_ids_to_remove.foldl
    (fun missing binding_id =>
      match orig_bindings.lookup binding_id with
      | some b => missing.insert b._uri
      | none => missing)
    missing_uris

/-- Second loop of `subscriptions_to_remove`: the original contact URIs of the
bindings whose contact is about to change. -/
def missing_uris_of_updated (orig_bindings : Bindings) (bindings_to_update : Bindings)
    (missing_uris : List String) : List String :=
  bindings_to_update.foldl
    (fun missing bp =>
      match orig_bindings.lookup bp.1 with
      | some b => if b._uri ≠ bp.2._uri then missing.insert b._uri else missing
      | none => missing)
    missing_uris

/-- Embedding of `SubscriberManager::subscriptions_to_remove`. -/
def subscriptions_to_remove (orig_bindings : Bindings) (orig_subscriptions : Subscriptions)
    (bindings_to_update : Bindings) (binding_ids_to_remove : List String) : List String :=
  let missing_uris : List String := []
  let missing_uris := missing_uris_of_removed orig_bindings binding_ids_to_remove missing_uris
  let missing_uris := missing_uris_of_updated orig_bindings bindings_to_update missing_uris
  orig_subscriptions.foldl
    (fun subscription_ids_to_remove sp =>
      if sp.2._req_uri ∈ missing_uris then subscription_ids_to_remove ++ [sp.1]
      else subscription_ids_to_remove)
    []


/-! ## Machine integers -/

/-- The smallest value of a C `int` (32 bits, two's complement). -/
def INT_MIN : Int := -2147483648

/-- The largest value of a C `int`. -/
def INT_MAX : Int := 2147483647

/-- The 32-bit `int` that represents an integer: its value modulo `2^32`, taken in
the range from `INT_MIN` to `INT_MAX`. -/
def int32_wrap (x : Int) : Int :=
  (x + 2147483648) % 4294967296 - 2147483648

/-- Addition of two `int` values, with wrap-around at 32 bits. -/
def int32_add (x y : Int) : Int := int32_wrap (x + y)

/-! ## Collaborators -/

/-- The fields of `HSSConnection::irs_query` that the code sets. -/
structure irs_query where
  _public_id : String
  _req_type : String
  _server_name : String
deriving DecidableEq, Repr

/-- The field of `HSSConnection::irs_info` that the code reads. -/
structure irs_info where
  _associated_uris : AssociatedURIs
deriving DecidableEq, Repr

/-- The default-constructed `HSSConnection::irs_info irs_info;` of the code. -/
def irs_info.new : irs_info := { _associated_uris := [] }

/-- Modelled from the spec: `HSSConnection::DEREG_USER` (`hssconnection.h`, absent
from the sources); the deregistration reasons on the wire are the strings
`dereg-user`, `dereg-admin` and `dereg-timeout`. -/
def DEREG_USER : String := "dereg-user"

/-- Modelled from the spec: `HSSConnection::DEREG_ADMIN`, see `DEREG_USER`. -/
def DEREG_ADMIN : String := "dereg-admin"

/-- Modelled from the spec: `SubscriberDataUtils::EventTrigger`
(`subscriber_data_utils.h`, absent from the sources); `notify_sender.h` documents the
values USER, ADMIN and TIMEOUT. -/
inductive EventTrigger where
  | USER
  | ADMIN
  | TIMEOUT
deriving DecidableEq, Repr

/-- The values of `ContactEvent` as `notify_sender.h` declares them. -/
inductive ContactEvent where
  | REGISTERED
  | CREATED
  | REFRESHED
  | SHORTENED
  | EXPIRED
  | DEACTIVATED
  | UNREGISTERED
deriving DecidableEq, Repr

/-- The values of `SubscriptionEvent` as `subscriber_manager.h` declares them. -/
inductive SubscriptionEvent where
  | CREATED
  | REFRESHED
  | UNCHANGED
  | SHORTENED
  | EXPIRED
  | TERMINATED
deriving DecidableEq, Repr

/-- The fields of `SubscriberDataUtils::ClassifiedBinding` (`subscriber_data_utils.h`,
absent from the sources) that the code reads. -/
structure ClassifiedBinding where
  _id : String
  _binding : Binding
  _contact_event : ContactEvent
deriving DecidableEq, Repr

/-- The fields of `ClassifiedSubscription`: those `subscriber_manager.h` declares,
and `_aor_id`, which the code reads. -/
structure ClassifiedSubscription where
  _aor_id : String
  _id : String
  _subscription : Subscription
  _subscription_event : SubscriptionEvent
  _notify_required : Bool
  _reasons : String
deriving DecidableEq, Repr

abbrev ClassifiedBindings := List ClassifiedBinding

abbrev ClassifiedSubscriptions := List ClassifiedSubscription

/-- One call made to a collaborator, with the arguments the code passes. -/
inductive Call where
  | get_registration_data (public_id : String)
  | update_registration_state (query : irs_query)
  | handle_get (aor_id : String)
  | handle_put (aor_id : String) (aor : AoR)
  | handle_patch (aor_id : String) (patch_object : PatchObject)
  | handle_delete (aor_id : String) (version : Nat)
  | send_notifys (aor_id : String) (classified_bindings : ClassifiedBindings)
      (classified_subscriptions : ClassifiedSubscriptions)
      (associated_uris : AssociatedURIs) (cseq : Int) (now : Int)
  | registration (aor : String) (binding_id : String) (contact : String) (expires : Int)
  | subscription (aor : String) (subscription_id : String) (contact : String)
      (expires : Int)
deriving DecidableEq, Repr

/-- The store interface the manager consumes.  `handle_get` yields the return code,
the AoR pointer and the version it leaves in its out-parameters; `handle_patch`
yields the return code and the AoR pointer. -/
structure S4 (σ : Type) where
  handle_get : σ → String → HTTPCode × Option AoR × Nat × σ
  handle_put : σ → String → AoR → HTTPCode × σ
  handle_patch : σ → String → PatchObject → HTTPCode × Option AoR × σ
  handle_delete : σ → String → Nat → HTTPCode × σ

/-- The HSS interface the manager consumes.  Both methods receive the caller's
`irs_info` by reference and yield the value it holds after the call. -/
structure HSSConnection (σ : Type) where
  get_registration_data : σ → String → irs_info → HTTPCode × irs_info × σ
  update_registration_state : σ → irs_query → irs_info → HTTPCode × irs_info × σ

/-- The collaborator state together with the log of the calls made so far. -/
structure World (σ : Type) where
  state : σ
  calls : List Call

/-- Record a call and the collaborator state it leaves. -/
def World.call {σ : Type} (w : World σ) (c : Call) (st : σ) : World σ :=
  { state := st, calls := w.calls ++ [c] }

structure SubscriberManager (σ : Type) where
  _s4 : S4 σ
  _hss_connection : HSSConnection σ

/-! ## Patching an AoR -/

/-- Replace the value stored under a key, or add the key.  The position of a new key
in the iteration order is not modelled. -/
def map_put {β : Type} (m : List (String × β)) (p : String × β) : List (String × β) :=
  m.filter (fun q => q.1 ≠ p.1) ++ [p]

/-- Remove a key from a map. -/
def map_erase {β : Type} (m : List (String × β)) (k : String) : List (String × β) :=
  m.filter (fun q => q.1 ≠ k)

/-- The `std::map::insert` of the code: no effect when the key is present. -/
def map_insert {β : Type} (m : List (String × β)) (p : String × β) : List (String × β) :=
  match m.lookup p.1 with
  | some _ => m
  | none => m ++ [p]

/-- Modelled from the spec: the constructor `AoR(aor_id)` (`aor.h`, absent from the
sources): no bindings, no subscriptions, no associated URIs; the counter starts at 0
so that the first mutation, which increments it, leaves `notify_cseq = 1`. -/
def AoR.new (aor_id : String) : AoR :=
  { _uri := aor_id, _notify_cseq := 0, _associated_uris := [], _scscf_uri := "",
    _bindings := [], _subscriptions := [] }

/-- Modelled from the spec: `AoR::patch_aor` (`aor.h`, absent from the sources).  A
patch carries the update-bindings set, the remove-bindings list, the
update-subscriptions set, the remove-subscriptions list, the associated-URIs
replacement (absent means leave unchanged) and the CSeq-increment flag; they are
applied in this order.  `notify_cseq` is a 32-bit counter: the increment is the one of
an `int`. -/
def AoR.patch_aor (aor : AoR) (po : PatchObject) : AoR :=
  let bindings := po._update_bindings.foldl map_put aor._bindings
  let bindings := po._remove_bindings.foldl map_erase bindings
  let subscriptions := po._update_subscriptions.foldl map_put aor._subscriptions
  let subscriptions := po._remove_subscriptions.foldl map_erase subscriptions
  { aor with
    _bindings := bindings
    _subscriptions := subscriptions
    _associated_uris :=
      match po._associated_uris with
      | some uris => uris
      | none => aor._associated_uris
    _notify_cseq :=
      if po._increment_cseq then int32_add aor._notify_cseq 1 else aor._notify_cseq }

/-- The contact URIs of the bindings of a map. -/
def contact_uris (bindings : Bindings) : List String :=
  bindings.map (fun bp => bp.2._uri)

/-- Cascade completeness (P2): every subscription's `req_uri` is the contact URI of
some binding of the same AoR. -/
def cascade_complete (aor : AoR) : Prop :=
  ∀ sp ∈ aor.subscriptions, sp.2._req_uri ∈ contact_uris aor.bindings

instance (aor : AoR) : Decidable (cascade_complete aor) := by
  unfold cascade_complete
  infer_instance

/-- The patch objects passed to `handle_patch` in a call log, in order. -/
def patches_sent (calls : List Call) : List PatchObject :=
  calls.filterMap
    (fun c =>
      match c with
      | Call.handle_patch _ po => some po
      | _ => none)

/-- The calls to the notify sender in a call log, as (associated URIs, CSeq) pairs. -/
def notifys_sent (calls : List Call) : List (AssociatedURIs × Int) :=
  calls.filterMap
    (fun c =>
      match c with
      | Call.send_notifys _ _ _ associated_uris cseq _ => some (associated_uris, cseq)
      | _ => none)

/-- The versions carried by the DELETEs of a call log, in order. -/
def deletes_sent (calls : List Call) : List Nat :=
  calls.filterMap
    (fun c =>
      match c with
      | Call.handle_delete _ version => some version
      | _ => none)

/-- The calls of `n` iterations of the retry loop of `deregister_subscriber` for
`aor_id`: `n` GET/DELETE pairs, the DELETE of iteration `i` carrying `version i`. -/
def attempts_calls (aor_id : String) : Nat → (Nat → Nat) → List Call
  | 0, _ => []
  | n + 1, version =>
    Call.handle_get aor_id :: Call.handle_delete aor_id (version 0) ::
      attempts_calls aor_id n (fun i => version (i + 1))

/-! ## Private helpers of the manager -/

namespace SubscriberManager

variable {σ : Type}

/-- Embedding of `SubscriberManager::get_cached_subscriber_state`. -/
def get_cached_subscriber_state (sm : SubscriberManager σ) (w : World σ)
    (public_id : String) (info : irs_info) : HTTPCode × irs_info × World σ :=
  match sm._hss_connection.get_registration_data w.state public_id info with
  | (http_code, info, st) => (http_code, info, w.call (Call.get_registration_data public_id) st)

/-- Embedding of `SubscriberManager::get_subscriber_state`. -/
def get_subscriber_state (sm : SubscriberManager σ) (w : World σ)
    (query : irs_query) (info : irs_info) : HTTPCode × irs_info × World σ :=
  match sm._hss_connection.update_registration_state w.state query info with
  | (http_code, info, st) => (http_code, info, w.call (Call.update_registration_state query) st)

/-- Embedding of `SubscriberManager::deregister_with_hss`. -/
def deregister_with_hss (sm : SubscriberManager σ) (w : World σ) (aor_id : String)
    (dereg_reason : String) (server_name : String) (info : irs_info) :
    HTTPCode × irs_info × World σ :=
  let query : irs_query :=
    { _public_id := aor_id, _req_type := dereg_reason, _server_name := server_name }
  sm.get_subscriber_state w query info

/-- Embedding of `SubscriberManager::get_cached_default_id`; the result carries the
values of the reference parameters `aor_id` and `irs_info` after the call. -/
def get_cached_default_id (sm : SubscriberManager σ) (w : World σ) (public_id : String)
    (aor_id : String) (info : irs_info) : HTTPCode × String × irs_info × World σ :=
  match sm.get_cached_subscriber_state w public_id info with
  | (rc, info, w) =>
    if rc ≠ HTTP_OK then (rc, aor_id, info, w)
    else
      match info._associated_uris.get_default_impu with
      | none => (HTTP_BAD_REQUEST, aor_id, info, w)
      | some default_impu => (rc, default_impu, info, w)

/-- The patch object that `put_bindings` builds. -/
def put_bindings_object (update_bindings : Bindings) (associated_uris : AssociatedURIs) :
    PatchObject :=
  let patch_object := PatchObject.new
  let patch_object := patch_object.set_update_bindings (AoRUtils.copy_bindings update_bindings)
  let patch_object := patch_object.set_associated_uris associated_uris
  patch_object.set_increment_cseq true

/-- The AoR that `put_bindings` builds and passes to `handle_put`. -/
def put_bindings_aor (aor_id : String) (update_bindings : Bindings)
    (associated_uris : AssociatedURIs) (scscf_uri : String) : AoR :=
  let aor := AoR.new aor_id
  let aor := aor.patch_aor (put_bindings_object update_bindings associated_uris)
  { aor with _scscf_uri := scscf_uri }

/-- Embedding of `SubscriberManager::put_bindings`; the AoR of the result is the one
left in the out-parameter `aor`. -/
def put_bindings (sm : SubscriberManager σ) (w : World σ) (aor_id : String)
    (update_bindings : Bindings) (associated_uris : AssociatedURIs) (scscf_uri : String) :
    HTTPCode × AoR × World σ :=
  let aor := put_bindings_aor aor_id update_bindings associated_uris scscf_uri
  match sm._s4.handle_put w.state aor_id aor with
  | (rc, st) => (rc, aor, w.call (Call.handle_put aor_id aor) st)

/-- The patch object that `patch_bindings` builds. -/
def patch_bindings_object (update_bindings : Bindings) (remove_bindings : List String)
    (remove_subscriptions : List String) (associated_uris : AssociatedURIs) : PatchObject :=
  let patch_object := PatchObject.new
  let patch_object := patch_object.set_update_bindings (AoRUtils.copy_bindings update_bindings)
  let patch_object := patch_object.set_remove_bindings remove_bindings
  let patch_object := patch_object.set_remove_subscriptions remove_subscriptions
  let patch_object := patch_object.set_associated_uris associated_uris
  patch_object.set_increment_cseq true

/-- Embedding of `SubscriberManager::patch_bindings`. -/
def patch_bindings (sm : SubscriberManager σ) (w : World σ) (aor_id : String)
    (update_bindings : Bindings) (remove_bindings : List String)
    (remove_subscriptions : List String) (associated_uris : AssociatedURIs) :
    HTTPCode × Option AoR × World σ :=
  let patch_object :=
    patch_bindings_object update_bindings remove_bindings remove_subscriptions associated_uris
  match sm._s4.handle_patch w.state aor_id patch_object with
  | (rc, aor, st) => (rc, aor, w.call (Call.handle_patch aor_id patch_object) st)

/-- The patch object that `patch_subscription` builds. -/
def patch_subscription_object (update_subscription : SubscriptionPair)
    (remove_subscription : String) : PatchObject :=
  let patch_object := PatchObject.new
  let subscriptions : Subscriptions := []
  let subscriptions :=
    match update_subscription.2 with
    | some s => map_insert subscriptions (update_subscription.1, s)
    | none => subscriptions
  let patch_object :=
    patch_object.set_update_subscriptions (AoRUtils.copy_subscriptions subscriptions)
  let patch_object := patch_object.set_remove_subscriptions [remove_subscription]
  patch_object.set_increment_cseq true

/-- Embedding of `SubscriberManager::patch_subscription`. -/
def patch_subscription (sm : SubscriberManager σ) (w : World σ) (aor_id : String)
    (update_subscription : SubscriptionPair) (remove_subscription : String) :
    HTTPCode × Option AoR × World σ :=
  let patch_object := patch_subscription_object update_subscription remove_subscription
  match sm._s4.handle_patch w.state aor_id patch_object with
  | (rc, aor, st) => (rc, aor, w.call (Call.handle_patch aor_id patch_object) st)

/-- The patch object that `patch_associated_uris` builds. -/
def patch_associated_uris_object (associated_uris : AssociatedURIs) : PatchObject :=
  let patch_object := PatchObject.new
  let patch_object := patch_object.set_associated_uris associated_uris
  patch_object.set_increment_cseq true

/-- Embedding of `SubscriberManager::patch_associated_uris`. -/
def patch_associated_uris (sm : SubscriberManager σ) (w : World σ) (aor_id : String)
    (associated_uris : AssociatedURIs) : HTTPCode × Option AoR × World σ :=
  let patch_object := patch_associated_uris_object associated_uris
  match sm._s4.handle_patch w.state aor_id patch_object with
  | (rc, aor, st) => (rc, aor, w.call (Call.handle_patch aor_id patch_object) st)

/-! ## Public operations -/

/-- Embedding of `SubscriberManager::register_subscriber`.  The result carries the
return code and the value of the out-parameter `all_bindings` after the call. -/
def register_subscriber (sm : SubscriberManager σ) (w : World σ) (aor_id : String)
    (server_name : String) (associated_uris : AssociatedURIs) (add_bindings : Bindings)
    (all_bindings : Bindings) : HTTPCode × Bindings × World σ :=
  match sm.put_bindings w aor_id add_bindings associated_uris server_name with
  | (rc, updated_aor, w) =>
    if rc ≠ HTTP_OK then (rc, all_bindings, w)
    else
      let all_bindings := AoRUtils.copy_bindings updated_aor.bindings
      (HTTP_OK, all_bindings, w)

/-- Embedding of `SubscriberManager::reregister_subscriber`.  The result carries the
return code and the values of the out-parameters `all_bindings` and `irs_info`. -/
def reregister_subscriber (sm : SubscriberManager σ) (w : World σ) (aor_id : String)
    (associated_uris : AssociatedURIs) (updated_bindings : Bindings)
    (binding_ids_to_remove : List String) (all_bindings : Bindings) (info : irs_info) :
    Option (HTTPCode × Bindings × irs_info × World σ) :=
  match sm._s4.handle_get w.state aor_id with
  | (rc, orig_aor, _unused_version, st) =>
    let w := w.call (Call.handle_get aor_id) st
    if rc ≠ HTTP_OK then some (rc, all_bindings, info, w)
    else
      match orig_aor with
      | none => none
      | some orig_aor =>
        let subscription_ids_to_remove :=
          subscriptions_to_remove orig_aor.bindings orig_aor.subscriptions updated_bindings
            binding_ids_to_remove
        match sm.patch_bindings w aor_id updated_bindings binding_ids_to_remove
            subscription_ids_to_remove associated_uris with
        | (rc, updated_aor, w) =>
          if rc ≠ HTTP_OK then some (rc, all_bindings, info, w)
          else
            match updated_aor with
            | none => none
            | some updated_aor =>
              let all_bindings := AoRUtils.copy_bindings updated_aor.bindings
              if all_bindings.isEmpty then
                match sm.deregister_with_hss w aor_id DEREG_USER updated_aor._scscf_uri info with
                | (_rc, info, w) => some (HTTP_OK, all_bindings, info, w)
              else some (HTTP_OK, all_bindings, info, w)

/-- Embedding of `SubscriberManager::remove_bindings`.  The result carries the return
code and the value of the out-parameter `bindings` after the call. -/
def remove_bindings (sm : SubscriberManager σ) (w : World σ) (public_id : String)
    (binding_ids : List String) (event_trigger : EventTrigger) (bindings : Bindings) :
    Option (HTTPCode × Bindings × World σ) :=
  match sm.get_cached_default_id w public_id "" irs_info.new with
  | (rc, aor_id, info, w) =>
    if rc ≠ HTTP_OK then some (rc, bindings, w)
    else
      match sm._s4.handle_get w.state aor_id with
      | (rc, orig_aor, _unused_version, st) =>
        let w := w.call (Call.handle_get aor_id) st
        if rc ≠ HTTP_OK then
          if rc = HTTP_NOT_FOUND then some (HTTP_OK, bindings, w)
          else some (rc, bindings, w)
        else
          match orig_aor with
          | none => none
          | some orig_aor =>
            let subscription_ids_to_remove :=
              subscriptions_to_remove orig_aor.bindings orig_aor.subscriptions [] binding_ids
            match sm.patch_bindings w aor_id [] binding_ids subscription_ids_to_remove
                info._associated_uris with
            | (rc, updated_aor, w) =>
              if rc ≠ HTTP_OK then some (rc, bindings, w)
              else
                match updated_aor with
                | none => none
                | some updated_aor =>
                  let bindings := AoRUtils.copy_bindings updated_aor.bindings
                  if bindings.isEmpty then
                    let dereg_reason :=
                      if event_trigger = EventTrigger.USER then DEREG_USER else DEREG_ADMIN
                    match sm.deregister_with_hss w aor_id dereg_reason updated_aor._scscf_uri
                        info with
                    | (_rc, _info, w) => some (HTTP_OK, bindings, w)
                  else some (HTTP_OK, bindings, w)

/-- Embedding of `SubscriberManager::modify_subscription`.  The result carries the
return code and the value of the out-parameter `irs_info` after the call. -/
def modify_subscription (sm : SubscriberManager σ) (w : World σ) (public_id : String)
    (update_subscription : SubscriptionPair) (remove_subscription : String)
    (info : irs_info) : HTTPCode × irs_info × World σ :=
  match sm.get_cached_default_id w public_id "" info with
  | (rc, aor_id, info, w) =>
    if rc ≠ HTTP_OK then (rc, info, w)
    else
      match sm._s4.handle_get w.state aor_id with
      | (rc, _orig_aor, _unused_version, st) =>
        let w := w.call (Call.handle_get aor_id) st
        if rc ≠ HTTP_OK then (rc, info, w)
        else
          match sm.patch_subscription w aor_id update_subscription remove_subscription with
          | (rc, _updated_aor, w) =>
            if rc ≠ HTTP_OK then (rc, info, w)
            else (HTTP_OK, info, w)

/-- Embedding of `SubscriberManager::update_subscription`. -/
def update_subscription (sm : SubscriberManager σ) (w : World σ) (public_id : String)
    (subscription : SubscriptionPair) (info : irs_info) : HTTPCode × irs_info × World σ :=
  sm.modify_subscription w public_id subscription "" info

/-- Embedding of `SubscriberManager::remove_subscription`; `SubscriptionPair()` is
the pair of the empty string and the null pointer. -/
def remove_subscription (sm : SubscriberManager σ) (w : World σ) (public_id : String)
    (subscription_id : String) (info : irs_info) : HTTPCode × irs_info × World σ :=
  sm.modify_subscription w public_id ("", none) subscription_id info

/-- How one run of the `do ... while` loop of `deregister_subscriber` ends: by a
`return` out of the function, or by leaving the loop with the code of the DELETE and
the AoR pointer of the last GET. -/
inductive LoopExit (σ : Type) where
  | returned (rc : HTTPCode) (w : World σ)
  | left (rc : HTTPCode) (orig_aor : Option AoR) (w : World σ)

/-- The `do ... while (rc == HTTP_PRECONDITION_FAILED)` loop of
`deregister_subscriber`; each iteration uses one unit of fuel. -/
def deregister_subscriber_loop (sm : SubscriberManager σ) (aor_id : String) :
    Nat → World σ → Option (LoopExit σ)
  | 0, _ => none
  | fuel + 1, w =>
    match sm._s4.handle_get w.state aor_id with
    | (rc, orig_aor, version, st) =>
      let w := w.call (Call.handle_get aor_id) st
      if rc ≠ HTTP_OK then
        if rc = HTTP_NOT_FOUND then some (LoopExit.returned HTTP_OK w)
        else some (LoopExit.returned rc w)
      else
        match sm._s4.handle_delete w.state aor_id version with
        | (rc, st) =>
          let w := w.call (Call.handle_delete aor_id version) st
          if rc = HTTP_PRECONDITION_FAILED then deregister_subscriber_loop sm aor_id fuel w
          else some (LoopExit.left rc orig_aor w)

/-- Embedding of `SubscriberManager::deregister_subscriber`; `fuel` bounds the
number of iterations of the retry loop. -/
def deregister_subscriber (sm : SubscriberManager σ) (fuel : Nat) (w : World σ)
    (public_id : String) (event_trigger : EventTrigger) : Option (HTTPCode × World σ) :=
  match sm.get_cached_default_id w public_id "" irs_info.new with
  | (rc, aor_id, info, w) =>
    if rc ≠ HTTP_OK then some (rc, w)
    else
      match deregister_subscriber_loop sm aor_id fuel w with
      | none => none
      | some (LoopExit.returned rc w) => some (rc, w)
      | some (LoopExit.left rc orig_aor w) =>
        if rc ≠ HTTP_OK ∧ rc ≠ HTTP_NO_CONTENT then some (rc, w)
        else
          let dereg_reason :=
            if event_trigger = EventTrigger.USER then DEREG_USER else DEREG_ADMIN
          match orig_aor with
          | none => none
          | some orig_aor =>
            match sm.deregister_with_hss w aor_id dereg_reason orig_aor._scscf_uri info with
            | (_rc, _info, w) => some (HTTP_OK, w)

/-- Embedding of `SubscriberManager::send_notifys`.  The notify sender returns
nothing and shares no state with the store and the HSS: the call is recorded with the
arguments the code passes and the collaborator state is left as it is.  Both
conditional expressions dereference `orig_aor` when `updated_aor` is null.  The CSeq
is an `int`: `orig_aor->_notify_cseq + 1` is computed in 32-bit arithmetic. -/
def send_notifys (_sm : SubscriberManager σ) (w : World σ) (aor_id : String)
    (_event_trigger : EventTrigger) (classified_bindings : ClassifiedBindings)
    (classified_subscriptions : ClassifiedSubscriptions) (orig_aor : Option AoR)
    (updated_aor : Option AoR) (now : Int) : Option (World σ) :=
  match updated_aor with
  | some updated_aor =>
    some (w.call
      (Call.send_notifys aor_id classified_bindings classified_subscriptions
        updated_aor._associated_uris updated_aor._notify_cseq now) w.state)
  | none =>
    match orig_aor with
    | none => none
    | some orig_aor =>
      some (w.call
        (Call.send_notifys aor_id classified_bindings classified_subscriptions
          orig_aor._associated_uris (int32_add orig_aor._notify_cseq 1) now) w.state)

/-- Embedding of `SubscriberManager::log_shortened_bindings`.  The analytics logger
returns nothing: each `registration` call is recorded with its arguments and the
collaborator state is left as it is. -/
def log_shortened_bindings (_sm : SubscriberManager σ) (w : World σ)
    (classified_bindings : ClassifiedBindings) (_now : Int) : World σ :=
  classified_bindings.foldl
    (fun w cb =>
      if cb._contact_event = ContactEvent.EXPIRED ∨
          cb._contact_event = ContactEvent.DEACTIVATED ∨
          cb._contact_event = ContactEvent.UNREGISTERED then
        w.call (Call.registration cb._binding._address_of_record cb._id cb._binding._uri 0)
          w.state
      else w)
    w

/-- Embedding of `SubscriberManager::log_lengthened_bindings`. -/
def log_lengthened_bindings (_sm : SubscriberManager σ) (w : World σ)
    (classified_bindings : ClassifiedBindings) (now : Int) : World σ :=
  classified_bindings.foldl
    (fun w cb =>
      if cb._contact_event = ContactEvent.CREATED ∨
          cb._contact_event = ContactEvent.REFRESHED ∨
          cb._contact_event = ContactEvent.SHORTENED then
        w.call
          (Call.registration cb._binding._address_of_record cb._id cb._binding._uri
            (cb._binding._expires - now))
          w.state
      else w)
    w

/-- Embedding of `SubscriberManager::log_shortened_subscriptions`. -/
def log_shortened_subscriptions (_sm : SubscriberManager σ) (w : World σ)
    (classified_subscriptions : ClassifiedSubscriptions) (_now : Int) : World σ :=
  classified_subscriptions.foldl
    (fun w cs =>
      if cs._subscription_event = SubscriptionEvent.EXPIRED ∨
          cs._subscription_event = SubscriptionEvent.TERMINATED then
        w.call (Call.subscription cs._aor_id cs._id cs._subscription._req_uri 0) w.state
      else w)
    w

/-- Embedding of `SubscriberManager::log_lengthened_subscriptions`. -/
def log_lengthened_subscriptions (_sm : SubscriberManager σ) (w : World σ)
    (classified_subscriptions : ClassifiedSubscriptions) (now : Int) : World σ :=
  classified_subscriptions.foldl
    (fun w cs =>
      if cs._subscription_event = SubscriptionEvent.CREATED ∨
          cs._subscription_event = SubscriptionEvent.REFRESHED ∨
          cs._subscription_event = SubscriptionEvent.SHORTENED then
        w.call
          (Call.subscription cs._aor_id cs._id cs._subscription._req_uri
            (cs._subscription._expires - now))
          w.state
      else w)
    w

/-- Embedding of `SubscriberManager::get_bindings`. -/
def get_bindings (sm : SubscriberManager σ) (w : World σ) (public_id : String)
    (bindings : Bindings) : Option (HTTPCode × Bindings × World σ) :=
  match sm._s4.handle_get w.state public_id with
  | (rc, aor, _unused_version, st) =>
    let w := w.call (Call.handle_get public_id) st
    if rc ≠ HTTP_OK then some (rc, bindings, w)
    else
      match aor with
      | none => none
      | some aor => some (HTTP_OK, AoRUtils.copy_bindings aor.bindings, w)

/-- Embedding of `SubscriberManager::get_subscriptions`. -/
def get_subscriptions (sm : SubscriberManager σ) (w : World σ) (public_id : String)
    (subscriptions : Subscriptions) : Option (HTTPCode × Subscriptions × World σ) :=
  match sm._s4.handle_get w.state public_id with
  | (rc, aor, _unused_version, st) =>
    let w := w.call (Call.handle_get public_id) st
    if rc ≠ HTTP_OK then some (rc, subscriptions, w)
    else
      match aor with
      | none => none
      | some aor => some (HTTP_OK, AoRUtils.copy_subscriptions aor.subscriptions, w)

/-- Embedding of `SubscriberManager::update_associated_uris`. -/
def update_associated_uris (sm : SubscriberManager σ) (w : World σ) (aor_id : String)
    (associated_uris : AssociatedURIs) : HTTPCode × World σ :=
  match sm._s4.handle_get w.state aor_id with
  | (rc, _orig_aor, _unused_version, st) =>
    let w := w.call (Call.handle_get aor_id) st
    if rc ≠ HTTP_OK then (rc, w)
    else
      match sm.patch_associated_uris w aor_id associated_uris with
      | (rc, _updated_aor, w) =>
        if rc ≠ HTTP_OK then (rc, w)
        else (HTTP_OK, w)

end SubscriberManager

/-! ## Classification -/

/-- The signature of `SubscriberDataUtils::classify_bindings`, which is not part of
the sources: AoR id, trigger, original and updated bindings, and the vector it
appends to, whose value after the call is the result. -/
abbrev BindingClassifier :=
  String → EventTrigger → Bindings → Bindings → ClassifiedBindings → ClassifiedBindings

/-- The signature of `SubscriberDataUtils::classify_subscriptions`, which is not part
of the sources: AoR id, trigger, original and updated subscriptions, the classified
bindings, the associated-URIs-changed flag, and the vector it appends to. -/
abbrev SubscriptionClassifier :=
  String → EventTrigger → Subscriptions → Subscriptions → ClassifiedBindings → Bool →
    ClassifiedSubscriptions → ClassifiedSubscriptions

/-- Embedding of the free function `classify_bindings_and_subscriptions`; the two
classifiers it calls are parameters.  The result carries the values of the two
reference parameters after the call.  `!=` on `AssociatedURIs` is taken to compare
the sequences of (uri, barred?) pairs. -/
def classify_bindings_and_subscriptions (classify_bindings : BindingClassifier)
    (classify_subscriptions : SubscriptionClassifier) (aor_id : String)
    (event_trigger : EventTrigger) (orig_aor : Option AoR) (updated_aor : Option AoR)
    (classified_bindings : ClassifiedBindings)
    (classified_subscriptions : ClassifiedSubscriptions) :
    ClassifiedBindings × ClassifiedSubscriptions :=
  let classified_bindings :=
    classify_bindings aor_id event_trigger
      (match orig_aor with
        | some a => a.bindings
        | none => [])
      (match updated_aor with
        | some a => a.bindings
        | none => [])
      classified_bindings
  let associated_uris_changed : Bool := false
  let associated_uris_changed : Bool :=
    match orig_aor, updated_aor with
    | some o, some u => decide (o._associated_uris ≠ u._associated_uris)
    | _, _ => associated_uris_changed
  let classified_subscriptions :=
    classify_subscriptions aor_id event_trigger
      (match orig_aor with
        | some a => a.subscriptions
        | none => [])
      (match updated_aor with
        | some a => a.subscriptions
        | none => [])
      classified_bindings associated_uris_changed classified_subscriptions
  (classified_bindings, classified_subscriptions)

/-! ## The cascade applied to an AoR -/

/-- The AoR obtained from `aor` by removing the listed bindings, then applying the
binding updates, then removing the subscriptions that `subscriptions_to_remove`
returns for `aor`. -/
def cascade_remove_then_update (aor : AoR) (updated_bindings : Bindings)
    (binding_ids_to_remove : List String) : AoR :=
  { aor with
    _bindings :=
      updated_bindings.foldl map_put (binding_ids_to_remove.foldl map_erase aor._bindings)
    _subscriptions :=
      (subscriptions_to_remove aor.bindings aor.subscriptions updated_bindings
        binding_ids_to_remove).foldl map_erase aor._subscriptions }

/-- The same as `cascade_remove_then_update` with the binding updates applied before
the removals. -/
def cascade_update_then_remove (aor : AoR) (updated_bindings : Bindings)
    (binding_ids_to_remove : List String) : AoR :=
  { aor with
    _bindings :=
      binding_ids_to_remove.foldl map_erase (updated_bindings.foldl map_put aor._bindings)
    _subscriptions :=
      (subscriptions_to_remove aor.bindings aor.subscriptions updated_bindings
        binding_ids_to_remove).foldl map_erase aor._subscriptions }

end Sprout

namespace Sprout

/-! ## Fixtures: mocked collaborators and sample data -/

/-- A store that answers every call with fixed values, like the `MockS4` of the unit
tests; it has no state of its own. -/
def MockS4 (get_rc : HTTPCode) (get_aor : Option AoR) (get_version : Nat)
    (put_rc : HTTPCode) (patch_rc : HTTPCode) (patched_aor : Option AoR)
    (delete_rc : HTTPCode) : S4 Unit :=
  { handle_get := fun _ _ => (get_rc, get_aor, get_version, ())
    handle_put := fun _ _ _ => (put_rc, ())
    handle_patch := fun _ _ _ => (patch_rc, patched_aor, ())
    handle_delete := fun _ _ _ => (delete_rc, ()) }

/-- An HSS connection that answers every call with fixed values, like the
`MockHSSConnection` of the unit tests. -/
def MockHSSConnection (get_rc : HTTPCode) (get_info : irs_info) (update_rc : HTTPCode) :
    HSSConnection Unit :=
  { get_registration_data := fun _ _ _ => (get_rc, get_info, ())
    update_registration_state := fun _ _ info => (update_rc, info, ()) }

/-- A binding with the given address of record and contact URI. -/
def sample_binding (aor uri : String) : Binding :=
  { _address_of_record := aor, _uri := uri, _cid := "call-1", _cseq := 1, _expires := 300,
    _priority := 0, _path_headers := [], _private_id := "", _emergency_registration := false,
    _timer_id := "" }

/-- A subscription with the given request URI. -/
def sample_subscription (req_uri : String) : Subscription :=
  { _req_uri := req_uri, _from_uri := "sip:w@example.com", _from_tag := "ft",
    _to_uri := "sip:example.com", _to_tag := "tt", _cid := "call-2", _route_uris := [],
    _expires := 300, _notify_cseq := 1 }

/-- An AoR for `sip:example.com` with the given bindings and subscriptions. -/
def sample_aor (bindings : Bindings) (subscriptions : Subscriptions) : AoR :=
  { _uri := "sip:example.com", _notify_cseq := 1,
    _associated_uris := [("sip:example.com", false)],
    _scscf_uri := "scscf.sprout.site1.example.com",
    _bindings := bindings, _subscriptions := subscriptions }

/-- The IRS of the unit tests: one unbarred URI, `sip:example.com`. -/
def sample_irs_info : irs_info := { _associated_uris := [("sip:example.com", false)] }

/-- An IRS without a default IMPU: its only URI is barred. -/
def barred_irs_info : irs_info := { _associated_uris := [("sip:example.com", true)] }

/-- A registered subscriber: the binding `b1` with contact `sip:a@1` and the
subscription `s1` whose request URI is that contact. -/
def registered_aor : AoR :=
  sample_aor [("b1", sample_binding "sip:example.com" "sip:a@1")]
    [("s1", sample_subscription "sip:a@1")]

/-- A manager whose collaborators all succeed: the HSS returns the sample IRS, the GET
returns `registered_aor` at version 7, the PATCH returns an AoR without bindings. -/
def succeeding_manager : SubscriberManager Unit :=
  { _s4 := MockS4 200 (some registered_aor) 7 200 200 (some (sample_aor [] [])) 200
    _hss_connection := MockHSSConnection 200 sample_irs_info 200 }

/-- A store in conflict: its state is the number of version conflicts still to come.
A GET answers 200 with the given AoR and that number as the version; a DELETE or a
PATCH answers 412 while conflicts remain (using one up), then 204, respectively 200
with the given post-image. -/
def ConflictingS4 (aor : AoR) (patched : Option AoR) : S4 Nat :=
  { handle_get := fun st _ => (HTTP_OK, some aor, st, st)
    handle_put := fun st _ _ => (HTTP_OK, st)
    handle_patch := fun st _ _ =>
      match st with
      | 0 => (HTTP_OK, patched, 0)
      | k + 1 => (HTTP_PRECONDITION_FAILED, none, k)
    handle_delete := fun st _ _ =>
      match st with
      | 0 => (HTTP_NO_CONTENT, 0)
      | k + 1 => (HTTP_PRECONDITION_FAILED, k) }

/-- An HSS connection that answers every call with fixed values and leaves the
collaborator state, of any type, as it is. -/
def SteadyHSSConnection (σ : Type) (get_rc : HTTPCode) (get_info : irs_info)
    (update_rc : HTTPCode) : HSSConnection σ :=
  { get_registration_data := fun st _ _ => (get_rc, get_info, st)
    update_registration_state := fun st _ info => (update_rc, info, st) }

/-- A manager in front of a store in conflict; the HSS returns the sample IRS. -/
def conflicting_manager (aor : AoR) (patched : Option AoR) : SubscriberManager Nat :=
  { _s4 := ConflictingS4 aor patched
    _hss_connection := SteadyHSSConnection Nat 200 sample_irs_info 200 }

/-- The calls of the retry loop against a store with `k` conflicts to come: `k + 1`
GET/DELETE pairs, the versions counting down from `k`. -/
def retry_calls (aor_id : String) : Nat → List Call
  | 0 => [Call.handle_get aor_id, Call.handle_delete aor_id 0]
  | k + 1 =>
    Call.handle_get aor_id :: Call.handle_delete aor_id (k + 1) :: retry_calls aor_id k

/-- The state of the model store: for each AoR id, the stored AoR and its version. -/
abbrev StoreState := List (String × (AoR × Nat))

/-- Modelled from the spec: the S4 store protocol.  GET answers 200 with the stored
AoR and its version, 404 when absent; PUT answers 200 and stores the AoR; PATCH
answers 200 with the post-image, 404 when absent; it stores the post-image under the
next version, unless the mutation leaves the bindings empty, in which case the AoR is
deleted (the implicit deletion of the AoR lifecycle); DELETE answers 204 and removes
the AoR when the version is the stored one, 412 when it is not, 404 when absent. -/
def ModelS4 : S4 StoreState :=
  { handle_get := fun st aor_id =>
      match st.lookup aor_id with
      | some (aor, version) => (HTTP_OK, some aor, version, st)
      | none => (HTTP_NOT_FOUND, none, 0, st)
    handle_put := fun st aor_id aor => (HTTP_OK, map_put st (aor_id, (aor, 0)))
    handle_patch := fun st aor_id po =>
      match st.lookup aor_id with
      | some (aor, version) =>
        if (aor.patch_aor po).bindings.isEmpty then
          (HTTP_OK, some (aor.patch_aor po), map_erase st aor_id)
        else
          (HTTP_OK, some (aor.patch_aor po),
            map_put st (aor_id, (aor.patch_aor po, version + 1)))
      | none => (HTTP_NOT_FOUND, none, st)
    handle_delete := fun st aor_id version =>
      match st.lookup aor_id with
      | some (_, stored) =>
        if version = stored then (HTTP_NO_CONTENT, map_erase st aor_id)
        else (HTTP_PRECONDITION_FAILED, st)
      | none => (HTTP_NOT_FOUND, st) }

/-- A manager in front of the model store; the HSS answers every call with 200 and
the given IRS. -/
def model_manager (info : irs_info) : SubscriberManager StoreState :=
  { _s4 := ModelS4
    _hss_connection := SteadyHSSConnection StoreState 200 info 200 }

/-- A subscriber with two bindings that share the contact `sip:a@1`, and the
subscription `s1` whose request URI is that contact. -/
def shared_contact_aor : AoR :=
  sample_aor
    [("b1", sample_binding "sip:example.com" "sip:a@1"),
     ("b2", sample_binding "sip:example.com" "sip:a@1")]
    [("s1", sample_subscription "sip:a@1")]

/-- A world whose model store holds the registered subscriber, with its single
binding `b1`, at version 0. -/
def single_binding_world : World StoreState :=
  { state := [("sip:example.com", (registered_aor, 0))], calls := [] }

/-- A world whose model store holds `shared_contact_aor` at version 0. -/
def stored_world : World StoreState :=
  { state := [("sip:example.com", (shared_contact_aor, 0))], calls := [] }

/-- The empty world: unit collaborator state, no call made yet. -/
def world0 : World Unit := { state := (), calls := [] }

end Sprout

namespace Sprout

theorem mem_missing_uris_of_removed (orig_bindings : Bindings) (ids : List String)
    (missing : List String) (u : String) :
    u ∈ missing_uris_of_removed orig_bindings ids missing ↔
      u ∈ missing ∨ ∃ bid, bid ∈ ids ∧ ∃ b, orig_bindings.lookup bid = some b ∧ b._uri = u := by
  induction ids generalizing missing with
  | nil => simp [missing_uris_of_removed]
  | cons id rest ih =>
    have step : missing_uris_of_removed orig_bindings (id :: rest) missing =
        missing_uris_of_removed orig_bindings rest
          (match orig_bindings.lookup id with
            | some b => missing.insert b._uri
            | none => missing) := rfl
    rw [step, ih]
    cases hl : orig_bindings.lookup id with
    | none =>
      constructor
      · rintro (h | ⟨bid, hb, b, hlk, hu⟩)
        · exact Or.inl h
        · exact Or.inr ⟨bid, List.mem_cons_of_mem _ hb, b, hlk, hu⟩
      · rintro (h | ⟨bid, hb, b, hlk, hu⟩)
        · exact Or.inl h
        · rcases List.mem_cons.mp hb with rfl | hb
          · rw [hl] at hlk; cases hlk
          · exact Or.inr ⟨bid, hb, b, hlk, hu⟩
    | some b0 =>
      simp only [List.mem_insert_iff]
      constructor
      · rintro ((h | h) | ⟨bid, hb, b, hlk, hu⟩)
        · exact Or.inr ⟨id, List.mem_cons_self _ _, b0, hl, h.symm⟩
        · exact Or.inl h
        · exact Or.inr ⟨bid, List.mem_cons_of_mem _ hb, b, hlk, hu⟩
      · rintro (h | ⟨bid, hb, b, hlk, hu⟩)
        · exact Or.inl (Or.inr h)
        · rcases List.mem_cons.mp hb with rfl | hb
          · rw [hl] at hlk
            cases hlk
            exact Or.inl (Or.inl hu.symm)
          · exact Or.inr ⟨bid, hb, b, hlk, hu⟩

theorem mem_missing_uris_of_updated (orig_bindings : Bindings) (upd : Bindings)
    (missing : List String) (u : String) :
    u ∈ missing_uris_of_updated orig_bindings upd missing ↔
      u ∈ missing ∨ ∃ bid nb, (bid, nb) ∈ upd ∧
        ∃ b, orig_bindings.lookup bid = some b ∧ b._uri ≠ nb._uri ∧ b._uri = u := by
  induction upd generalizing missing with
  | nil => simp [missing_uris_of_updated]
  | cons bp rest ih =>
    have step : missing_uris_of_updated orig_bindings (bp :: rest) missing =
        missing_uris_of_updated orig_bindings rest
          (match orig_bindings.lookup bp.1 with
            | some b => if b._uri ≠ bp.2._uri then missing.insert b._uri else missing
            | none => missing) := rfl
    rw [step, ih]
    obtain ⟨k, nb0⟩ := bp
    cases hl : orig_bindings.lookup k with
    | none =>
      constructor
      · rintro (h | ⟨bid, nb, hb, b, hlk, hne, hu⟩)
        · exact Or.inl h
        · exact Or.inr ⟨bid, nb, List.mem_cons_of_mem _ hb, b, hlk, hne, hu⟩
      · rintro (h | ⟨bid, nb, hb, b, hlk, hne, hu⟩)
        · exact Or.inl h
        · rcases List.mem_cons.mp hb with heq | hb
          · cases heq
            rw [hl] at hlk; cases hlk
          · exact Or.inr ⟨bid, nb, hb, b, hlk, hne, hu⟩
    | some b0 =>
      by_cases hne0 : b0._uri = nb0._uri
      · simp only [hne0, ne_eq, not_true_eq_false, if_false]
        constructor
        · rintro (h | ⟨bid, nb, hb, b, hlk, hne, hu⟩)
          · exact Or.inl h
          · exact Or.inr ⟨bid, nb, List.mem_cons_of_mem _ hb, b, hlk, hne, hu⟩
        · rintro (h | ⟨bid, nb, hb, b, hlk, hne, hu⟩)
          · exact Or.inl h
          · rcases List.mem_cons.mp hb with heq | hb
            · cases heq
              rw [hl] at hlk; cases hlk
              exact absurd hne0 hne
            · exact Or.inr ⟨bid, nb, hb, b, hlk, hne, hu⟩
      · simp only [hne0, ne_eq, not_false_eq_true, if_true, List.mem_insert_iff]
        constructor
        · rintro ((h | h) | ⟨bid, nb, hb, b, hlk, hne, hu⟩)
          · exact Or.inr ⟨k, nb0, List.mem_cons_self _ _, b0, hl, hne0, h.symm⟩
          · exact Or.inl h
          · exact Or.inr ⟨bid, nb, List.mem_cons_of_mem _ hb, b, hlk, hne, hu⟩
        · rintro (h | ⟨bid, nb, hb, b, hlk, hne, hu⟩)
          · exact Or.inl (Or.inr h)
          · rcases List.mem_cons.mp hb with heq | hb
            · cases heq
              rw [hl] at hlk; cases hlk
              exact Or.inl (Or.inl hu.symm)
            · exact Or.inr ⟨bid, nb, hb, b, hlk, hne, hu⟩

theorem mem_collect_subscriptions (missing : List String) (subs : Subscriptions)
    (acc : List String) (sid : String) :
    sid ∈ subs.foldl
        (fun subscription_ids_to_remove sp =>
          if sp.2._req_uri ∈ missing then subscription_ids_to_remove ++ [sp.1]
          else subscription_ids_to_remove) acc ↔
      sid ∈ acc ∨ ∃ s, (sid, s) ∈ subs ∧ s._req_uri ∈ missing := by
  induction subs generalizing acc with
  | nil => simp
  | cons sp rest ih =>
    obtain ⟨k, s0⟩ := sp
    rw [List.foldl_cons, ih]
    by_cases hm : s0._req_uri ∈ missing
    · simp only [hm, if_true, List.mem_append, List.mem_cons, Prod.mk.injEq, List.not_mem_nil,
        or_false]
      constructor
      · rintro ((h | h) | ⟨s, hs, hu⟩)
        · exact Or.inl h
        · exact Or.inr ⟨s0, Or.inl ⟨h, rfl⟩, hm⟩
        · exact Or.inr ⟨s, Or.inr hs, hu⟩
      · rintro (h | ⟨s, (⟨h1, h2⟩ | hs), hu⟩)
        · exact Or.inl (Or.inl h)
        · exact Or.inl (Or.inr h1)
        · exact Or.inr ⟨s, hs, hu⟩
    · simp only [hm, if_false, List.mem_cons, Prod.mk.injEq]
      constructor
      · rintro (h | ⟨s, hs, hu⟩)
        · exact Or.inl h
        · exact Or.inr ⟨s, Or.inr hs, hu⟩
      · rintro (h | ⟨s, (⟨h1, h2⟩ | hs), hu⟩)
        · exact Or.inl h
        · subst h2; exact absurd hu hm
        · exact Or.inr ⟨s, hs, hu⟩

/-- C1. `subscriptions_to_remove` computes exactly the cascade: a subscription id is
in the result if and only if it is a key of the original subscriptions and its
`req_uri` is the original contact URI of a binding that is either named in
`binding_ids_to_remove` and found in the original bindings, or found in the original
bindings and present in the update-bindings under the same id with a different
contact URI. -/
theorem subscriptions_to_remove_iff (orig_bindings : Bindings)
    (orig_subscriptions : Subscriptions) (bindings_to_update : Bindings)
    (binding_ids_to_remove : List String) (sid : String) :
    sid ∈ subscriptions_to_remove orig_bindings orig_subscriptions bindings_to_update
        binding_ids_to_remove ↔
      ∃ s, (sid, s) ∈ orig_subscriptions ∧
        ∃ bid b, orig_bindings.lookup bid = some b ∧ s._req_uri = b._uri ∧
          (bid ∈ binding_ids_to_remove ∨
            ∃ nb, (bid, nb) ∈ bindings_to_update ∧ b._uri ≠ nb._uri) := by
  unfold subscriptions_to_remove
  simp only [mem_collect_subscriptions, mem_missing_uris_of_updated,
    mem_missing_uris_of_removed, List.not_mem_nil, false_or]
  constructor
  · rintro ⟨s, hs, (⟨bid, hb, b, hlk, hu⟩ | ⟨bid, nb, hb, b, hlk, hne, hu⟩)⟩
    · exact ⟨s, hs, bid, b, hlk, hu.symm, Or.inl hb⟩
    · exact ⟨s, hs, bid, b, hlk, hu.symm, Or.inr ⟨nb, hb, hne⟩⟩
  · rintro ⟨s, hs, bid, b, hlk, hu, (hb | ⟨nb, hb, hne⟩)⟩
    · exact ⟨s, hs, Or.inl ⟨bid, hb, b, hlk, hu.symm⟩⟩
    · exact ⟨s, hs, Or.inr ⟨bid, nb, hb, b, hlk, hne, hu.symm⟩⟩

end Sprout

namespace Sprout

open SubscriberManager

/-! ## Resolving the default public identity -/

theorem get_cached_default_id_found {σ : Type} (sm : SubscriberManager σ) (w : World σ)
    (public_id aor_id0 aor_id : String) (info0 info : irs_info) (st : σ)
    (hhss : sm._hss_connection.get_registration_data w.state public_id info0 =
      (HTTP_OK, info, st))
    (himpu : info._associated_uris.get_default_impu = some aor_id) :
    sm.get_cached_default_id w public_id aor_id0 info0 =
      (HTTP_OK, aor_id, info, w.call (Call.get_registration_data public_id) st) := by
  simp only [get_cached_default_id, get_cached_subscriber_state, hhss, himpu, ne_eq,
    not_true_eq_false, if_false]

theorem get_cached_default_id_no_default {σ : Type} (sm : SubscriberManager σ) (w : World σ)
    (public_id aor_id0 : String) (info0 info : irs_info) (st : σ)
    (hhss : sm._hss_connection.get_registration_data w.state public_id info0 =
      (HTTP_OK, info, st))
    (himpu : info._associated_uris.get_default_impu = none) :
    sm.get_cached_default_id w public_id aor_id0 info0 =
      (HTTP_BAD_REQUEST, aor_id0, info, w.call (Call.get_registration_data public_id) st) := by
  simp only [get_cached_default_id, get_cached_subscriber_state, hhss, himpu, ne_eq,
    not_true_eq_false, if_false]

theorem get_cached_default_id_failed {σ : Type} (sm : SubscriberManager σ) (w : World σ)
    (public_id aor_id0 : String) (info0 info : irs_info) (rc : HTTPCode) (st : σ)
    (hhss : sm._hss_connection.get_registration_data w.state public_id info0 = (rc, info, st))
    (hrc : rc ≠ HTTP_OK) :
    sm.get_cached_default_id w public_id aor_id0 info0 =
      (rc, aor_id0, info, w.call (Call.get_registration_data public_id) st) := by
  simp only [get_cached_default_id, get_cached_subscriber_state, hhss, ne_eq, hrc,
    not_false_eq_true, if_true]

end Sprout

namespace Sprout

open SubscriberManager

/-! ## Maps as association lists -/

theorem lookup_of_mem_of_nodup_keys {β : Type} (m : List (String × β)) (k : String) (v : β)
    (hnd : (m.map Prod.fst).Nodup) (hmem : (k, v) ∈ m) : m.lookup k = some v := by
  induction m with
  | nil => cases hmem
  | cons p rest ih =>
    obtain ⟨k0, v0⟩ := p
    rw [List.map_cons, List.nodup_cons] at hnd
    rcases List.mem_cons.mp hmem with heq | hrest
    · cases heq
      simp [List.lookup]
    · have hne : k ≠ k0 := by
        intro h
        subst h
        exact hnd.1 (List.mem_map.mpr ⟨(k, v), hrest, rfl⟩)
      have hb : (k == k0) = false := by simpa using hne
      rw [List.lookup_cons, hb]
      exact ih hnd.2 hrest

theorem mem_map_erase {β : Type} (m : List (String × β)) (k : String) (p : String × β) :
    p ∈ map_erase m k ↔ p ∈ m ∧ p.1 ≠ k := by
  simp [map_erase]

theorem mem_foldl_map_erase {β : Type} (ids : List String) (m : List (String × β))
    (p : String × β) : p ∈ ids.foldl map_erase m ↔ p ∈ m ∧ p.1 ∉ ids := by
  induction ids generalizing m with
  | nil => simp
  | cons k rest ih =>
    rw [List.foldl_cons, ih, mem_map_erase]
    simp only [List.mem_cons, not_or]
    tauto

theorem mem_map_put {β : Type} (m : List (String × β)) (q p : String × β) :
    p ∈ map_put m q ↔ (p ∈ m ∧ p.1 ≠ q.1) ∨ p = q := by
  simp [map_put]

theorem foldl_map_put_keeps_uri (upd : Bindings) (m : Bindings) (bid u : String)
    (hall : ∀ nb, (bid, nb) ∈ upd → nb._uri = u)
    (hm : ∃ x, (bid, x) ∈ m ∧ x._uri = u) :
    ∃ x, (bid, x) ∈ upd.foldl map_put m ∧ x._uri = u := by
  induction upd generalizing m with
  | nil => simpa using hm
  | cons q rest ih =>
    rw [List.foldl_cons]
    apply ih
    · intro nb hnb
      exact hall nb (List.mem_cons_of_mem _ hnb)
    · obtain ⟨k, nb0⟩ := q
      by_cases hk : bid = k
      · subst hk
        exact ⟨nb0, (mem_map_put _ _ _).mpr (Or.inr rfl), hall nb0 (List.mem_cons_self _ _)⟩
      · obtain ⟨x, hx, hu⟩ := hm
        exact ⟨x, (mem_map_put _ _ _).mpr (Or.inl ⟨hx, hk⟩), hu⟩

/-! ## Cascade completeness of patched AoRs -/

/-- Applying the patch built by `patch_bindings` with the cascaded subscription
removals to a cascade-complete AoR whose bindings have distinct ids yields a
cascade-complete AoR. -/
theorem cascade_complete_patch_bindings (aor : AoR) (update_bindings : Bindings)
    (remove_bindings : List String) (associated_uris : AssociatedURIs)
    (hmap : (aor.bindings.map Prod.fst).Nodup) (hp2 : cascade_complete aor) :
    cascade_complete
      (aor.patch_aor
        (patch_bindings_object update_bindings remove_bindings
          (subscriptions_to_remove aor.bindings aor.subscriptions update_bindings
            remove_bindings) associated_uris)) := by
  intro sp hsp
  simp only [AoR.subscriptions, AoR.patch_aor, patch_bindings_object, PatchObject.new,
    PatchObject.set_update_bindings, PatchObject.set_remove_bindings,
    PatchObject.set_remove_subscriptions, PatchObject.set_associated_uris,
    PatchObject.set_increment_cseq, AoRUtils.copy_bindings, List.foldl_nil] at hsp
  rw [mem_foldl_map_erase] at hsp
  obtain ⟨hmem, hkeep⟩ := hsp
  have huri := hp2 sp hmem
  simp only [contact_uris, List.mem_map] at huri
  obtain ⟨bp, hbp, hbu⟩ := huri
  obtain ⟨bid, b⟩ := bp
  have hlk : aor.bindings.lookup bid = some b := lookup_of_mem_of_nodup_keys _ _ _ hmap hbp
  -- the binding is neither removed nor moved to another contact
  have hnot : sp.2._req_uri ∉
      missing_uris_of_updated aor.bindings update_bindings
        (missing_uris_of_removed aor.bindings remove_bindings []) := by
    intro hin
    apply hkeep
    have : sp.1 ∈ subscriptions_to_remove aor.bindings aor.subscriptions update_bindings
        remove_bindings := by
      unfold subscriptions_to_remove
      exact (mem_collect_subscriptions _ _ _ _).mpr (Or.inr ⟨sp.2, hmem, hin⟩)
    exact this
  rw [mem_missing_uris_of_updated, mem_missing_uris_of_removed] at hnot
  simp only [List.not_mem_nil, false_or, not_or, not_exists, not_and] at hnot
  obtain ⟨hrem, hupd⟩ := hnot
  have hbid : bid ∉ remove_bindings := fun h => hrem bid h b hlk hbu
  have hall : ∀ nb, (bid, nb) ∈ update_bindings → nb._uri = sp.2._req_uri := by
    intro nb hnb
    by_contra hne
    exact hupd bid nb hnb b hlk (fun h => hne (by rw [← h]; exact hbu)) hbu
  obtain ⟨x, hx, hxu⟩ := foldl_map_put_keeps_uri update_bindings aor._bindings bid
    sp.2._req_uri hall ⟨b, hbp, hbu⟩
  simp only [contact_uris, AoR.bindings, AoR.patch_aor, patch_bindings_object,
    PatchObject.new, PatchObject.set_update_bindings, PatchObject.set_remove_bindings,
    PatchObject.set_remove_subscriptions, PatchObject.set_associated_uris,
    PatchObject.set_increment_cseq, AoRUtils.copy_bindings, List.mem_map]
  exact ⟨(bid, x), (mem_foldl_map_erase _ _ _).mpr ⟨hx, hbid⟩, hxu⟩

/-- Applying the patch built by `patch_subscription` to a cascade-complete AoR yields
a cascade-complete AoR, provided the subscription to update, if any, has the contact
URI of a binding as its `req_uri`. -/
theorem cascade_complete_patch_subscription (aor : AoR) (update_subscription : SubscriptionPair)
    (remove_subscription : String) (hp2 : cascade_complete aor)
    (hnew : ∀ s, update_subscription.2 = some s → s._req_uri ∈ contact_uris aor.bindings) :
    cascade_complete
      (aor.patch_aor (patch_subscription_object update_subscription remove_subscription)) := by
  obtain ⟨sid, os⟩ := update_subscription
  intro sp hsp
  have hb : (aor.patch_aor (patch_subscription_object (sid, os) remove_subscription)).bindings
      = aor.bindings := by
    simp [AoR.bindings, AoR.patch_aor, patch_subscription_object, PatchObject.new,
      PatchObject.set_update_subscriptions, PatchObject.set_remove_subscriptions,
      PatchObject.set_increment_cseq]
  rw [hb]
  cases os with
  | none =>
    simp only [AoR.subscriptions, AoR.patch_aor, patch_subscription_object, PatchObject.new,
      PatchObject.set_update_subscriptions, PatchObject.set_remove_subscriptions,
      PatchObject.set_increment_cseq, AoRUtils.copy_subscriptions, List.foldl_nil] at hsp
    rw [mem_foldl_map_erase] at hsp
    exact hp2 sp hsp.1
  | some s =>
    simp only [AoR.subscriptions, AoR.patch_aor, patch_subscription_object, PatchObject.new,
      PatchObject.set_update_subscriptions, PatchObject.set_remove_subscriptions,
      PatchObject.set_increment_cseq, AoRUtils.copy_subscriptions, map_insert,
      List.lookup_nil, List.nil_append, List.foldl_cons, List.foldl_nil] at hsp
    rw [mem_map_erase, mem_map_put] at hsp
    rcases hsp.1 with ⟨hold, _⟩ | hnewsp
    · exact hp2 sp hold
    · subst hnewsp
      exact hnew s rfl

/-- Applying the patch built by `patch_associated_uris` changes neither the bindings
nor the subscriptions. -/
theorem cascade_complete_patch_associated_uris (aor : AoR) (associated_uris : AssociatedURIs)
    (hp2 : cascade_complete aor) :
    cascade_complete (aor.patch_aor (patch_associated_uris_object associated_uris)) := by
  intro sp hsp
  simp only [AoR.subscriptions, AoR.patch_aor, patch_associated_uris_object, PatchObject.new,
    PatchObject.set_associated_uris, PatchObject.set_increment_cseq, List.foldl_nil] at hsp
  simpa [AoR.bindings, AoR.patch_aor, patch_associated_uris_object, PatchObject.new,
    PatchObject.set_associated_uris, PatchObject.set_increment_cseq] using hp2 sp hsp

theorem patches_sent_append (l1 l2 : List Call) :
    patches_sent (l1 ++ l2) = patches_sent l1 ++ patches_sent l2 := by
  simp [patches_sent, List.filterMap_append]

end Sprout

namespace Sprout

open SubscriberManager

/-- C2, counterexample. The snapshot with the single binding `b1` (contact `sip:a@1`)
and no subscription is cascade complete; `update_subscription` with a subscription
whose `req_uri` is `sip:other@9` succeeds (HSS 200, GET 200, PATCH 200) and sends one
patch; applying that patch to the snapshot yields an AoR with a subscription whose
`req_uri` is the contact URI of no binding. -/
theorem update_subscription_breaks_cascade_completeness :
    cascade_complete (sample_aor [("b1", sample_binding "sip:example.com" "sip:a@1")] []) ∧
    ((SubscriberManager.mk
        (MockS4 200 (some (sample_aor [("b1", sample_binding "sip:example.com" "sip:a@1")] []))
          7 200 200
          (some ((sample_aor [("b1", sample_binding "sip:example.com" "sip:a@1")] []).patch_aor
            (patch_subscription_object ("1234", some (sample_subscription "sip:other@9")) "")))
          200)
        (MockHSSConnection 200 sample_irs_info 200)).update_subscription world0
        "sip:example.com" ("1234", some (sample_subscription "sip:other@9")) irs_info.new).1
      = HTTP_OK ∧
    patches_sent
      ((SubscriberManager.mk
        (MockS4 200 (some (sample_aor [("b1", sample_binding "sip:example.com" "sip:a@1")] []))
          7 200 200
          (some ((sample_aor [("b1", sample_binding "sip:example.com" "sip:a@1")] []).patch_aor
            (patch_subscription_object ("1234", some (sample_subscription "sip:other@9")) "")))
          200)
        (MockHSSConnection 200 sample_irs_info 200)).update_subscription world0
        "sip:example.com" ("1234", some (sample_subscription "sip:other@9"))
        irs_info.new).2.2.calls
      = [patch_subscription_object ("1234", some (sample_subscription "sip:other@9")) ""] ∧
    ((sample_aor [("b1", sample_binding "sip:example.com" "sip:a@1")] []).patch_aor
        (patch_subscription_object ("1234", some (sample_subscription "sip:other@9")) ""))
      = { sample_aor [("b1", sample_binding "sip:example.com" "sip:a@1")]
            [("1234", sample_subscription "sip:other@9")] with _notify_cseq := 2 } ∧
    ¬ cascade_complete
      ((sample_aor [("b1", sample_binding "sip:example.com" "sip:a@1")] []).patch_aor
        (patch_subscription_object ("1234", some (sample_subscription "sip:other@9")) "")) := by
  refine ⟨by decide, by decide, by decide, by decide, by decide⟩

end Sprout

namespace Sprout

open SubscriberManager

/-- C2, amended. Starting from a GET snapshot whose bindings have distinct ids and in
which every subscription's `req_uri` is the contact URI of some binding, a successful
`reregister_subscriber`, `remove_bindings`, `remove_subscription` or
`update_associated_uris`, and a successful `update_subscription` whose subscription is
null or has the contact URI of a binding of the snapshot as its `req_uri`, sends
exactly one patch, and the AoR obtained by applying that patch to the snapshot
contains no subscription whose `req_uri` is not the contact URI of some binding. -/
theorem cascade_completeness_preserved {σ : Type}
    (sm : SubscriberManager σ) (w : World σ) (public_id aor_id : String)
    (associated_uris : AssociatedURIs) (updated_bindings : Bindings)
    (binding_ids : List String) (event_trigger : EventTrigger) (all_bindings : Bindings)
    (subscription : SubscriptionPair) (subscription_id : String)
    (info0 info : irs_info) (orig_aor updated_aor : AoR) (patched : Option AoR)
    (version : Nat) (st0 st1 st2 : σ)
    (hmap : (orig_aor.bindings.map Prod.fst).Nodup)
    (hp2 : cascade_complete orig_aor) :
    (sm._s4.handle_get w.state aor_id = (HTTP_OK, some orig_aor, version, st1) →
      sm._s4.handle_patch st1 aor_id
        (patch_bindings_object updated_bindings binding_ids
          (subscriptions_to_remove orig_aor.bindings orig_aor.subscriptions updated_bindings
            binding_ids) associated_uris) = (HTTP_OK, some updated_aor, st2) →
      ∃ r, sm.reregister_subscriber w aor_id associated_uris updated_bindings binding_ids
          all_bindings info0 = some r ∧ r.1 = HTTP_OK ∧
        ∃ po, patches_sent (r.2.2.2.calls.drop w.calls.length) = [po] ∧
          cascade_complete (orig_aor.patch_aor po)) ∧
    (sm._hss_connection.get_registration_data w.state public_id irs_info.new =
        (HTTP_OK, info, st0) →
      info._associated_uris.get_default_impu = some aor_id →
      sm._s4.handle_get st0 aor_id = (HTTP_OK, some orig_aor, version, st1) →
      sm._s4.handle_patch st1 aor_id
        (patch_bindings_object [] binding_ids
          (subscriptions_to_remove orig_aor.bindings orig_aor.subscriptions [] binding_ids)
          info._associated_uris) = (HTTP_OK, some updated_aor, st2) →
      ∃ r, sm.remove_bindings w public_id binding_ids event_trigger all_bindings = some r ∧
        r.1 = HTTP_OK ∧
        ∃ po, patches_sent (r.2.2.calls.drop w.calls.length) = [po] ∧
          cascade_complete (orig_aor.patch_aor po)) ∧
    (sm._hss_connection.get_registration_data w.state public_id info0 = (HTTP_OK, info, st0) →
      info._associated_uris.get_default_impu = some aor_id →
      sm._s4.handle_get st0 aor_id = (HTTP_OK, some orig_aor, version, st1) →
      sm._s4.handle_patch st1 aor_id (patch_subscription_object subscription "") =
        (HTTP_OK, patched, st2) →
      (∀ s, subscription.2 = some s → s._req_uri ∈ contact_uris orig_aor.bindings) →
      (sm.update_subscription w public_id subscription info0).1 = HTTP_OK ∧
        ∃ po, patches_sent
            ((sm.update_subscription w public_id subscription info0).2.2.calls.drop
              w.calls.length) = [po] ∧
          cascade_complete (orig_aor.patch_aor po)) ∧
    (sm._hss_connection.get_registration_data w.state public_id info0 = (HTTP_OK, info, st0) →
      info._associated_uris.get_default_impu = some aor_id →
      sm._s4.handle_get st0 aor_id = (HTTP_OK, some orig_aor, version, st1) →
      sm._s4.handle_patch st1 aor_id (patch_subscription_object ("", none) subscription_id) =
        (HTTP_OK, patched, st2) →
      (sm.remove_subscription w public_id subscription_id info0).1 = HTTP_OK ∧
        ∃ po, patches_sent
            ((sm.remove_subscription w public_id subscription_id info0).2.2.calls.drop
              w.calls.length) = [po] ∧
          cascade_complete (orig_aor.patch_aor po)) ∧
    (sm._s4.handle_get w.state aor_id = (HTTP_OK, some orig_aor, version, st1) →
      sm._s4.handle_patch st1 aor_id (patch_associated_uris_object associated_uris) =
        (HTTP_OK, patched, st2) →
      (sm.update_associated_uris w aor_id associated_uris).1 = HTTP_OK ∧
        ∃ po, patches_sent
            ((sm.update_associated_uris w aor_id associated_uris).2.calls.drop
              w.calls.length) = [po] ∧
          cascade_complete (orig_aor.patch_aor po)) := by
  refine ⟨?_, ?_, ?_, ?_, ?_⟩
  · intro hget hpatch
    have hw : (w.call (Call.handle_get aor_id) st1).state = st1 := rfl
    have hcc := cascade_complete_patch_bindings orig_aor updated_bindings binding_ids
      associated_uris hmap hp2
    cases hb : updated_aor.bindings with
    | nil =>
      simp only [reregister_subscriber, patch_bindings, hget, hw, hpatch, ne_eq,
        not_true_eq_false, if_false, AoRUtils.copy_bindings, hb, List.isEmpty_nil, if_true,
        deregister_with_hss, get_subscriber_state]
      refine ⟨_, rfl, rfl, _, ?_, hcc⟩
      simp [World.call, patches_sent]
    | cons p rest =>
      simp only [reregister_subscriber, patch_bindings, hget, hw, hpatch, ne_eq,
        not_true_eq_false, if_false, AoRUtils.copy_bindings, hb, List.isEmpty_cons,
        Bool.false_eq_true]
      refine ⟨_, rfl, rfl, _, ?_, hcc⟩
      simp [World.call, patches_sent]
  · intro hhss himpu hget hpatch
    have hid := get_cached_default_id_found sm w public_id "" aor_id irs_info.new info st0
      hhss himpu
    have hcc := cascade_complete_patch_bindings orig_aor [] binding_ids
      info._associated_uris hmap hp2
    cases hb : updated_aor.bindings with
    | nil =>
      simp only [remove_bindings, hid, World.call, patch_bindings, hget, hpatch, ne_eq,
        not_true_eq_false, if_false, AoRUtils.copy_bindings, hb, List.isEmpty_nil, if_true,
        deregister_with_hss, get_subscriber_state]
      refine ⟨_, rfl, rfl, _, ?_, hcc⟩
      simp [patches_sent]
    | cons p rest =>
      simp only [remove_bindings, hid, World.call, patch_bindings, hget, hpatch, ne_eq,
        not_true_eq_false, if_false, AoRUtils.copy_bindings, hb, List.isEmpty_cons,
        Bool.false_eq_true]
      refine ⟨_, rfl, rfl, _, ?_, hcc⟩
      simp [patches_sent]
  · intro hhss himpu hget hpatch hnew
    have hid := get_cached_default_id_found sm w public_id "" aor_id info0 info st0 hhss himpu
    have hcc := cascade_complete_patch_subscription orig_aor subscription "" hp2 hnew
    simp only [update_subscription, modify_subscription, hid, World.call, patch_subscription,
      hget, hpatch, ne_eq, not_true_eq_false, if_false]
    refine ⟨trivial, _, ?_, hcc⟩
    simp [patches_sent]
  · intro hhss himpu hget hpatch
    have hid := get_cached_default_id_found sm w public_id "" aor_id info0 info st0 hhss himpu
    have hcc := cascade_complete_patch_subscription orig_aor ("", none) subscription_id hp2
      (by intro s hs; cases hs)
    simp only [remove_subscription, modify_subscription, hid, World.call, patch_subscription,
      hget, hpatch, ne_eq, not_true_eq_false, if_false]
    refine ⟨trivial, _, ?_, hcc⟩
    simp [patches_sent]
  · intro hget hpatch
    have hw : (w.call (Call.handle_get aor_id) st1).state = st1 := rfl
    have hcc := cascade_complete_patch_associated_uris orig_aor associated_uris hp2
    simp only [update_associated_uris, patch_associated_uris, hget, hw, hpatch, ne_eq,
      not_true_eq_false, if_false]
    refine ⟨trivial, _, ?_, hcc⟩
    simp [World.call, patches_sent]

end Sprout

namespace Sprout

open SubscriberManager

/-- Witness for the amended C2: the registered subscriber of the fixtures, whose
subscription watches the contact of its only binding. -/
theorem cascade_completeness_preserved_witness :
    (∃ r, succeeding_manager.reregister_subscriber world0 "sip:example.com"
          [("sip:example.com", false)] [] ["b1"] [] irs_info.new = some r ∧ r.1 = HTTP_OK ∧
        ∃ po, patches_sent (r.2.2.2.calls.drop world0.calls.length) = [po] ∧
          cascade_complete (registered_aor.patch_aor po)) ∧
    (∃ r, succeeding_manager.remove_bindings world0 "sip:example.com" ["b1"]
          EventTrigger.USER [] = some r ∧ r.1 = HTTP_OK ∧
        ∃ po, patches_sent (r.2.2.calls.drop world0.calls.length) = [po] ∧
          cascade_complete (registered_aor.patch_aor po)) ∧
    ((succeeding_manager.update_subscription world0 "sip:example.com"
          ("1234", some (sample_subscription "sip:a@1")) irs_info.new).1 = HTTP_OK ∧
        ∃ po, patches_sent
            ((succeeding_manager.update_subscription world0 "sip:example.com"
              ("1234", some (sample_subscription "sip:a@1")) irs_info.new).2.2.calls.drop
              world0.calls.length) = [po] ∧
          cascade_complete (registered_aor.patch_aor po)) ∧
    ((succeeding_manager.remove_subscription world0 "sip:example.com" "s1"
          irs_info.new).1 = HTTP_OK ∧
        ∃ po, patches_sent
            ((succeeding_manager.remove_subscription world0 "sip:example.com" "s1"
              irs_info.new).2.2.calls.drop world0.calls.length) = [po] ∧
          cascade_complete (registered_aor.patch_aor po)) ∧
    ((succeeding_manager.update_associated_uris world0 "sip:example.com"
          [("sip:example.com", false)]).1 = HTTP_OK ∧
        ∃ po, patches_sent
            ((succeeding_manager.update_associated_uris world0 "sip:example.com"
              [("sip:example.com", false)]).2.calls.drop world0.calls.length) = [po] ∧
          cascade_complete (registered_aor.patch_aor po)) :=
  have h := cascade_completeness_preserved succeeding_manager world0 "sip:example.com"
    "sip:example.com" [("sip:example.com", false)] [] ["b1"] EventTrigger.USER []
    ("1234", some (sample_subscription "sip:a@1")) "s1" irs_info.new sample_irs_info
    registered_aor (sample_aor [] []) (some (sample_aor [] [])) 7 () () ()
    (by decide) (by decide)
  ⟨h.1 rfl rfl, h.2.1 rfl rfl rfl rfl,
    h.2.2.1 rfl rfl rfl rfl (by intro s hs; cases hs; decide),
    h.2.2.2.1 rfl rfl rfl rfl, h.2.2.2.2 rfl rfl⟩

end Sprout

namespace Sprout

open SubscriberManager

/-- C3. In `reregister_subscriber`, when the GET and the PATCH both return 200, the
operation returns `HTTP_OK` and the calls it makes are the GET, the PATCH and then,
if and only if the bindings of the post-PATCH AoR are empty, one
`update_registration_state` with public id `aor_id`, request type `dereg-user` and
server name the post-PATCH AoR's S-CSCF URI. -/
theorem reregister_subscriber_hss_dereg_iff_no_bindings {σ : Type}
    (sm : SubscriberManager σ) (w : World σ) (aor_id : String)
    (associated_uris : AssociatedURIs) (updated_bindings : Bindings)
    (binding_ids_to_remove : List String) (all_bindings : Bindings) (info : irs_info)
    (orig_aor updated_aor : AoR) (version : Nat) (st1 st2 : σ)
    (hget : sm._s4.handle_get w.state aor_id = (HTTP_OK, some orig_aor, version, st1))
    (hpatch : sm._s4.handle_patch st1 aor_id
        (patch_bindings_object updated_bindings binding_ids_to_remove
          (subscriptions_to_remove orig_aor.bindings orig_aor.subscriptions updated_bindings
            binding_ids_to_remove) associated_uris) = (HTTP_OK, some updated_aor, st2)) :
    ∃ r, sm.reregister_subscriber w aor_id associated_uris updated_bindings
          binding_ids_to_remove all_bindings info = some r ∧
      r.1 = HTTP_OK ∧
      r.2.2.2.calls = w.calls ++
        [Call.handle_get aor_id,
         Call.handle_patch aor_id
          (patch_bindings_object updated_bindings binding_ids_to_remove
            (subscriptions_to_remove orig_aor.bindings orig_aor.subscriptions updated_bindings
              binding_ids_to_remove) associated_uris)] ++
        (if updated_aor.bindings = [] then
          [Call.update_registration_state
            { _public_id := aor_id, _req_type := "dereg-user",
              _server_name := updated_aor._scscf_uri }]
         else []) := by
  have hw : (w.call (Call.handle_get aor_id) st1).state = st1 := rfl
  cases hb : updated_aor.bindings with
  | nil =>
    simp only [reregister_subscriber, patch_bindings, hget, hw, hpatch, ne_eq,
      not_true_eq_false, if_false, AoRUtils.copy_bindings, hb, List.isEmpty_nil, if_true,
      deregister_with_hss, get_subscriber_state]
    exact ⟨_, rfl, rfl, by simp [World.call, DEREG_USER]⟩
  | cons p rest =>
    simp only [reregister_subscriber, patch_bindings, hget, hw, hpatch, ne_eq,
      not_true_eq_false, if_false, AoRUtils.copy_bindings, hb, List.isEmpty_cons,
      Bool.false_eq_true]
    exact ⟨_, rfl, rfl, by simp [World.call]⟩

/-- Witness for C3: a re-registration that removes the only binding, against mocked
collaborators that succeed. -/
theorem reregister_subscriber_hss_dereg_iff_no_bindings_witness :
    ∃ r, (SubscriberManager.mk
            (MockS4 200 (some (sample_aor [("b1", sample_binding "sip:example.com" "sip:a@1")] []))
              7 200 200 (some (sample_aor [] [])) 200)
            (MockHSSConnection 200 sample_irs_info 200)).reregister_subscriber world0
          "sip:example.com" [("sip:example.com", false)] [] ["b1"] [] sample_irs_info = some r ∧
      r.1 = HTTP_OK ∧
      r.2.2.2.calls = world0.calls ++
        [Call.handle_get "sip:example.com",
         Call.handle_patch "sip:example.com"
          (patch_bindings_object [] ["b1"]
            (subscriptions_to_remove
              (sample_aor [("b1", sample_binding "sip:example.com" "sip:a@1")] []).bindings
              (sample_aor [("b1", sample_binding "sip:example.com" "sip:a@1")] []).subscriptions
              [] ["b1"]) [("sip:example.com", false)])] ++
        (if (sample_aor [] []).bindings = [] then
          [Call.update_registration_state
            { _public_id := "sip:example.com", _req_type := "dereg-user",
              _server_name := (sample_aor [] [])._scscf_uri }]
         else []) :=
  reregister_subscriber_hss_dereg_iff_no_bindings _ world0 "sip:example.com"
    [("sip:example.com", false)] [] ["b1"] [] sample_irs_info
    (sample_aor [("b1", sample_binding "sip:example.com" "sip:a@1")] []) (sample_aor [] [])
    7 () () rfl rfl

end Sprout

namespace Sprout

open SubscriberManager

/-- C4. In `remove_bindings`, when the HSS lookup, the GET and the PATCH all succeed,
the operation returns `HTTP_OK` and the calls it makes are the HSS lookup, the GET,
the PATCH and then, if and only if the post-PATCH bindings are empty, one
`update_registration_state` whose reason is `dereg-user` for the trigger USER and
`dereg-admin` for the triggers ADMIN and TIMEOUT. -/
theorem remove_bindings_hss_dereg_iff_no_bindings {σ : Type}
    (sm : SubscriberManager σ) (w : World σ) (public_id aor_id : String)
    (binding_ids : List String) (event_trigger : EventTrigger) (bindings : Bindings)
    (info : irs_info) (orig_aor updated_aor : AoR) (version : Nat) (st0 st1 st2 : σ)
    (hhss : sm._hss_connection.get_registration_data w.state public_id irs_info.new =
      (HTTP_OK, info, st0))
    (himpu : info._associated_uris.get_default_impu = some aor_id)
    (hget : sm._s4.handle_get st0 aor_id = (HTTP_OK, some orig_aor, version, st1))
    (hpatch : sm._s4.handle_patch st1 aor_id
        (patch_bindings_object [] binding_ids
          (subscriptions_to_remove orig_aor.bindings orig_aor.subscriptions [] binding_ids)
          info._associated_uris) = (HTTP_OK, some updated_aor, st2)) :
    ∃ r, sm.remove_bindings w public_id binding_ids event_trigger bindings = some r ∧
      r.1 = HTTP_OK ∧
      r.2.2.calls = w.calls ++
        [Call.get_registration_data public_id,
         Call.handle_get aor_id,
         Call.handle_patch aor_id
          (patch_bindings_object [] binding_ids
            (subscriptions_to_remove orig_aor.bindings orig_aor.subscriptions [] binding_ids)
            info._associated_uris)] ++
        (if updated_aor.bindings = [] then
          [Call.update_registration_state
            { _public_id := aor_id,
              _req_type :=
                match event_trigger with
                | EventTrigger.USER => "dereg-user"
                | EventTrigger.ADMIN => "dereg-admin"
                | EventTrigger.TIMEOUT => "dereg-admin",
              _server_name := updated_aor._scscf_uri }]
         else []) := by
  have hid := get_cached_default_id_found sm w public_id "" aor_id irs_info.new info st0
    hhss himpu
  cases hb : updated_aor.bindings with
  | nil =>
    simp only [remove_bindings, hid, World.call, patch_bindings, hget, hpatch, ne_eq,
      not_true_eq_false, if_false, AoRUtils.copy_bindings, hb, List.isEmpty_nil, if_true,
      deregister_with_hss, get_subscriber_state]
    refine ⟨_, rfl, rfl, ?_⟩
    cases event_trigger <;> simp [DEREG_USER, DEREG_ADMIN]
  | cons p rest =>
    simp only [remove_bindings, hid, World.call, patch_bindings, hget, hpatch, ne_eq,
      not_true_eq_false, if_false, AoRUtils.copy_bindings, hb, List.isEmpty_cons,
      Bool.false_eq_true]
    exact ⟨_, rfl, rfl, by simp⟩

/-- Witness for C4: removal of the only binding with the trigger TIMEOUT, against
mocked collaborators that succeed. -/
theorem remove_bindings_hss_dereg_iff_no_bindings_witness :
    ∃ r, (SubscriberManager.mk
            (MockS4 200 (some (sample_aor [("b1", sample_binding "sip:example.com" "sip:a@1")] []))
              7 200 200 (some (sample_aor [] [])) 200)
            (MockHSSConnection 200 sample_irs_info 200)).remove_bindings world0
          "sip:example.com" ["b1"] EventTrigger.TIMEOUT [] = some r ∧
      r.1 = HTTP_OK ∧
      r.2.2.calls = world0.calls ++
        [Call.get_registration_data "sip:example.com",
         Call.handle_get "sip:example.com",
         Call.handle_patch "sip:example.com"
          (patch_bindings_object [] ["b1"]
            (subscriptions_to_remove
              (sample_aor [("b1", sample_binding "sip:example.com" "sip:a@1")] []).bindings
              (sample_aor [("b1", sample_binding "sip:example.com" "sip:a@1")] []).subscriptions
              [] ["b1"])
            sample_irs_info._associated_uris)] ++
        (if (sample_aor [] []).bindings = [] then
          [Call.update_registration_state
            { _public_id := "sip:example.com",
              _req_type :=
                match EventTrigger.TIMEOUT with
                | EventTrigger.USER => "dereg-user"
                | EventTrigger.ADMIN => "dereg-admin"
                | EventTrigger.TIMEOUT => "dereg-admin",
              _server_name := (sample_aor [] [])._scscf_uri }]
         else []) :=
  remove_bindings_hss_dereg_iff_no_bindings _ world0 "sip:example.com" "sip:example.com"
    ["b1"] EventTrigger.TIMEOUT [] sample_irs_info
    (sample_aor [("b1", sample_binding "sip:example.com" "sip:a@1")] []) (sample_aor [] [])
    7 () () () rfl rfl rfl rfl

end Sprout

namespace Sprout

open SubscriberManager

/-- C5. For every trigger, when `get_registration_data` returns 200 with a default
IMPU, the GET returns 200 and the DELETE returns 200 or 204, `deregister_subscriber`
(with any positive loop fuel) returns `HTTP_OK` and makes exactly the calls HSS
`get_registration_data`, S4 GET, S4 DELETE, HSS `update_registration_state`, in this
order; the deregistration carries the resolved `aor_id`, the reason `dereg-user` for
the trigger USER and `dereg-admin` otherwise, and the S-CSCF URI of the AoR returned by
the GET. -/
theorem deregister_subscriber_call_order {σ : Type}
    (sm : SubscriberManager σ) (fuel : Nat) (w : World σ) (public_id aor_id : String)
    (event_trigger : EventTrigger) (info : irs_info) (orig_aor : AoR) (version : Nat)
    (delete_rc : HTTPCode) (st0 st1 st2 : σ)
    (hhss : sm._hss_connection.get_registration_data w.state public_id irs_info.new =
      (HTTP_OK, info, st0))
    (himpu : info._associated_uris.get_default_impu = some aor_id)
    (hget : sm._s4.handle_get st0 aor_id = (HTTP_OK, some orig_aor, version, st1))
    (hdelete : sm._s4.handle_delete st1 aor_id version = (delete_rc, st2))
    (hrc : delete_rc = 200 ∨ delete_rc = 204) :
    ∃ r, sm.deregister_subscriber (fuel + 1) w public_id event_trigger = some r ∧
      r.1 = HTTP_OK ∧
      r.2.calls = w.calls ++
        [Call.get_registration_data public_id,
         Call.handle_get aor_id,
         Call.handle_delete aor_id version,
         Call.update_registration_state
          { _public_id := aor_id,
            _req_type := if event_trigger = EventTrigger.USER then "dereg-user"
                         else "dereg-admin",
            _server_name := orig_aor._scscf_uri }] := by
  have hid := get_cached_default_id_found sm w public_id "" aor_id irs_info.new info st0
    hhss himpu
  have h412 : delete_rc ≠ HTTP_PRECONDITION_FAILED := by
    rcases hrc with h | h <;> rw [h] <;> decide
  have hok : ¬ (delete_rc ≠ HTTP_OK ∧ delete_rc ≠ HTTP_NO_CONTENT) := by
    rcases hrc with h | h <;> rw [h] <;> decide
  simp only [deregister_subscriber, hid, deregister_subscriber_loop, World.call, hget,
    hdelete, ne_eq, not_true_eq_false, if_false, h412, hok, deregister_with_hss,
    get_subscriber_state]
  exact ⟨_, rfl, rfl, by simp [DEREG_USER, DEREG_ADMIN]⟩

/-- Witness for C5: an ADMIN deregistration whose DELETE answers 204. -/
theorem deregister_subscriber_call_order_witness :
    ∃ r, (SubscriberManager.mk
            (MockS4 200 (some (sample_aor [("b1", sample_binding "sip:example.com" "sip:a@1")] []))
              7 200 200 none 204)
            (MockHSSConnection 200 sample_irs_info 200)).deregister_subscriber (0 + 1) world0
          "sip:example.com" EventTrigger.ADMIN = some r ∧
      r.1 = HTTP_OK ∧
      r.2.calls = world0.calls ++
        [Call.get_registration_data "sip:example.com",
         Call.handle_get "sip:example.com",
         Call.handle_delete "sip:example.com" 7,
         Call.update_registration_state
          { _public_id := "sip:example.com",
            _req_type := if EventTrigger.ADMIN = EventTrigger.USER then "dereg-user"
                         else "dereg-admin",
            _server_name :=
              (sample_aor [("b1", sample_binding "sip:example.com" "sip:a@1")] [])._scscf_uri }] :=
  deregister_subscriber_call_order _ 0 world0 "sip:example.com" "sip:example.com"
    EventTrigger.ADMIN sample_irs_info
    (sample_aor [("b1", sample_binding "sip:example.com" "sip:a@1")] []) 7 204 () () ()
    rfl rfl rfl rfl (Or.inr rfl)

/-- C6. A 404 from the GET is success for the removal operations: when the HSS lookup
succeeds and the S4 GET returns 404, `remove_bindings` and `deregister_subscriber`
return `HTTP_OK`, the only calls made are the HSS lookup and the GET (no PATCH, no
DELETE, no `update_registration_state`), and `remove_bindings` leaves its `bindings`
out-parameter unchanged. -/
theorem get_not_found_is_success_for_removals {σ : Type}
    (sm : SubscriberManager σ) (fuel : Nat) (w : World σ) (public_id aor_id : String)
    (binding_ids : List String) (event_trigger : EventTrigger) (bindings : Bindings)
    (info : irs_info) (got : Option AoR) (version : Nat) (st0 st1 : σ)
    (hhss : sm._hss_connection.get_registration_data w.state public_id irs_info.new =
      (HTTP_OK, info, st0))
    (himpu : info._associated_uris.get_default_impu = some aor_id)
    (hget : sm._s4.handle_get st0 aor_id = (HTTP_NOT_FOUND, got, version, st1)) :
    sm.remove_bindings w public_id binding_ids event_trigger bindings =
        some (HTTP_OK, bindings,
          { state := st1,
            calls := w.calls ++
              [Call.get_registration_data public_id, Call.handle_get aor_id] }) ∧
      sm.deregister_subscriber (fuel + 1) w public_id event_trigger =
        some (HTTP_OK,
          { state := st1,
            calls := w.calls ++
              [Call.get_registration_data public_id, Call.handle_get aor_id] }) := by
  have hid := get_cached_default_id_found sm w public_id "" aor_id irs_info.new info st0
    hhss himpu
  have h1 : HTTP_NOT_FOUND ≠ HTTP_OK := by decide
  constructor
  · simp only [remove_bindings, hid, World.call, hget, ne_eq, not_true_eq_false, if_false,
      h1, not_false_eq_true, if_true, List.append_assoc, List.singleton_append]
  · simp only [deregister_subscriber, hid, deregister_subscriber_loop, World.call, hget,
      ne_eq, not_true_eq_false, if_false, h1, not_false_eq_true, if_true,
      List.append_assoc, List.singleton_append]

/-- Witness for C6: a store that answers 404 to the GET. -/
theorem get_not_found_is_success_for_removals_witness :
    (SubscriberManager.mk (MockS4 HTTP_NOT_FOUND none 0 200 200 none 200)
        (MockHSSConnection 200 sample_irs_info 200)).remove_bindings world0
        "sip:example.com" ["b1"] EventTrigger.USER
        [("kept", sample_binding "sip:example.com" "sip:a@1")] =
        some (HTTP_OK, [("kept", sample_binding "sip:example.com" "sip:a@1")],
          { state := (),
            calls := world0.calls ++
              [Call.get_registration_data "sip:example.com",
               Call.handle_get "sip:example.com"] }) ∧
      (SubscriberManager.mk (MockS4 HTTP_NOT_FOUND none 0 200 200 none 200)
        (MockHSSConnection 200 sample_irs_info 200)).deregister_subscriber (2 + 1) world0
        "sip:example.com" EventTrigger.USER =
        some (HTTP_OK,
          { state := (),
            calls := world0.calls ++
              [Call.get_registration_data "sip:example.com",
               Call.handle_get "sip:example.com"] }) :=
  get_not_found_is_success_for_removals _ 2 world0 "sip:example.com" "sip:example.com"
    ["b1"] EventTrigger.USER [("kept", sample_binding "sip:example.com" "sip:a@1")]
    sample_irs_info none 0 () () rfl rfl rfl

/-- C7. A 404 from the GET is propagated by the update operations: when the S4 GET
returns 404, `reregister_subscriber` returns 404, makes no call but the GET and leaves
`all_bindings` (and `irs_info`) unchanged; and when the HSS lookup that precedes the
GET succeeds, `update_subscription` and `remove_subscription` return 404 and make no
call but the HSS lookup and the GET. -/
theorem get_not_found_is_propagated_by_updates {σ : Type}
    (sm : SubscriberManager σ) (w : World σ) (public_id aor_id : String)
    (associated_uris : AssociatedURIs) (updated_bindings : Bindings)
    (binding_ids_to_remove : List String) (all_bindings : Bindings)
    (subscription : SubscriptionPair) (subscription_id : String)
    (info0 info : irs_info) (got got2 : Option AoR) (version version2 : Nat)
    (st0 st1 st2 : σ) :
    (sm._s4.handle_get w.state aor_id = (HTTP_NOT_FOUND, got, version, st1) →
      sm.reregister_subscriber w aor_id associated_uris updated_bindings
          binding_ids_to_remove all_bindings info0 =
        some (HTTP_NOT_FOUND, all_bindings, info0,
          { state := st1, calls := w.calls ++ [Call.handle_get aor_id] })) ∧
    (sm._hss_connection.get_registration_data w.state public_id info0 = (HTTP_OK, info, st0) →
      info._associated_uris.get_default_impu = some aor_id →
      sm._s4.handle_get st0 aor_id = (HTTP_NOT_FOUND, got2, version2, st2) →
      sm.update_subscription w public_id subscription info0 =
          (HTTP_NOT_FOUND, info,
            { state := st2,
              calls := w.calls ++
                [Call.get_registration_data public_id, Call.handle_get aor_id] }) ∧
        sm.remove_subscription w public_id subscription_id info0 =
          (HTTP_NOT_FOUND, info,
            { state := st2,
              calls := w.calls ++
                [Call.get_registration_data public_id, Call.handle_get aor_id] })) := by
  have h1 : HTTP_NOT_FOUND ≠ HTTP_OK := by decide
  constructor
  · intro hget
    simp only [reregister_subscriber, World.call, hget, ne_eq, h1, not_false_eq_true, if_true]
  · intro hhss himpu hget
    have hid := get_cached_default_id_found sm w public_id "" aor_id info0 info st0 hhss himpu
    constructor
    · simp only [update_subscription, modify_subscription, hid, World.call, hget, ne_eq,
        not_true_eq_false, if_false, h1, not_false_eq_true, if_true, List.append_assoc,
        List.singleton_append]
    · simp only [remove_subscription, modify_subscription, hid, World.call, hget, ne_eq,
        not_true_eq_false, if_false, h1, not_false_eq_true, if_true, List.append_assoc,
        List.singleton_append]

/-- Witness for C7: a store that answers 404 to the GET. -/
theorem get_not_found_is_propagated_by_updates_witness :
    (SubscriberManager.mk (MockS4 HTTP_NOT_FOUND none 0 200 200 none 200)
        (MockHSSConnection 200 sample_irs_info 200)).reregister_subscriber world0
        "sip:example.com" [("sip:example.com", false)]
        [("b1", sample_binding "sip:example.com" "sip:a@1")] []
        [("kept", sample_binding "sip:example.com" "sip:a@2")] irs_info.new =
      some (HTTP_NOT_FOUND, [("kept", sample_binding "sip:example.com" "sip:a@2")], irs_info.new,
        { state := (), calls := world0.calls ++ [Call.handle_get "sip:example.com"] }) ∧
    ((SubscriberManager.mk (MockS4 HTTP_NOT_FOUND none 0 200 200 none 200)
        (MockHSSConnection 200 sample_irs_info 200)).update_subscription world0
        "sip:example.com" ("1234", some (sample_subscription "sip:a@1")) irs_info.new =
        (HTTP_NOT_FOUND, sample_irs_info,
          { state := (),
            calls := world0.calls ++
              [Call.get_registration_data "sip:example.com",
               Call.handle_get "sip:example.com"] }) ∧
      (SubscriberManager.mk (MockS4 HTTP_NOT_FOUND none 0 200 200 none 200)
        (MockHSSConnection 200 sample_irs_info 200)).remove_subscription world0
        "sip:example.com" "1234" irs_info.new =
        (HTTP_NOT_FOUND, sample_irs_info,
          { state := (),
            calls := world0.calls ++
              [Call.get_registration_data "sip:example.com",
               Call.handle_get "sip:example.com"] })) :=
  ⟨(get_not_found_is_propagated_by_updates
      (SubscriberManager.mk (MockS4 HTTP_NOT_FOUND none 0 200 200 none 200)
        (MockHSSConnection 200 sample_irs_info 200))
      world0 "sip:example.com" "sip:example.com" [("sip:example.com", false)]
      [("b1", sample_binding "sip:example.com" "sip:a@1")] []
      [("kept", sample_binding "sip:example.com" "sip:a@2")]
      ("1234", some (sample_subscription "sip:a@1")) "1234" irs_info.new sample_irs_info
      none none 0 0 () () ()).1 rfl,
   (get_not_found_is_propagated_by_updates
      (SubscriberManager.mk (MockS4 HTTP_NOT_FOUND none 0 200 200 none 200)
        (MockHSSConnection 200 sample_irs_info 200))
      world0 "sip:example.com" "sip:example.com" [("sip:example.com", false)]
      [("b1", sample_binding "sip:example.com" "sip:a@1")] []
      [("kept", sample_binding "sip:example.com" "sip:a@2")]
      ("1234", some (sample_subscription "sip:a@1")) "1234" irs_info.new sample_irs_info
      none none 0 0 () () ()).2 rfl rfl rfl⟩

end Sprout

namespace Sprout

open SubscriberManager

/-- C8. For the operations that resolve a public id through the HSS
(`remove_bindings`, `deregister_subscriber`, `update_subscription`,
`remove_subscription`): if `get_registration_data` returns 200 but the associated URIs
it returns hold no default IMPU, the operation returns 400; if it returns a code other
than 200, the operation returns that code; in both cases the HSS lookup is the only
call made (no S4 call), and `remove_bindings` leaves `bindings` unchanged. -/
theorem hss_lookup_failure_stops_operation {σ : Type}
    (sm : SubscriberManager σ) (fuel : Nat) (w : World σ) (public_id : String)
    (binding_ids : List String) (event_trigger : EventTrigger) (bindings : Bindings)
    (subscription : SubscriptionPair) (subscription_id : String)
    (info0 info : irs_info) (rc : HTTPCode) (st0 : σ)
    (hbad : rc ≠ HTTP_OK ∨ info._associated_uris.get_default_impu = none) :
    (sm._hss_connection.get_registration_data w.state public_id irs_info.new = (rc, info, st0) →
      sm.remove_bindings w public_id binding_ids event_trigger bindings =
          some (if rc = HTTP_OK then HTTP_BAD_REQUEST else rc, bindings,
            { state := st0, calls := w.calls ++ [Call.get_registration_data public_id] }) ∧
        sm.deregister_subscriber fuel w public_id event_trigger =
          some (if rc = HTTP_OK then HTTP_BAD_REQUEST else rc,
            { state := st0, calls := w.calls ++ [Call.get_registration_data public_id] })) ∧
    (sm._hss_connection.get_registration_data w.state public_id info0 = (rc, info, st0) →
      sm.update_subscription w public_id subscription info0 =
          (if rc = HTTP_OK then HTTP_BAD_REQUEST else rc, info,
            { state := st0, calls := w.calls ++ [Call.get_registration_data public_id] }) ∧
        sm.remove_subscription w public_id subscription_id info0 =
          (if rc = HTTP_OK then HTTP_BAD_REQUEST else rc, info,
            { state := st0, calls := w.calls ++ [Call.get_registration_data public_id] })) := by
  have h400 : HTTP_BAD_REQUEST ≠ HTTP_OK := by decide
  by_cases hrc : rc = HTTP_OK
  · subst hrc
    have himpu : info._associated_uris.get_default_impu = none := by
      rcases hbad with h | h
      · exact absurd rfl h
      · exact h
    constructor
    · intro hhss
      have hid := get_cached_default_id_no_default sm w public_id "" irs_info.new info st0
        hhss himpu
      constructor
      · simp only [remove_bindings, hid, World.call, ne_eq, h400, not_false_eq_true, if_true]
      · simp only [deregister_subscriber, hid, World.call, ne_eq, h400, not_false_eq_true,
          if_true]
    · intro hhss
      have hid := get_cached_default_id_no_default sm w public_id "" info0 info st0 hhss himpu
      constructor
      · simp only [update_subscription, modify_subscription, hid, World.call, ne_eq, h400,
          not_false_eq_true, if_true]
      · simp only [remove_subscription, modify_subscription, hid, World.call, ne_eq, h400,
          not_false_eq_true, if_true]
  · constructor
    · intro hhss
      have hid := get_cached_default_id_failed sm w public_id "" irs_info.new info rc st0
        hhss hrc
      constructor
      · simp only [remove_bindings, hid, World.call, ne_eq, hrc, not_false_eq_true, if_true,
          if_false]
      · simp only [deregister_subscriber, hid, World.call, ne_eq, hrc, not_false_eq_true,
          if_true, if_false]
    · intro hhss
      have hid := get_cached_default_id_failed sm w public_id "" info0 info rc st0 hhss hrc
      constructor
      · simp only [update_subscription, modify_subscription, hid, World.call, ne_eq, hrc,
          not_false_eq_true, if_true, if_false]
      · simp only [remove_subscription, modify_subscription, hid, World.call, ne_eq, hrc,
          not_false_eq_true, if_true, if_false]

/-- Witness for C8: an HSS that answers 200 with an IRS whose only URI is barred. -/
theorem hss_lookup_failure_stops_operation_witness :
    ((SubscriberManager.mk (MockS4 200 none 0 200 200 none 200)
        (MockHSSConnection 200 barred_irs_info 200)).remove_bindings world0
        "sip:example.com" ["b1"] EventTrigger.USER [] =
        some (if (200 : HTTPCode) = HTTP_OK then HTTP_BAD_REQUEST else 200, [],
          { state := (),
            calls := world0.calls ++ [Call.get_registration_data "sip:example.com"] }) ∧
      (SubscriberManager.mk (MockS4 200 none 0 200 200 none 200)
        (MockHSSConnection 200 barred_irs_info 200)).deregister_subscriber 3 world0
        "sip:example.com" EventTrigger.USER =
        some (if (200 : HTTPCode) = HTTP_OK then HTTP_BAD_REQUEST else 200,
          { state := (),
            calls := world0.calls ++ [Call.get_registration_data "sip:example.com"] })) ∧
    ((SubscriberManager.mk (MockS4 200 none 0 200 200 none 200)
        (MockHSSConnection 200 barred_irs_info 200)).update_subscription world0
        "sip:example.com" ("1234", some (sample_subscription "sip:a@1")) irs_info.new =
        (if (200 : HTTPCode) = HTTP_OK then HTTP_BAD_REQUEST else 200, barred_irs_info,
          { state := (),
            calls := world0.calls ++ [Call.get_registration_data "sip:example.com"] }) ∧
      (SubscriberManager.mk (MockS4 200 none 0 200 200 none 200)
        (MockHSSConnection 200 barred_irs_info 200)).remove_subscription world0
        "sip:example.com" "1234" irs_info.new =
        (if (200 : HTTPCode) = HTTP_OK then HTTP_BAD_REQUEST else 200, barred_irs_info,
          { state := (),
            calls := world0.calls ++ [Call.get_registration_data "sip:example.com"] })) :=
  ⟨(hss_lookup_failure_stops_operation
      (SubscriberManager.mk (MockS4 200 none 0 200 200 none 200)
        (MockHSSConnection 200 barred_irs_info 200))
      3 world0 "sip:example.com" ["b1"] EventTrigger.USER []
      ("1234", some (sample_subscription "sip:a@1")) "1234" irs_info.new barred_irs_info
      200 () (Or.inr rfl)).1 rfl,
   (hss_lookup_failure_stops_operation
      (SubscriberManager.mk (MockS4 200 none 0 200 200 none 200)
        (MockHSSConnection 200 barred_irs_info 200))
      3 world0 "sip:example.com" ["b1"] EventTrigger.USER []
      ("1234", some (sample_subscription "sip:a@1")) "1234" irs_info.new barred_irs_info
      200 () (Or.inr rfl)).2 rfl⟩

/-- C9. Store failures are propagated and stop the pipeline.  After a GET that
returned 200, a PATCH that returns a code other than 200 makes `reregister_subscriber`
and `remove_bindings` return that code with the bindings out-parameter unchanged and
no call after the PATCH; a DELETE that returns a code other than 200, 204 and 412 makes
`deregister_subscriber` return that code with no call after the DELETE; a PUT that
returns a code other than 200 makes `register_subscriber` return that code with
`all_bindings` unchanged. -/
theorem store_failure_is_propagated {σ : Type}
    (sm : SubscriberManager σ) (fuel : Nat) (w : World σ) (public_id aor_id : String)
    (server_name : String) (associated_uris : AssociatedURIs)
    (updated_bindings : Bindings) (binding_ids : List String)
    (event_trigger : EventTrigger) (all_bindings : Bindings) (info0 info : irs_info)
    (orig_aor : AoR) (got patched : Option AoR) (version : Nat)
    (rc : HTTPCode) (st0 st1 st2 : σ) (hrc : rc ≠ HTTP_OK) :
    (sm._s4.handle_get w.state aor_id = (HTTP_OK, some orig_aor, version, st1) →
      sm._s4.handle_patch st1 aor_id
        (patch_bindings_object updated_bindings binding_ids
          (subscriptions_to_remove orig_aor.bindings orig_aor.subscriptions updated_bindings
            binding_ids) associated_uris) = (rc, patched, st2) →
      sm.reregister_subscriber w aor_id associated_uris updated_bindings binding_ids
          all_bindings info0 =
        some (rc, all_bindings, info0,
          { state := st2,
            calls := w.calls ++
              [Call.handle_get aor_id,
               Call.handle_patch aor_id
                (patch_bindings_object updated_bindings binding_ids
                  (subscriptions_to_remove orig_aor.bindings orig_aor.subscriptions
                    updated_bindings binding_ids) associated_uris)] })) ∧
    (sm._hss_connection.get_registration_data w.state public_id irs_info.new =
        (HTTP_OK, info, st0) →
      info._associated_uris.get_default_impu = some aor_id →
      sm._s4.handle_get st0 aor_id = (HTTP_OK, some orig_aor, version, st1) →
      sm._s4.handle_patch st1 aor_id
        (patch_bindings_object [] binding_ids
          (subscriptions_to_remove orig_aor.bindings orig_aor.subscriptions [] binding_ids)
          info._associated_uris) = (rc, patched, st2) →
      sm.remove_bindings w public_id binding_ids event_trigger all_bindings =
        some (rc, all_bindings,
          { state := st2,
            calls := w.calls ++
              [Call.get_registration_data public_id,
               Call.handle_get aor_id,
               Call.handle_patch aor_id
                (patch_bindings_object [] binding_ids
                  (subscriptions_to_remove orig_aor.bindings orig_aor.subscriptions []
                    binding_ids) info._associated_uris)] })) ∧
    (sm._hss_connection.get_registration_data w.state public_id irs_info.new =
        (HTTP_OK, info, st0) →
      info._associated_uris.get_default_impu = some aor_id →
      sm._s4.handle_get st0 aor_id = (HTTP_OK, got, version, st1) →
      sm._s4.handle_delete st1 aor_id version = (rc, st2) →
      rc ≠ HTTP_NO_CONTENT → rc ≠ HTTP_PRECONDITION_FAILED →
      sm.deregister_subscriber (fuel + 1) w public_id event_trigger =
        some (rc,
          { state := st2,
            calls := w.calls ++
              [Call.get_registration_data public_id,
               Call.handle_get aor_id,
               Call.handle_delete aor_id version] })) ∧
    (sm._s4.handle_put w.state aor_id
        (put_bindings_aor aor_id updated_bindings associated_uris server_name) = (rc, st2) →
      sm.register_subscriber w aor_id server_name associated_uris updated_bindings
          all_bindings =
        (rc, all_bindings,
          { state := st2,
            calls := w.calls ++
              [Call.handle_put aor_id
                (put_bindings_aor aor_id updated_bindings associated_uris server_name)] })) := by
  refine ⟨?_, ?_, ?_, ?_⟩
  · intro hget hpatch
    have hw : (w.call (Call.handle_get aor_id) st1).state = st1 := rfl
    simp only [reregister_subscriber, patch_bindings, hget, hw, hpatch, ne_eq,
      not_true_eq_false, if_false, hrc, not_false_eq_true, if_true]
    simp [World.call]
  · intro hhss himpu hget hpatch
    have hid := get_cached_default_id_found sm w public_id "" aor_id irs_info.new info st0
      hhss himpu
    simp only [remove_bindings, hid, World.call, patch_bindings, hget, hpatch, ne_eq,
      not_true_eq_false, if_false, hrc, not_false_eq_true, if_true]
    simp
  · intro hhss himpu hget hdelete h204 h412
    have hid := get_cached_default_id_found sm w public_id "" aor_id irs_info.new info st0
      hhss himpu
    simp only [deregister_subscriber, hid, deregister_subscriber_loop, World.call, hget,
      hdelete, ne_eq, not_true_eq_false, if_false, h412, hrc, h204, not_false_eq_true,
      and_self, if_true]
    simp
  · intro hput
    simp only [register_subscriber, put_bindings, hput, ne_eq, hrc, not_false_eq_true,
      if_true, World.call]

end Sprout

namespace Sprout

open SubscriberManager

/-- Witness for C9: a store that answers 500 to PATCH, DELETE and PUT. -/
theorem store_failure_is_propagated_witness :
    (SubscriberManager.mk (MockS4 200 (some (sample_aor [] [])) 7 500 500 none 500)
        (MockHSSConnection 200 sample_irs_info 200)).reregister_subscriber world0
        "sip:example.com" [("sip:example.com", false)] [] ["b1"]
        [("kept", sample_binding "sip:example.com" "sip:a@2")] irs_info.new =
      some (500, [("kept", sample_binding "sip:example.com" "sip:a@2")], irs_info.new,
        { state := (),
          calls := world0.calls ++
            [Call.handle_get "sip:example.com",
             Call.handle_patch "sip:example.com"
              (patch_bindings_object [] ["b1"]
                (subscriptions_to_remove (sample_aor [] []).bindings
                  (sample_aor [] []).subscriptions [] ["b1"])
                [("sip:example.com", false)])] }) ∧
    (SubscriberManager.mk (MockS4 200 (some (sample_aor [] [])) 7 500 500 none 500)
        (MockHSSConnection 200 sample_irs_info 200)).remove_bindings world0
        "sip:example.com" ["b1"] EventTrigger.USER
        [("kept", sample_binding "sip:example.com" "sip:a@2")] =
      some (500, [("kept", sample_binding "sip:example.com" "sip:a@2")],
        { state := (),
          calls := world0.calls ++
            [Call.get_registration_data "sip:example.com",
             Call.handle_get "sip:example.com",
             Call.handle_patch "sip:example.com"
              (patch_bindings_object [] ["b1"]
                (subscriptions_to_remove (sample_aor [] []).bindings
                  (sample_aor [] []).subscriptions [] ["b1"])
                sample_irs_info._associated_uris)] }) ∧
    (SubscriberManager.mk (MockS4 200 (some (sample_aor [] [])) 7 500 500 none 500)
        (MockHSSConnection 200 sample_irs_info 200)).deregister_subscriber (0 + 1) world0
        "sip:example.com" EventTrigger.USER =
      some (500,
        { state := (),
          calls := world0.calls ++
            [Call.get_registration_data "sip:example.com",
             Call.handle_get "sip:example.com",
             Call.handle_delete "sip:example.com" 7] }) ∧
    (SubscriberManager.mk (MockS4 200 (some (sample_aor [] [])) 7 500 500 none 500)
        (MockHSSConnection 200 sample_irs_info 200)).register_subscriber world0
        "sip:example.com" "scscf.example.com" [("sip:example.com", false)] []
        [("kept", sample_binding "sip:example.com" "sip:a@2")] =
      (500, [("kept", sample_binding "sip:example.com" "sip:a@2")],
        { state := (),
          calls := world0.calls ++
            [Call.handle_put "sip:example.com"
              (put_bindings_aor "sip:example.com" [] [("sip:example.com", false)]
                "scscf.example.com")] }) :=
  have h := store_failure_is_propagated
    (SubscriberManager.mk (MockS4 200 (some (sample_aor [] [])) 7 500 500 none 500)
      (MockHSSConnection 200 sample_irs_info 200))
    0 world0 "sip:example.com" "sip:example.com" "scscf.example.com"
    [("sip:example.com", false)] [] ["b1"] EventTrigger.USER
    [("kept", sample_binding "sip:example.com" "sip:a@2")] irs_info.new sample_irs_info
    (sample_aor [] []) (some (sample_aor [] [])) none 7 500 () () () (by decide)
  ⟨h.1 rfl rfl, h.2.1 rfl rfl rfl rfl, h.2.2.1 rfl rfl rfl rfl (by decide) (by decide),
    h.2.2.2 rfl⟩

/-- C10. A failure of the post-commit HSS deregistration does not change the result:
whatever the collaborators are (in particular whatever code
`update_registration_state` returns), when the store steps succeed
`reregister_subscriber` and `remove_bindings` return `HTTP_OK` with the bindings
out-parameter equal to the bindings of the post-PATCH AoR, and
`deregister_subscriber` returns `HTTP_OK`. -/
theorem hss_dereg_failure_does_not_change_result {σ : Type}
    (sm : SubscriberManager σ) (fuel : Nat) (w : World σ) (public_id aor_id : String)
    (associated_uris : AssociatedURIs) (updated_bindings : Bindings)
    (binding_ids : List String) (event_trigger : EventTrigger) (all_bindings : Bindings)
    (info0 info : irs_info) (orig_aor updated_aor : AoR) (version : Nat)
    (delete_rc : HTTPCode) (st0 st1 st2 : σ) :
    (sm._s4.handle_get w.state aor_id = (HTTP_OK, some orig_aor, version, st1) →
      sm._s4.handle_patch st1 aor_id
        (patch_bindings_object updated_bindings binding_ids
          (subscriptions_to_remove orig_aor.bindings orig_aor.subscriptions updated_bindings
            binding_ids) associated_uris) = (HTTP_OK, some updated_aor, st2) →
      ∃ r, sm.reregister_subscriber w aor_id associated_uris updated_bindings binding_ids
          all_bindings info0 = some r ∧ r.1 = HTTP_OK ∧ r.2.1 = updated_aor.bindings) ∧
    (sm._hss_connection.get_registration_data w.state public_id irs_info.new =
        (HTTP_OK, info, st0) →
      info._associated_uris.get_default_impu = some aor_id →
      sm._s4.handle_get st0 aor_id = (HTTP_OK, some orig_aor, version, st1) →
      sm._s4.handle_patch st1 aor_id
        (patch_bindings_object [] binding_ids
          (subscriptions_to_remove orig_aor.bindings orig_aor.subscriptions [] binding_ids)
          info._associated_uris) = (HTTP_OK, some updated_aor, st2) →
      ∃ r, sm.remove_bindings w public_id binding_ids event_trigger all_bindings = some r ∧
        r.1 = HTTP_OK ∧ r.2.1 = updated_aor.bindings) ∧
    (sm._hss_connection.get_registration_data w.state public_id irs_info.new =
        (HTTP_OK, info, st0) →
      info._associated_uris.get_default_impu = some aor_id →
      sm._s4.handle_get st0 aor_id = (HTTP_OK, some orig_aor, version, st1) →
      sm._s4.handle_delete st1 aor_id version = (delete_rc, st2) →
      delete_rc = HTTP_OK ∨ delete_rc = HTTP_NO_CONTENT →
      ∃ r, sm.deregister_subscriber (fuel + 1) w public_id event_trigger = some r ∧
        r.1 = HTTP_OK) := by
  refine ⟨?_, ?_, ?_⟩
  · intro hget hpatch
    have hw : (w.call (Call.handle_get aor_id) st1).state = st1 := rfl
    cases hb : updated_aor.bindings with
    | nil =>
      simp only [reregister_subscriber, patch_bindings, hget, hw, hpatch, ne_eq,
        not_true_eq_false, if_false, AoRUtils.copy_bindings, hb, List.isEmpty_nil, if_true]
      exact ⟨_, rfl, rfl, rfl⟩
    | cons p rest =>
      simp only [reregister_subscriber, patch_bindings, hget, hw, hpatch, ne_eq,
        not_true_eq_false, if_false, AoRUtils.copy_bindings, hb, List.isEmpty_cons,
        Bool.false_eq_true]
      exact ⟨_, rfl, rfl, rfl⟩
  · intro hhss himpu hget hpatch
    have hid := get_cached_default_id_found sm w public_id "" aor_id irs_info.new info st0
      hhss himpu
    cases hb : updated_aor.bindings with
    | nil =>
      simp only [remove_bindings, hid, World.call, patch_bindings, hget, hpatch, ne_eq,
        not_true_eq_false, if_false, AoRUtils.copy_bindings, hb, List.isEmpty_nil, if_true]
      exact ⟨_, rfl, rfl, rfl⟩
    | cons p rest =>
      simp only [remove_bindings, hid, World.call, patch_bindings, hget, hpatch, ne_eq,
        not_true_eq_false, if_false, AoRUtils.copy_bindings, hb, List.isEmpty_cons,
        Bool.false_eq_true]
      exact ⟨_, rfl, rfl, rfl⟩
  · intro hhss himpu hget hdelete hrc
    have hid := get_cached_default_id_found sm w public_id "" aor_id irs_info.new info st0
      hhss himpu
    have h412 : delete_rc ≠ HTTP_PRECONDITION_FAILED := by
      rcases hrc with h | h <;> rw [h] <;> decide
    have hok : ¬ (delete_rc ≠ HTTP_OK ∧ delete_rc ≠ HTTP_NO_CONTENT) := by
      rcases hrc with h | h <;> rw [h] <;> decide
    simp only [deregister_subscriber, hid, deregister_subscriber_loop, World.call, hget,
      hdelete, ne_eq, not_true_eq_false, if_false, h412, hok]
    exact ⟨_, rfl, rfl⟩

/-- Witness for C10: the store succeeds and the HSS answers 500 to
`update_registration_state`. -/
theorem hss_dereg_failure_does_not_change_result_witness :
    (∃ r, (SubscriberManager.mk
            (MockS4 200 (some (sample_aor [("b1", sample_binding "sip:example.com" "sip:a@1")] []))
              7 200 200 (some (sample_aor [] [])) 200)
            (MockHSSConnection 200 sample_irs_info 500)).reregister_subscriber world0
          "sip:example.com" [("sip:example.com", false)] [] ["b1"]
          [("old", sample_binding "sip:example.com" "sip:a@2")] irs_info.new = some r ∧
        r.1 = HTTP_OK ∧ r.2.1 = (sample_aor [] []).bindings) ∧
    (∃ r, (SubscriberManager.mk
            (MockS4 200 (some (sample_aor [("b1", sample_binding "sip:example.com" "sip:a@1")] []))
              7 200 200 (some (sample_aor [] [])) 200)
            (MockHSSConnection 200 sample_irs_info 500)).remove_bindings world0
          "sip:example.com" ["b1"] EventTrigger.ADMIN
          [("old", sample_binding "sip:example.com" "sip:a@2")] = some r ∧
        r.1 = HTTP_OK ∧ r.2.1 = (sample_aor [] []).bindings) ∧
    (∃ r, (SubscriberManager.mk
            (MockS4 200 (some (sample_aor [("b1", sample_binding "sip:example.com" "sip:a@1")] []))
              7 200 200 (some (sample_aor [] [])) 200)
            (MockHSSConnection 200 sample_irs_info 500)).deregister_subscriber (0 + 1) world0
          "sip:example.com" EventTrigger.ADMIN = some r ∧
        r.1 = HTTP_OK) :=
  have h := hss_dereg_failure_does_not_change_result
    (SubscriberManager.mk
      (MockS4 200 (some (sample_aor [("b1", sample_binding "sip:example.com" "sip:a@1")] []))
        7 200 200 (some (sample_aor [] [])) 200)
      (MockHSSConnection 200 sample_irs_info 500))
    0 world0 "sip:example.com" "sip:example.com" [("sip:example.com", false)] [] ["b1"]
    EventTrigger.ADMIN [("old", sample_binding "sip:example.com" "sip:a@2")] irs_info.new
    sample_irs_info (sample_aor [("b1", sample_binding "sip:example.com" "sip:a@1")] [])
    (sample_aor [] []) 7 200 () () ()
  ⟨h.1 rfl rfl, h.2.1 rfl rfl rfl rfl, h.2.2 rfl rfl rfl rfl (Or.inl rfl)⟩

end Sprout

namespace Sprout

open SubscriberManager

/-! ## Version conflicts -/

/-- C11, counterexample. Against a store that answers 412 to the first PATCH and 200
to the next, `reregister_subscriber` returns 412 after one GET and one PATCH; the
PATCH it did not re-issue would have been answered with 200. -/
theorem reregister_subscriber_returns_412_without_retry :
    (conflicting_manager registered_aor (some (sample_aor [] []))).reregister_subscriber
        { state := 1, calls := [] } "sip:example.com" [("sip:example.com", false)] []
        ["b1"] [] irs_info.new =
      some (412, [], irs_info.new,
        { state := 0,
          calls :=
            [Call.handle_get "sip:example.com",
             Call.handle_patch "sip:example.com"
              (patch_bindings_object [] ["b1"] ["s1"] [("sip:example.com", false)])] }) ∧
    ((conflicting_manager registered_aor (some (sample_aor [] [])))._s4.handle_patch 0
        "sip:example.com"
        (patch_bindings_object [] ["b1"] ["s1"] [("sip:example.com", false)])).1 = 200 := by
  exact ⟨rfl, rfl⟩

/-- C11, amended. `reregister_subscriber` does not retry on a version conflict: when
the GET returns 200 and the PATCH returns 412, the operation returns 412 after exactly
one GET and one PATCH, with `all_bindings` and `irs_info` unchanged and no HSS call. -/
theorem reregister_subscriber_no_retry_on_conflict {σ : Type}
    (sm : SubscriberManager σ) (w : World σ) (aor_id : String)
    (associated_uris : AssociatedURIs) (updated_bindings : Bindings)
    (binding_ids_to_remove : List String) (all_bindings : Bindings) (info : irs_info)
    (orig_aor : AoR) (patched : Option AoR) (version : Nat) (st1 st2 : σ)
    (hget : sm._s4.handle_get w.state aor_id = (HTTP_OK, some orig_aor, version, st1))
    (hpatch : sm._s4.handle_patch st1 aor_id
        (patch_bindings_object updated_bindings binding_ids_to_remove
          (subscriptions_to_remove orig_aor.bindings orig_aor.subscriptions updated_bindings
            binding_ids_to_remove) associated_uris) =
        (HTTP_PRECONDITION_FAILED, patched, st2)) :
    sm.reregister_subscriber w aor_id associated_uris updated_bindings
        binding_ids_to_remove all_bindings info =
      some (HTTP_PRECONDITION_FAILED, all_bindings, info,
        { state := st2,
          calls := w.calls ++
            [Call.handle_get aor_id,
             Call.handle_patch aor_id
              (patch_bindings_object updated_bindings binding_ids_to_remove
                (subscriptions_to_remove orig_aor.bindings orig_aor.subscriptions
                  updated_bindings binding_ids_to_remove) associated_uris)] }) := by
  have hw : (w.call (Call.handle_get aor_id) st1).state = st1 := rfl
  have h412 : HTTP_PRECONDITION_FAILED ≠ HTTP_OK := by decide
  simp only [reregister_subscriber, patch_bindings, hget, hw, hpatch, ne_eq,
    not_true_eq_false, if_false, h412, not_false_eq_true, if_true]
  simp [World.call]

/-- Witness for the amended C11: one conflict to come in the store. -/
theorem reregister_subscriber_no_retry_on_conflict_witness :
    (conflicting_manager registered_aor (some (sample_aor [] []))).reregister_subscriber
        { state := 1, calls := [] } "sip:example.com" [("sip:example.com", false)]
        [("b1", sample_binding "sip:example.com" "sip:a@2")] [] [] irs_info.new =
      some (HTTP_PRECONDITION_FAILED, [], irs_info.new,
        { state := 0,
          calls := ([] : List Call) ++
            [Call.handle_get "sip:example.com",
             Call.handle_patch "sip:example.com"
              (patch_bindings_object [("b1", sample_binding "sip:example.com" "sip:a@2")] []
                (subscriptions_to_remove registered_aor.bindings
                  registered_aor.subscriptions
                  [("b1", sample_binding "sip:example.com" "sip:a@2")] [])
                [("sip:example.com", false)])] }) :=
  reregister_subscriber_no_retry_on_conflict
    (conflicting_manager registered_aor (some (sample_aor [] [])))
    { state := 1, calls := [] } "sip:example.com" [("sip:example.com", false)]
    [("b1", sample_binding "sip:example.com" "sip:a@2")] [] [] irs_info.new
    registered_aor none 1 1 0 rfl rfl

/-- The retry loop against a store in conflict: with `k` conflicts to come it ends
after `k + 1` iterations, and not before. -/
theorem deregister_subscriber_loop_conflicting (aor : AoR) (patched : Option AoR)
    (aor_id : String) (k fuel : Nat) (calls : List Call) :
    deregister_subscriber_loop (conflicting_manager aor patched) aor_id fuel
        { state := k, calls := calls } =
      if fuel ≤ k then none
      else some (LoopExit.left HTTP_NO_CONTENT (some aor)
        { state := 0, calls := calls ++ retry_calls aor_id k }) := by
  induction k generalizing fuel calls with
  | zero =>
    cases fuel with
    | zero => simp [deregister_subscriber_loop]
    | succ f =>
      simp [deregister_subscriber_loop, conflicting_manager, ConflictingS4, World.call,
        retry_calls, HTTP_OK, HTTP_NO_CONTENT, HTTP_PRECONDITION_FAILED]
  | succ k ih =>
    cases fuel with
    | zero => simp [deregister_subscriber_loop]
    | succ f =>
      have hstep : deregister_subscriber_loop (conflicting_manager aor patched) aor_id (f + 1)
          { state := k + 1, calls := calls } =
          deregister_subscriber_loop (conflicting_manager aor patched) aor_id f
            { state := k,
              calls := calls ++ [Call.handle_get aor_id, Call.handle_delete aor_id (k + 1)] } := by
        simp [deregister_subscriber_loop, conflicting_manager, ConflictingS4, World.call]
      rw [hstep, ih]
      simp [retry_calls]

theorem deletes_sent_retry_calls (aor_id : String) (k : Nat) :
    (deletes_sent (retry_calls aor_id k)).length = k + 1 := by
  induction k with
  | zero => simp [deletes_sent, retry_calls]
  | succ k ih =>
    have h : deletes_sent (retry_calls aor_id (k + 1)) =
        (k + 1) :: deletes_sent (retry_calls aor_id k) := by
      simp [deletes_sent, retry_calls]
    rw [h, List.length_cons, ih]

/-- C12, counterexample. Against a store that answers 412 to the first four DELETEs and
204 to the fifth, `deregister_subscriber` has not returned after four iterations of
its loop and returns `HTTP_OK`, not 503, after the fifth: it has issued five DELETEs. -/
theorem deregister_subscriber_exceeds_three_attempts :
    (conflicting_manager registered_aor none).deregister_subscriber 4
        { state := 4, calls := [] } "sip:example.com" EventTrigger.USER = none ∧
    (conflicting_manager registered_aor none).deregister_subscriber 5
        { state := 4, calls := [] } "sip:example.com" EventTrigger.USER =
      some (HTTP_OK,
        { state := 0,
          calls :=
            [Call.get_registration_data "sip:example.com",
             Call.handle_get "sip:example.com", Call.handle_delete "sip:example.com" 4,
             Call.handle_get "sip:example.com", Call.handle_delete "sip:example.com" 3,
             Call.handle_get "sip:example.com", Call.handle_delete "sip:example.com" 2,
             Call.handle_get "sip:example.com", Call.handle_delete "sip:example.com" 1,
             Call.handle_get "sip:example.com", Call.handle_delete "sip:example.com" 0,
             Call.update_registration_state
              { _public_id := "sip:example.com", _req_type := "dereg-user",
                _server_name := "scscf.sprout.site1.example.com" }] }) := by
  exact ⟨rfl, rfl⟩

/-- C12, amended. The retry loop of `deregister_subscriber` has no cap and produces no
503: against a store that answers 412 to the first `n` DELETEs and 204 to the next,
for every `n`, the operation has not returned after `n` iterations or fewer, and with
one more it returns `HTTP_OK` having issued exactly `n + 1` GET/DELETE pairs before
the HSS deregistration. -/
theorem deregister_subscriber_retries_without_cap (n : Nat) (aor : AoR)
    (event_trigger : EventTrigger) :
    (∀ fuel, fuel ≤ n →
      (conflicting_manager aor none).deregister_subscriber fuel
        { state := n, calls := [] } "sip:example.com" event_trigger = none) ∧
    (conflicting_manager aor none).deregister_subscriber (n + 1)
        { state := n, calls := [] } "sip:example.com" event_trigger =
      some (HTTP_OK,
        { state := 0,
          calls := Call.get_registration_data "sip:example.com" ::
            (retry_calls "sip:example.com" n ++
              [Call.update_registration_state
                { _public_id := "sip:example.com",
                  _req_type := if event_trigger = EventTrigger.USER then "dereg-user"
                               else "dereg-admin",
                  _server_name := aor._scscf_uri }]) }) ∧
    (deletes_sent (retry_calls "sip:example.com" n)).length = n + 1 := by
  have hid : (conflicting_manager aor none).get_cached_default_id
      { state := n, calls := [] } "sip:example.com" "" irs_info.new =
      (HTTP_OK, "sip:example.com", sample_irs_info,
        { state := n, calls := [Call.get_registration_data "sip:example.com"] }) := by
    rfl
  refine ⟨?_, ?_, deletes_sent_retry_calls _ n⟩
  · intro fuel hfuel
    simp only [deregister_subscriber, hid, deregister_subscriber_loop_conflicting, hfuel,
      if_true, ne_eq, not_true_eq_false, if_false]
  · have hn : ¬ (n + 1 ≤ n) := by omega
    have hok : ¬ (HTTP_NO_CONTENT ≠ HTTP_OK ∧ HTTP_NO_CONTENT ≠ HTTP_NO_CONTENT) := by decide
    simp only [deregister_subscriber, hid, deregister_subscriber_loop_conflicting, hn,
      if_false, ne_eq, not_true_eq_false, hok, deregister_with_hss, get_subscriber_state]
    simp [conflicting_manager, SteadyHSSConnection, World.call, DEREG_USER, DEREG_ADMIN]

/-- Witness for the amended C12: two conflicts to come in the store. -/
theorem deregister_subscriber_retries_without_cap_witness :
    (∀ fuel, fuel ≤ 2 →
      (conflicting_manager registered_aor none).deregister_subscriber fuel
        { state := 2, calls := [] } "sip:example.com" EventTrigger.ADMIN = none) ∧
    (conflicting_manager registered_aor none).deregister_subscriber (2 + 1)
        { state := 2, calls := [] } "sip:example.com" EventTrigger.ADMIN =
      some (HTTP_OK,
        { state := 0,
          calls := Call.get_registration_data "sip:example.com" ::
            (retry_calls "sip:example.com" 2 ++
              [Call.update_registration_state
                { _public_id := "sip:example.com",
                  _req_type := if EventTrigger.ADMIN = EventTrigger.USER then "dereg-user"
                               else "dereg-admin",
                  _server_name := registered_aor._scscf_uri }]) }) ∧
    (deletes_sent (retry_calls "sip:example.com" 2)).length = 2 + 1 :=
  deregister_subscriber_retries_without_cap 2 registered_aor EventTrigger.ADMIN

end Sprout

namespace Sprout

open SubscriberManager

/-! ## The retry loop, iteration by iteration -/

/-- The retry loop against any store that conflicts `n` times: when the GETs of the
first `n + 1` iterations answer 200 and the DELETEs of the first `n` answer 412, the
loop, given fuel for `n + 1` iterations or more, ends with the answer of the DELETE
number `n`, having issued `n + 1` GET/DELETE pairs, each DELETE carrying the version
of the GET of its own iteration. -/
theorem deregister_subscriber_loop_after_conflicts {σ : Type} (sm : SubscriberManager σ)
    (aor_id : String) (n extra : Nat) (before after : Nat → σ) (version : Nat → Nat)
    (got : Nat → Option AoR) (rc : HTTPCode) (final : σ) (calls : List Call)
    (hget : ∀ i, i ≤ n →
      sm._s4.handle_get (before i) aor_id = (HTTP_OK, got i, version i, after i))
    (hconflict : ∀ i, i < n →
      sm._s4.handle_delete (after i) aor_id (version i) =
        (HTTP_PRECONDITION_FAILED, before (i + 1)))
    (hlast : sm._s4.handle_delete (after n) aor_id (version n) = (rc, final))
    (hrc : rc ≠ HTTP_PRECONDITION_FAILED) :
    deregister_subscriber_loop sm aor_id (n + 1 + extra) { state := before 0, calls := calls } =
      some (LoopExit.left rc (got n)
        { state := final, calls := calls ++ attempts_calls aor_id (n + 1) version }) := by
  induction n generalizing before after version got calls with
  | zero =>
    have hfuel : 0 + 1 + extra = extra + 1 := by omega
    have hg := hget 0 (Nat.le_refl 0)
    rw [hfuel]
    simp only [deregister_subscriber_loop, World.call, hg, hlast, ne_eq, not_true_eq_false,
      if_false, hrc, attempts_calls]
    simp
  | succ n ih =>
    have hfuel : n + 1 + 1 + extra = (n + 1 + extra) + 1 := by omega
    have hg := hget 0 (Nat.zero_le _)
    have hc := hconflict 0 (Nat.succ_pos n)
    rw [hfuel]
    simp only [deregister_subscriber_loop, World.call, hg, hc, ne_eq, not_true_eq_false,
      if_false, if_true]
    have hrest := ih (fun i => before (i + 1)) (fun i => after (i + 1))
      (fun i => version (i + 1)) (fun i => got (i + 1))
      (calls ++ [Call.handle_get aor_id] ++ [Call.handle_delete aor_id (version 0)])
      (fun i hi => hget (i + 1) (Nat.succ_le_succ hi))
      (fun i hi => hconflict (i + 1) (Nat.succ_lt_succ hi))
      hlast
    simp only at hrest
    rw [hrest]
    simp [attempts_calls]

/-- The retry loop against any store that conflicts `n` times and then fails the GET:
the loop ends with a `return`, of `HTTP_OK` for a 404 and of the code of the GET
otherwise, having issued `n` GET/DELETE pairs and the last GET. -/
theorem deregister_subscriber_loop_get_fails {σ : Type} (sm : SubscriberManager σ)
    (aor_id : String) (n extra : Nat) (before after : Nat → σ) (version : Nat → Nat)
    (got : Nat → Option AoR) (rc : HTTPCode) (calls : List Call)
    (hget : ∀ i, i < n →
      sm._s4.handle_get (before i) aor_id = (HTTP_OK, got i, version i, after i))
    (hconflict : ∀ i, i < n →
      sm._s4.handle_delete (after i) aor_id (version i) =
        (HTTP_PRECONDITION_FAILED, before (i + 1)))
    (hlast : sm._s4.handle_get (before n) aor_id = (rc, got n, version n, after n))
    (hrc : rc ≠ HTTP_OK) :
    deregister_subscriber_loop sm aor_id (n + 1 + extra) { state := before 0, calls := calls } =
      some (LoopExit.returned (if rc = HTTP_NOT_FOUND then HTTP_OK else rc)
        { state := after n,
          calls := calls ++ attempts_calls aor_id n version ++ [Call.handle_get aor_id] }) := by
  induction n generalizing before after version got calls with
  | zero =>
    have hfuel : 0 + 1 + extra = extra + 1 := by omega
    rw [hfuel]
    by_cases h404 : rc = HTTP_NOT_FOUND
    · subst h404
      have hnf : HTTP_NOT_FOUND ≠ HTTP_OK := by decide
      simp only [deregister_subscriber_loop, World.call, hlast, ne_eq, hnf,
        not_false_eq_true, if_true, attempts_calls, List.append_nil]
    · simp only [deregister_subscriber_loop, World.call, hlast, ne_eq, hrc,
        not_false_eq_true, if_true, h404, if_false, attempts_calls, List.append_nil]
  | succ n ih =>
    have hfuel : n + 1 + 1 + extra = (n + 1 + extra) + 1 := by omega
    have hg := hget 0 (Nat.succ_pos n)
    have hc := hconflict 0 (Nat.succ_pos n)
    rw [hfuel]
    simp only [deregister_subscriber_loop, World.call, hg, hc, ne_eq, not_true_eq_false,
      if_false, if_true]
    have hrest := ih (fun i => before (i + 1)) (fun i => after (i + 1))
      (fun i => version (i + 1)) (fun i => got (i + 1))
      (calls ++ [Call.handle_get aor_id] ++ [Call.handle_delete aor_id (version 0)])
      (fun i hi => hget (i + 1) (Nat.succ_lt_succ hi))
      (fun i hi => hconflict (i + 1) (Nat.succ_lt_succ hi))
      hlast
    simp only at hrest
    rw [hrest]
    simp [attempts_calls]

theorem deletes_sent_attempts_calls (aor_id : String) (n : Nat) (version : Nat → Nat) :
    deletes_sent (attempts_calls aor_id n version) = (List.range n).map version := by
  induction n generalizing version with
  | zero => rfl
  | succ n ih =>
    have h : deletes_sent (attempts_calls aor_id (n + 1) version) =
        version 0 :: deletes_sent (attempts_calls aor_id n (fun i => version (i + 1))) := by
      simp [deletes_sent, attempts_calls]
    rw [h, ih, List.range_succ_eq_map]
    simp [Function.comp_def]

theorem deletes_sent_lookup_and_calls (public_id : String) (l1 l2 : List Call) :
    deletes_sent (Call.get_registration_data public_id :: (l1 ++ l2)) =
      deletes_sent l1 ++ deletes_sent l2 := by
  simp [deletes_sent, List.filterMap_append]

/-- C13. Against any store, once the public id is resolved: when the GETs of the first
`n + 1` iterations answer 200 (iteration `i` reading the version `version i`) and the
DELETEs of the first `n` iterations answer 412, `deregister_subscriber` issues, after
the HSS lookup, exactly `n + 1` GET/DELETE pairs in which the DELETE of iteration `i`
carries `version i`, the version returned by the GET just before it, and never the
version of an earlier iteration; it then returns the code of the last DELETE when that
is neither 200 nor 204, and `HTTP_OK` after the HSS deregistration when it is and the
last GET supplied an AoR.  When instead the GET number `n` fails, the operation
returns after `n` such pairs and that GET. -/
theorem deregister_subscriber_delete_carries_fresh_version {σ : Type}
    (sm : SubscriberManager σ) (w : World σ) (public_id aor_id : String)
    (event_trigger : EventTrigger) (info : irs_info) (n extra : Nat)
    (before after : Nat → σ) (version : Nat → Nat) (got : Nat → Option AoR)
    (hhss : sm._hss_connection.get_registration_data w.state public_id irs_info.new =
      (HTTP_OK, info, before 0))
    (himpu : info._associated_uris.get_default_impu = some aor_id)
    (hget : ∀ i, i < n →
      sm._s4.handle_get (before i) aor_id = (HTTP_OK, got i, version i, after i))
    (hconflict : ∀ i, i < n →
      sm._s4.handle_delete (after i) aor_id (version i) =
        (HTTP_PRECONDITION_FAILED, before (i + 1))) :
    (∀ (rc : HTTPCode) (final : σ),
      sm._s4.handle_get (before n) aor_id = (HTTP_OK, got n, version n, after n) →
      sm._s4.handle_delete (after n) aor_id (version n) = (rc, final) →
      rc ≠ HTTP_PRECONDITION_FAILED → rc ≠ HTTP_OK → rc ≠ HTTP_NO_CONTENT →
      sm.deregister_subscriber (n + 1 + extra) w public_id event_trigger =
          some (rc,
            { state := final,
              calls := w.calls ++ Call.get_registration_data public_id ::
                attempts_calls aor_id (n + 1) version }) ∧
        deletes_sent (attempts_calls aor_id (n + 1) version) =
          (List.range (n + 1)).map version) ∧
    (∀ (rc : HTTPCode) (final : σ) (orig_aor : AoR),
      sm._s4.handle_get (before n) aor_id = (HTTP_OK, some orig_aor, version n, after n) →
      got n = some orig_aor →
      sm._s4.handle_delete (after n) aor_id (version n) = (rc, final) →
      rc = HTTP_OK ∨ rc = HTTP_NO_CONTENT →
      ∃ r, sm.deregister_subscriber (n + 1 + extra) w public_id event_trigger = some r ∧
        r.1 = HTTP_OK ∧
        r.2.calls = w.calls ++ Call.get_registration_data public_id ::
          (attempts_calls aor_id (n + 1) version ++
            [Call.update_registration_state
              { _public_id := aor_id,
                _req_type := if event_trigger = EventTrigger.USER then "dereg-user"
                             else "dereg-admin",
                _server_name := orig_aor._scscf_uri }]) ∧
        deletes_sent (r.2.calls.drop w.calls.length) = (List.range (n + 1)).map version) ∧
    (∀ (rc : HTTPCode),
      sm._s4.handle_get (before n) aor_id = (rc, got n, version n, after n) →
      rc ≠ HTTP_OK →
      sm.deregister_subscriber (n + 1 + extra) w public_id event_trigger =
          some (if rc = HTTP_NOT_FOUND then HTTP_OK else rc,
            { state := after n,
              calls := w.calls ++ Call.get_registration_data public_id ::
                (attempts_calls aor_id n version ++ [Call.handle_get aor_id]) }) ∧
        deletes_sent (attempts_calls aor_id n version) = (List.range n).map version) := by
  have hid := get_cached_default_id_found sm w public_id "" aor_id irs_info.new info
    (before 0) hhss himpu
  have hgets : ∀ rc0, sm._s4.handle_get (before n) aor_id =
      (rc0, got n, version n, after n) → rc0 = HTTP_OK →
      ∀ i, i ≤ n →
        sm._s4.handle_get (before i) aor_id = (HTTP_OK, got i, version i, after i) := by
    intro rc0 h hok i hi
    rcases Nat.lt_or_eq_of_le hi with hlt | heq
    · exact hget i hlt
    · subst heq
      rw [h, hok]
  refine ⟨?_, ?_, ?_⟩
  · intro rc final hgn hdel h412 h200 h204
    have hloop := deregister_subscriber_loop_after_conflicts sm aor_id n extra before after
      version got rc final (w.call (Call.get_registration_data public_id) (before 0)).calls
      (hgets _ hgn rfl) hconflict hdel h412
    have hw : (w.call (Call.get_registration_data public_id) (before 0)) =
        { state := before 0,
          calls := (w.call (Call.get_registration_data public_id) (before 0)).calls } := rfl
    refine ⟨?_, deletes_sent_attempts_calls _ _ _⟩
    rw [deregister_subscriber, hid]
    simp only [ne_eq, not_true_eq_false, if_false]
    rw [hw, hloop]
    simp [h200, h204, World.call]
  · intro rc final orig_aor hgn hgot hdel hrc
    have h412 : rc ≠ HTTP_PRECONDITION_FAILED := by
      rcases hrc with h | h <;> rw [h] <;> decide
    have hok : ¬ (rc ≠ HTTP_OK ∧ rc ≠ HTTP_NO_CONTENT) := by
      rcases hrc with h | h <;> rw [h] <;> decide
    have hgn2 : sm._s4.handle_get (before n) aor_id =
        (HTTP_OK, got n, version n, after n) := by rw [hgn, hgot]
    have hloop := deregister_subscriber_loop_after_conflicts sm aor_id n extra before after
      version got rc final (w.call (Call.get_registration_data public_id) (before 0)).calls
      (hgets _ hgn2 rfl) hconflict hdel h412
    have hw : (w.call (Call.get_registration_data public_id) (before 0)) =
        { state := before 0,
          calls := (w.call (Call.get_registration_data public_id) (before 0)).calls } := rfl
    rw [deregister_subscriber, hid]
    simp only [ne_eq, not_true_eq_false, if_false]
    rw [hw, hloop]
    simp only [ne_eq, hok, if_false, hgot, deregister_with_hss, get_subscriber_state]
    have key : ∀ (l tail : List Call), deletes_sent tail = [] →
        l = w.calls ++ Call.get_registration_data public_id ::
          (attempts_calls aor_id (n + 1) version ++ tail) →
        deletes_sent (l.drop w.calls.length) = (List.range (n + 1)).map version := by
      intro l tail htail hl
      rw [hl, List.drop_left, deletes_sent_lookup_and_calls, deletes_sent_attempts_calls,
        htail, List.append_nil]
    refine ⟨_, rfl, rfl, ?_⟩
    refine (fun hcalls => ⟨hcalls, key _
      [Call.update_registration_state
        { _public_id := aor_id,
          _req_type := if event_trigger = EventTrigger.USER then "dereg-user"
                       else "dereg-admin",
          _server_name := orig_aor._scscf_uri }] rfl hcalls⟩) ?_
    simp [World.call, DEREG_USER, DEREG_ADMIN]
  · intro rc hgn hrc
    have hloop := deregister_subscriber_loop_get_fails sm aor_id n extra before after
      version got rc (w.call (Call.get_registration_data public_id) (before 0)).calls
      hget hconflict hgn hrc
    have hw : (w.call (Call.get_registration_data public_id) (before 0)) =
        { state := before 0,
          calls := (w.call (Call.get_registration_data public_id) (before 0)).calls } := rfl
    refine ⟨?_, deletes_sent_attempts_calls _ _ _⟩
    rw [deregister_subscriber, hid]
    simp only [ne_eq, not_true_eq_false, if_false]
    rw [hw, hloop]
    simp [World.call]

/-- Witness for C13: the store in conflict twice hands out the versions 2, 1 and 0 and
the three DELETEs carry them in this order; a store whose DELETE answers 500; a store
whose GET answers 404. -/
theorem deregister_subscriber_delete_carries_fresh_version_witness :
    (∃ r, (conflicting_manager registered_aor none).deregister_subscriber 3
          { state := 2, calls := [] } "sip:example.com" EventTrigger.USER = some r ∧
        r.1 = HTTP_OK ∧
        r.2.calls =
          [Call.get_registration_data "sip:example.com",
           Call.handle_get "sip:example.com", Call.handle_delete "sip:example.com" 2,
           Call.handle_get "sip:example.com", Call.handle_delete "sip:example.com" 1,
           Call.handle_get "sip:example.com", Call.handle_delete "sip:example.com" 0,
           Call.update_registration_state
             { _public_id := "sip:example.com", _req_type := "dereg-user",
               _server_name := registered_aor._scscf_uri }] ∧
        deletes_sent (r.2.calls.drop 0) = [2, 1, 0]) ∧
    ((SubscriberManager.mk (MockS4 200 (some registered_aor) 7 200 200 none 500)
          (MockHSSConnection 200 sample_irs_info 200)).deregister_subscriber 1
          world0 "sip:example.com" EventTrigger.USER =
        some (500,
          { state := (),
            calls :=
              [Call.get_registration_data "sip:example.com",
               Call.handle_get "sip:example.com",
               Call.handle_delete "sip:example.com" 7] }) ∧
      deletes_sent (attempts_calls "sip:example.com" 1 (fun _ => 7)) = [7]) ∧
    ((SubscriberManager.mk (MockS4 HTTP_NOT_FOUND none 0 200 200 none 200)
          (MockHSSConnection 200 sample_irs_info 200)).deregister_subscriber 1
          world0 "sip:example.com" EventTrigger.USER =
        some (HTTP_OK,
          { state := (),
            calls :=
              [Call.get_registration_data "sip:example.com",
               Call.handle_get "sip:example.com"] }) ∧
      deletes_sent (attempts_calls "sip:example.com" 0 (fun _ => 0)) = []) :=
  ⟨(deregister_subscriber_delete_carries_fresh_version
      (conflicting_manager registered_aor none) { state := 2, calls := [] }
      "sip:example.com" "sip:example.com" EventTrigger.USER sample_irs_info 2 0
      (fun i => 2 - i) (fun i => 2 - i) (fun i => 2 - i) (fun _ => some registered_aor)
      rfl rfl (fun _ _ => rfl)
      (fun i hi =>
        match i, hi with
        | 0, _ => rfl
        | 1, _ => rfl)).2.1 HTTP_NO_CONTENT 0 registered_aor rfl rfl rfl (Or.inr rfl),
   (deregister_subscriber_delete_carries_fresh_version
      (SubscriberManager.mk (MockS4 200 (some registered_aor) 7 200 200 none 500)
        (MockHSSConnection 200 sample_irs_info 200))
      world0 "sip:example.com" "sip:example.com" EventTrigger.USER sample_irs_info 0 0
      (fun _ => ()) (fun _ => ()) (fun _ => 7) (fun _ => some registered_aor)
      rfl rfl (fun _ hi => absurd hi (Nat.not_lt_zero _))
      (fun _ hi => absurd hi (Nat.not_lt_zero _))).1 500 () rfl rfl
      (by decide) (by decide) (by decide),
   (deregister_subscriber_delete_carries_fresh_version
      (SubscriberManager.mk (MockS4 HTTP_NOT_FOUND none 0 200 200 none 200)
        (MockHSSConnection 200 sample_irs_info 200))
      world0 "sip:example.com" "sip:example.com" EventTrigger.USER sample_irs_info 0 0
      (fun _ => ()) (fun _ => ()) (fun _ => 0) (fun _ => none)
      rfl rfl (fun _ hi => absurd hi (Nat.not_lt_zero _))
      (fun _ hi => absurd hi (Nat.not_lt_zero _))).2.2 HTTP_NOT_FOUND rfl (by decide)⟩

end Sprout

namespace Sprout

open SubscriberManager

/-- C14. `send_notifys` makes one call to the notify sender.  When the updated AoR
exists the call carries the updated AoR's associated URIs and `notify_cseq`; when the
updated AoR is absent and the original AoR exists it carries the original AoR's
associated URIs and the original AoR's `notify_cseq + 1`, the sum being the one of the
code, over 32-bit `int`: for every `notify_cseq` in the range of an `int` it is
`notify_cseq + 1`, except at 2147483647, where the sum wraps to -2147483648.  The
other arguments are passed through. -/
theorem send_notifys_cseq_and_associated_uris {σ : Type} (sm : SubscriberManager σ)
    (w : World σ) (aor_id : String) (event_trigger : EventTrigger)
    (classified_bindings : ClassifiedBindings)
    (classified_subscriptions : ClassifiedSubscriptions) (now : Int) :
    (∀ (orig_aor : Option AoR) (updated_aor : AoR),
      sm.send_notifys w aor_id event_trigger classified_bindings classified_subscriptions
          orig_aor (some updated_aor) now =
        some { state := w.state,
               calls := w.calls ++
                [Call.send_notifys aor_id classified_bindings classified_subscriptions
                  updated_aor._associated_uris updated_aor._notify_cseq now] }) ∧
    (∀ (orig_aor : AoR), INT_MIN ≤ orig_aor._notify_cseq →
      orig_aor._notify_cseq ≤ INT_MAX →
      sm.send_notifys w aor_id event_trigger classified_bindings classified_subscriptions
          (some orig_aor) none now =
        some { state := w.state,
               calls := w.calls ++
                [Call.send_notifys aor_id classified_bindings classified_subscriptions
                  orig_aor._associated_uris
                  (if orig_aor._notify_cseq = 2147483647 then -2147483648
                   else orig_aor._notify_cseq + 1) now] }) := by
  constructor
  · intro orig_aor updated_aor
    simp only [send_notifys, World.call]
  · intro orig_aor hmin hmax
    have hadd : int32_add orig_aor._notify_cseq 1 =
        if orig_aor._notify_cseq = 2147483647 then -2147483648
        else orig_aor._notify_cseq + 1 := by
      unfold INT_MIN at hmin
      unfold INT_MAX at hmax
      unfold int32_add int32_wrap
      split <;> omega
    simp only [send_notifys, World.call, hadd]

/-- Witness for C14: an original AoR whose `notify_cseq` is 1, for which the notify
sender gets 2, and one whose `notify_cseq` is 2147483647, for which it gets
-2147483648. -/
theorem send_notifys_cseq_and_associated_uris_witness :
    (succeeding_manager.send_notifys world0 "sip:example.com" EventTrigger.ADMIN [] []
        (some registered_aor) none 0).map (fun w => notifys_sent w.calls) =
      some [(registered_aor._associated_uris, 2)] ∧
    (succeeding_manager.send_notifys world0 "sip:example.com" EventTrigger.ADMIN [] []
        (some { sample_aor [] [] with _notify_cseq := 2147483647 }) none 0).map
        (fun w => notifys_sent w.calls) =
      some [([("sip:example.com", false)], -2147483648)] := by
  constructor
  · rw [(send_notifys_cseq_and_associated_uris succeeding_manager world0 "sip:example.com"
      EventTrigger.ADMIN [] [] 0).2 registered_aor (by decide) (by decide)]
    rfl
  · rw [(send_notifys_cseq_and_associated_uris succeeding_manager world0 "sip:example.com"
      EventTrigger.ADMIN [] [] 0).2 { sample_aor [] [] with _notify_cseq := 2147483647 }
      (by decide) (by decide)]
    rfl

/-- C15, counterexample. The HSS lookup succeeds and the GET returns an AoR without any
binding; `update_subscription` returns `HTTP_OK`, not 400, and has sent a PATCH that
adds the subscription. -/
theorem update_subscription_accepts_aor_without_bindings :
    (sample_aor [] []).bindings = [] ∧
    (SubscriberManager.mk
        (MockS4 200 (some (sample_aor [] [])) 7 200 200
          (some (sample_aor [] [("1234", sample_subscription "sip:a@1")])) 200)
        (MockHSSConnection 200 sample_irs_info 200)).update_subscription world0
        "sip:example.com" ("1234", some (sample_subscription "sip:a@1")) irs_info.new =
      (200, sample_irs_info,
        { state := (),
          calls :=
            [Call.get_registration_data "sip:example.com",
             Call.handle_get "sip:example.com",
             Call.handle_patch "sip:example.com"
              { _update_bindings := [], _remove_bindings := [],
                _update_subscriptions := [("1234", sample_subscription "sip:a@1")],
                _remove_subscriptions := [""], _associated_uris := none,
                _increment_cseq := true }] }) := by
  exact ⟨rfl, rfl⟩

/-- C15, amended. `update_subscription` does not look at the bindings of the AoR that
the GET returns: when the HSS lookup succeeds and the GET returns 200, whatever AoR
comes with it (also one whose bindings map is empty, also none), the operation sends
the PATCH and returns `HTTP_OK` if the PATCH returns 200 and the code of the PATCH
otherwise. -/
theorem update_subscription_ignores_bindings {σ : Type}
    (sm : SubscriberManager σ) (w : World σ) (public_id aor_id : String)
    (subscription : SubscriptionPair) (info0 info : irs_info) (got patched : Option AoR)
    (version : Nat) (rc : HTTPCode) (st0 st1 st2 : σ)
    (hhss : sm._hss_connection.get_registration_data w.state public_id info0 =
      (HTTP_OK, info, st0))
    (himpu : info._associated_uris.get_default_impu = some aor_id)
    (hget : sm._s4.handle_get st0 aor_id = (HTTP_OK, got, version, st1))
    (hpatch : sm._s4.handle_patch st1 aor_id (patch_subscription_object subscription "") =
      (rc, patched, st2)) :
    sm.update_subscription w public_id subscription info0 =
      (rc, info,
        { state := st2,
          calls := w.calls ++
            [Call.get_registration_data public_id,
             Call.handle_get aor_id,
             Call.handle_patch aor_id (patch_subscription_object subscription "")] }) := by
  have hid := get_cached_default_id_found sm w public_id "" aor_id info0 info st0 hhss himpu
  by_cases hrc : rc = HTTP_OK
  · subst hrc
    simp only [update_subscription, modify_subscription, hid, World.call, patch_subscription,
      hget, hpatch, ne_eq, not_true_eq_false, if_false]
    simp
  · simp only [update_subscription, modify_subscription, hid, World.call, patch_subscription,
      hget, hpatch, ne_eq, not_true_eq_false, if_false, hrc, not_false_eq_true, if_true]
    simp

/-- Witness for the amended C15: the GET returns an AoR without bindings. -/
theorem update_subscription_ignores_bindings_witness :
    (SubscriberManager.mk
        (MockS4 200 (some (sample_aor [] [])) 7 200 200 none 200)
        (MockHSSConnection 200 sample_irs_info 200)).update_subscription world0
        "sip:example.com" ("1234", some (sample_subscription "sip:a@1")) irs_info.new =
      (200, sample_irs_info,
        { state := (),
          calls := world0.calls ++
            [Call.get_registration_data "sip:example.com",
             Call.handle_get "sip:example.com",
             Call.handle_patch "sip:example.com"
              (patch_subscription_object ("1234", some (sample_subscription "sip:a@1"))
                "")] }) :=
  update_subscription_ignores_bindings
    (SubscriberManager.mk
      (MockS4 200 (some (sample_aor [] [])) 7 200 200 none 200)
      (MockHSSConnection 200 sample_irs_info 200))
    world0 "sip:example.com" "sip:example.com"
    ("1234", some (sample_subscription "sip:a@1")) irs_info.new sample_irs_info
    (some (sample_aor [] [])) none 7 200 () () () rfl rfl rfl rfl

/-- C16, the code at the input of `TestAddNewSubscription`. The HSS lookup, the GET
(an AoR without the subscription) and the PATCH (an AoR with it) succeed;
`update_subscription` returns `HTTP_OK` and the calls it has made are the HSS lookup,
the GET and the PATCH: the notify sender is not called, no NOTIFY is emitted. -/
theorem update_subscription_emits_no_notify :
    (SubscriberManager.mk
        (MockS4 200 (some (sample_aor [("b1", sample_binding "sip:example.com" "sip:a@1")] []))
          7 200 200
          (some (sample_aor [("b1", sample_binding "sip:example.com" "sip:a@1")]
            [("1234", sample_subscription "sip:a@1")])) 200)
        (MockHSSConnection 200 sample_irs_info 200)).update_subscription world0
        "sip:example.com" ("1234", some (sample_subscription "sip:a@1")) irs_info.new =
      (HTTP_OK, sample_irs_info,
        { state := (),
          calls :=
            [Call.get_registration_data "sip:example.com",
             Call.handle_get "sip:example.com",
             Call.handle_patch "sip:example.com"
              (patch_subscription_object ("1234", some (sample_subscription "sip:a@1"))
                "")] }) ∧
    notifys_sent
      ((SubscriberManager.mk
        (MockS4 200 (some (sample_aor [("b1", sample_binding "sip:example.com" "sip:a@1")] []))
          7 200 200
          (some (sample_aor [("b1", sample_binding "sip:example.com" "sip:a@1")]
            [("1234", sample_subscription "sip:a@1")])) 200)
        (MockHSSConnection 200 sample_irs_info 200)).update_subscription world0
        "sip:example.com" ("1234", some (sample_subscription "sip:a@1"))
        irs_info.new).2.2.calls = [] := by
  exact ⟨rfl, rfl⟩

end Sprout

namespace Sprout

open SubscriberManager

/-- C17. Once the HSS lookup has succeeded and the GET has returned 200, the
subscription operations send exactly one patch.  For `update_subscription` with a
non-null subscription its update-subscriptions set has the single entry (given id,
given subscription); for `remove_subscription` its update-subscriptions set is empty
and its remove-subscriptions list is the given id alone; in both cases the
update-bindings set and the remove-bindings list are empty. -/
theorem subscription_patch_names_requested_subscription {σ : Type}
    (sm : SubscriberManager σ) (w : World σ) (public_id aor_id : String)
    (subscription_id : String) (subscription : Subscription) (info0 info : irs_info)
    (got : Option AoR) (version : Nat) (st0 st1 : σ)
    (hhss : sm._hss_connection.get_registration_data w.state public_id info0 =
      (HTTP_OK, info, st0))
    (himpu : info._associated_uris.get_default_impu = some aor_id)
    (hget : sm._s4.handle_get st0 aor_id = (HTTP_OK, got, version, st1)) :
    (∃ po, (sm.update_subscription w public_id (subscription_id, some subscription)
          info0).2.2.calls =
        w.calls ++ [Call.get_registration_data public_id, Call.handle_get aor_id,
          Call.handle_patch aor_id po] ∧
      po._update_subscriptions = [(subscription_id, subscription)] ∧
      po._update_bindings = [] ∧ po._remove_bindings = []) ∧
    (∃ po, (sm.remove_subscription w public_id subscription_id info0).2.2.calls =
        w.calls ++ [Call.get_registration_data public_id, Call.handle_get aor_id,
          Call.handle_patch aor_id po] ∧
      po._update_subscriptions = [] ∧ po._remove_subscriptions = [subscription_id] ∧
      po._update_bindings = [] ∧ po._remove_bindings = []) := by
  have hid := get_cached_default_id_found sm w public_id "" aor_id info0 info st0 hhss himpu
  constructor
  · refine ⟨patch_subscription_object (subscription_id, some subscription) "", ?_, rfl, rfl,
      rfl⟩
    rcases hp : sm._s4.handle_patch st1 aor_id
        (patch_subscription_object (subscription_id, some subscription) "")
      with ⟨rc, patched, st2⟩
    by_cases hrc : rc = HTTP_OK
    · simp [update_subscription, modify_subscription, hid, World.call, patch_subscription,
        hget, hp, hrc]
    · simp [update_subscription, modify_subscription, hid, World.call, patch_subscription,
        hget, hp, hrc]
  · refine ⟨patch_subscription_object ("", none) subscription_id, ?_, rfl, rfl, rfl, rfl⟩
    rcases hp : sm._s4.handle_patch st1 aor_id
        (patch_subscription_object ("", none) subscription_id)
      with ⟨rc, patched, st2⟩
    by_cases hrc : rc = HTTP_OK
    · simp [remove_subscription, modify_subscription, hid, World.call, patch_subscription,
        hget, hp, hrc]
    · simp [remove_subscription, modify_subscription, hid, World.call, patch_subscription,
        hget, hp, hrc]

/-- Witness for C17: the subscription `1234` of the unit tests. -/
theorem subscription_patch_names_requested_subscription_witness :
    (∃ po, (succeeding_manager.update_subscription world0 "sip:example.com"
          ("1234", some (sample_subscription "sip:a@1")) irs_info.new).2.2.calls =
        world0.calls ++ [Call.get_registration_data "sip:example.com",
          Call.handle_get "sip:example.com", Call.handle_patch "sip:example.com" po] ∧
      po._update_subscriptions = [("1234", sample_subscription "sip:a@1")] ∧
      po._update_bindings = [] ∧ po._remove_bindings = []) ∧
    (∃ po, (succeeding_manager.remove_subscription world0 "sip:example.com" "1234"
          irs_info.new).2.2.calls =
        world0.calls ++ [Call.get_registration_data "sip:example.com",
          Call.handle_get "sip:example.com", Call.handle_patch "sip:example.com" po] ∧
      po._update_subscriptions = [] ∧ po._remove_subscriptions = ["1234"] ∧
      po._update_bindings = [] ∧ po._remove_bindings = []) :=
  subscription_patch_names_requested_subscription succeeding_manager world0
    "sip:example.com" "sip:example.com" "1234" (sample_subscription "sip:a@1")
    irs_info.new sample_irs_info (some registered_aor) 7 () () rfl rfl rfl

/-- C18. Once the GET has returned 200 with an AoR, the binding operations send
exactly one patch (and return, provided a PATCH answered with 200 comes with its
post-image).  For `reregister_subscriber` its update-bindings set is
`updated_bindings`, its remove-bindings list is `binding_ids_to_remove` and its
associated URIs are the caller's; for `remove_bindings` its update-bindings set is
empty, its remove-bindings list is `binding_ids` and its associated URIs are those of
the HSS lookup; in both cases its remove-subscriptions list is the result of
`subscriptions_to_remove` on the GET snapshot. -/
theorem binding_patch_carries_requested_changes {σ : Type}
    (sm : SubscriberManager σ) (w : World σ) (public_id aor_id : String)
    (associated_uris : AssociatedURIs) (updated_bindings : Bindings)
    (binding_ids : List String) (event_trigger : EventTrigger) (all_bindings : Bindings)
    (info0 info : irs_info) (orig_aor : AoR) (patched : Option AoR) (version : Nat)
    (rc : HTTPCode) (st0 st1 st2 : σ) (hpost : rc = HTTP_OK → patched ≠ none) :
    (sm._s4.handle_get w.state aor_id = (HTTP_OK, some orig_aor, version, st1) →
      sm._s4.handle_patch st1 aor_id
        (patch_bindings_object updated_bindings binding_ids
          (subscriptions_to_remove orig_aor.bindings orig_aor.subscriptions updated_bindings
            binding_ids) associated_uris) = (rc, patched, st2) →
      ∃ r, sm.reregister_subscriber w aor_id associated_uris updated_bindings binding_ids
          all_bindings info0 = some r ∧
        ∃ po, patches_sent (r.2.2.2.calls.drop w.calls.length) = [po] ∧
          po._update_bindings = updated_bindings ∧ po._remove_bindings = binding_ids ∧
          po._remove_subscriptions =
            subscriptions_to_remove orig_aor.bindings orig_aor.subscriptions
              updated_bindings binding_ids ∧
          po._associated_uris = some associated_uris) ∧
    (sm._hss_connection.get_registration_data w.state public_id irs_info.new =
        (HTTP_OK, info, st0) →
      info._associated_uris.get_default_impu = some aor_id →
      sm._s4.handle_get st0 aor_id = (HTTP_OK, some orig_aor, version, st1) →
      sm._s4.handle_patch st1 aor_id
        (patch_bindings_object [] binding_ids
          (subscriptions_to_remove orig_aor.bindings orig_aor.subscriptions [] binding_ids)
          info._associated_uris) = (rc, patched, st2) →
      ∃ r, sm.remove_bindings w public_id binding_ids event_trigger all_bindings = some r ∧
        ∃ po, patches_sent (r.2.2.calls.drop w.calls.length) = [po] ∧
          po._update_bindings = [] ∧ po._remove_bindings = binding_ids ∧
          po._remove_subscriptions =
            subscriptions_to_remove orig_aor.bindings orig_aor.subscriptions [] binding_ids ∧
          po._associated_uris = some info._associated_uris) := by
  constructor
  · intro hget hp
    have hw : (w.call (Call.handle_get aor_id) st1).state = st1 := rfl
    by_cases hrc : rc = HTTP_OK
    · cases patched with
      | none => exact absurd rfl (hpost hrc)
      | some updated_aor =>
        subst hrc
        cases hb : updated_aor.bindings with
        | nil =>
          simp only [reregister_subscriber, patch_bindings, hget, hw, hp, ne_eq,
            not_true_eq_false, if_false, AoRUtils.copy_bindings, hb, List.isEmpty_nil,
            if_true, deregister_with_hss, get_subscriber_state]
          exact ⟨_, rfl, (patch_bindings_object updated_bindings binding_ids
            (subscriptions_to_remove orig_aor.bindings orig_aor.subscriptions
              updated_bindings binding_ids) associated_uris),
            by simp [World.call, patches_sent], rfl, rfl, rfl, rfl⟩
        | cons p rest =>
          simp only [reregister_subscriber, patch_bindings, hget, hw, hp, ne_eq,
            not_true_eq_false, if_false, AoRUtils.copy_bindings, hb, List.isEmpty_cons,
            Bool.false_eq_true]
          exact ⟨_, rfl, (patch_bindings_object updated_bindings binding_ids
            (subscriptions_to_remove orig_aor.bindings orig_aor.subscriptions
              updated_bindings binding_ids) associated_uris),
            by simp [World.call, patches_sent], rfl, rfl, rfl, rfl⟩
    · simp only [reregister_subscriber, patch_bindings, hget, hw, hp, ne_eq,
        not_true_eq_false, if_false, hrc, not_false_eq_true, if_true]
      exact ⟨_, rfl, (patch_bindings_object updated_bindings binding_ids
            (subscriptions_to_remove orig_aor.bindings orig_aor.subscriptions
              updated_bindings binding_ids) associated_uris),
            by simp [World.call, patches_sent], rfl, rfl, rfl, rfl⟩
  · intro hhss himpu hget hp
    have hid := get_cached_default_id_found sm w public_id "" aor_id irs_info.new info st0
      hhss himpu
    by_cases hrc : rc = HTTP_OK
    · cases patched with
      | none => exact absurd rfl (hpost hrc)
      | some updated_aor =>
        subst hrc
        cases hb : updated_aor.bindings with
        | nil =>
          simp only [remove_bindings, hid, World.call, patch_bindings, hget, hp, ne_eq,
            not_true_eq_false, if_false, AoRUtils.copy_bindings, hb, List.isEmpty_nil,
            if_true, deregister_with_hss, get_subscriber_state]
          exact ⟨_, rfl, (patch_bindings_object [] binding_ids
            (subscriptions_to_remove orig_aor.bindings orig_aor.subscriptions []
              binding_ids) info._associated_uris),
            by simp [patches_sent], rfl, rfl, rfl, rfl⟩
        | cons p rest =>
          simp only [remove_bindings, hid, World.call, patch_bindings, hget, hp, ne_eq,
            not_true_eq_false, if_false, AoRUtils.copy_bindings, hb, List.isEmpty_cons,
            Bool.false_eq_true]
          exact ⟨_, rfl, (patch_bindings_object [] binding_ids
            (subscriptions_to_remove orig_aor.bindings orig_aor.subscriptions []
              binding_ids) info._associated_uris),
            by simp [patches_sent], rfl, rfl, rfl, rfl⟩
    · simp only [remove_bindings, hid, World.call, patch_bindings, hget, hp, ne_eq,
        not_true_eq_false, if_false, hrc, not_false_eq_true, if_true]
      exact ⟨_, rfl, (patch_bindings_object [] binding_ids
            (subscriptions_to_remove orig_aor.bindings orig_aor.subscriptions []
              binding_ids) info._associated_uris),
            by simp [patches_sent], rfl, rfl, rfl, rfl⟩

/-- Witness for C18: the binding `b1` is re-registered with a new contact, and is
removed, in front of collaborators that succeed. -/
theorem binding_patch_carries_requested_changes_witness :
    (∃ r, succeeding_manager.reregister_subscriber world0 "sip:example.com"
          [("sip:example.com", false)] [("b1", sample_binding "sip:example.com" "sip:a@2")]
          ["b9"] [] irs_info.new = some r ∧
        ∃ po, patches_sent (r.2.2.2.calls.drop world0.calls.length) = [po] ∧
          po._update_bindings = [("b1", sample_binding "sip:example.com" "sip:a@2")] ∧
          po._remove_bindings = ["b9"] ∧
          po._remove_subscriptions =
            subscriptions_to_remove registered_aor.bindings registered_aor.subscriptions
              [("b1", sample_binding "sip:example.com" "sip:a@2")] ["b9"] ∧
          po._associated_uris = some [("sip:example.com", false)]) ∧
    (∃ r, succeeding_manager.remove_bindings world0 "sip:example.com" ["b9"]
          EventTrigger.USER [] = some r ∧
        ∃ po, patches_sent (r.2.2.calls.drop world0.calls.length) = [po] ∧
          po._update_bindings = [] ∧ po._remove_bindings = ["b9"] ∧
          po._remove_subscriptions =
            subscriptions_to_remove registered_aor.bindings registered_aor.subscriptions []
              ["b9"] ∧
          po._associated_uris = some sample_irs_info._associated_uris) :=
  have h := binding_patch_carries_requested_changes succeeding_manager world0
    "sip:example.com" "sip:example.com" [("sip:example.com", false)]
    [("b1", sample_binding "sip:example.com" "sip:a@2")] ["b9"] EventTrigger.USER []
    irs_info.new sample_irs_info registered_aor (some (sample_aor [] [])) 7 200 () () ()
    (by intro _ h; cases h)
  ⟨h.1 rfl rfl, h.2 rfl rfl rfl rfl⟩

end Sprout

namespace Sprout

open SubscriberManager

/-- C19. When the GET and the PATCH return 200, `reregister_subscriber` and
`remove_bindings` return `HTTP_OK` and the bindings out-parameter is the bindings map
of the AoR returned by the PATCH: the same ids with the same contents, so that an id
is found in the view exactly when it is found in that post-image, whatever the
out-parameter held before. -/
theorem bindings_view_is_post_image {σ : Type}
    (sm : SubscriberManager σ) (w : World σ) (public_id aor_id : String)
    (associated_uris : AssociatedURIs) (updated_bindings : Bindings)
    (binding_ids : List String) (event_trigger : EventTrigger) (all_bindings : Bindings)
    (info0 info : irs_info) (orig_aor updated_aor : AoR) (version : Nat)
    (st0 st1 st2 : σ) :
    (sm._s4.handle_get w.state aor_id = (HTTP_OK, some orig_aor, version, st1) →
      sm._s4.handle_patch st1 aor_id
        (patch_bindings_object updated_bindings binding_ids
          (subscriptions_to_remove orig_aor.bindings orig_aor.subscriptions updated_bindings
            binding_ids) associated_uris) = (HTTP_OK, some updated_aor, st2) →
      ∃ r, sm.reregister_subscriber w aor_id associated_uris updated_bindings binding_ids
          all_bindings info0 = some r ∧ r.1 = HTTP_OK ∧
        r.2.1 = updated_aor.bindings ∧
        ∀ bid, r.2.1.lookup bid = updated_aor.bindings.lookup bid) ∧
    (sm._hss_connection.get_registration_data w.state public_id irs_info.new =
        (HTTP_OK, info, st0) →
      info._associated_uris.get_default_impu = some aor_id →
      sm._s4.handle_get st0 aor_id = (HTTP_OK, some orig_aor, version, st1) →
      sm._s4.handle_patch st1 aor_id
        (patch_bindings_object [] binding_ids
          (subscriptions_to_remove orig_aor.bindings orig_aor.subscriptions [] binding_ids)
          info._associated_uris) = (HTTP_OK, some updated_aor, st2) →
      ∃ r, sm.remove_bindings w public_id binding_ids event_trigger all_bindings = some r ∧
        r.1 = HTTP_OK ∧ r.2.1 = updated_aor.bindings ∧
        ∀ bid, r.2.1.lookup bid = updated_aor.bindings.lookup bid) := by
  constructor
  · intro hget hpatch
    have hw : (w.call (Call.handle_get aor_id) st1).state = st1 := rfl
    cases hb : updated_aor.bindings with
    | nil =>
      simp only [reregister_subscriber, patch_bindings, hget, hw, hpatch, ne_eq,
        not_true_eq_false, if_false, AoRUtils.copy_bindings, hb, List.isEmpty_nil, if_true]
      exact ⟨_, rfl, rfl, rfl, fun _ => rfl⟩
    | cons p rest =>
      simp only [reregister_subscriber, patch_bindings, hget, hw, hpatch, ne_eq,
        not_true_eq_false, if_false, AoRUtils.copy_bindings, hb, List.isEmpty_cons,
        Bool.false_eq_true]
      exact ⟨_, rfl, rfl, rfl, fun _ => rfl⟩
  · intro hhss himpu hget hpatch
    have hid := get_cached_default_id_found sm w public_id "" aor_id irs_info.new info st0
      hhss himpu
    cases hb : updated_aor.bindings with
    | nil =>
      simp only [remove_bindings, hid, World.call, patch_bindings, hget, hpatch, ne_eq,
        not_true_eq_false, if_false, AoRUtils.copy_bindings, hb, List.isEmpty_nil, if_true]
      exact ⟨_, rfl, rfl, rfl, fun _ => rfl⟩
    | cons p rest =>
      simp only [remove_bindings, hid, World.call, patch_bindings, hget, hpatch, ne_eq,
        not_true_eq_false, if_false, AoRUtils.copy_bindings, hb, List.isEmpty_cons,
        Bool.false_eq_true]
      exact ⟨_, rfl, rfl, rfl, fun _ => rfl⟩

/-- Witness for C19: the post-image of the PATCH holds the binding `b2` only; the
caller's map held `old`. -/
theorem bindings_view_is_post_image_witness :
    (∃ r, (SubscriberManager.mk
            (MockS4 200 (some registered_aor) 7 200 200
              (some (sample_aor [("b2", sample_binding "sip:example.com" "sip:a@2")] [])) 200)
            (MockHSSConnection 200 sample_irs_info 200)).reregister_subscriber world0
          "sip:example.com" [("sip:example.com", false)]
          [("b2", sample_binding "sip:example.com" "sip:a@2")] ["b1"]
          [("old", sample_binding "sip:example.com" "sip:a@3")] irs_info.new = some r ∧
        r.1 = HTTP_OK ∧
        r.2.1 = (sample_aor [("b2", sample_binding "sip:example.com" "sip:a@2")] []).bindings ∧
        ∀ bid, r.2.1.lookup bid =
          (sample_aor [("b2", sample_binding "sip:example.com" "sip:a@2")] []).bindings.lookup
            bid) ∧
    (∃ r, (SubscriberManager.mk
            (MockS4 200 (some registered_aor) 7 200 200
              (some (sample_aor [("b2", sample_binding "sip:example.com" "sip:a@2")] [])) 200)
            (MockHSSConnection 200 sample_irs_info 200)).remove_bindings world0
          "sip:example.com" ["b1"] EventTrigger.USER
          [("old", sample_binding "sip:example.com" "sip:a@3")] = some r ∧
        r.1 = HTTP_OK ∧
        r.2.1 = (sample_aor [("b2", sample_binding "sip:example.com" "sip:a@2")] []).bindings ∧
        ∀ bid, r.2.1.lookup bid =
          (sample_aor [("b2", sample_binding "sip:example.com" "sip:a@2")] []).bindings.lookup
            bid) :=
  have h := bindings_view_is_post_image
    (SubscriberManager.mk
      (MockS4 200 (some registered_aor) 7 200 200
        (some (sample_aor [("b2", sample_binding "sip:example.com" "sip:a@2")] [])) 200)
      (MockHSSConnection 200 sample_irs_info 200))
    world0 "sip:example.com" "sip:example.com" [("sip:example.com", false)]
    [("b2", sample_binding "sip:example.com" "sip:a@2")] ["b1"] EventTrigger.USER
    [("old", sample_binding "sip:example.com" "sip:a@3")] irs_info.new sample_irs_info
    registered_aor (sample_aor [("b2", sample_binding "sip:example.com" "sip:a@2")] [])
    7 () () ()
  ⟨h.1 rfl rfl, h.2 rfl rfl rfl rfl⟩

/-- C20. Every patch object built by the manager has `increment_cseq = true`: the one
`put_bindings` applies to the new AoR, and the ones that `patch_bindings`,
`patch_subscription` and `patch_associated_uris` pass to their single `handle_patch`,
for all inputs. -/
theorem every_patch_increments_cseq {σ : Type} (sm : SubscriberManager σ) (w : World σ)
    (aor_id : String) (update_bindings : Bindings) (remove_bindings : List String)
    (remove_subscriptions : List String) (associated_uris : AssociatedURIs)
    (update_subscription : SubscriptionPair) (remove_subscription : String) :
    (put_bindings_object update_bindings associated_uris)._increment_cseq = true ∧
    (∃ po, (sm.patch_bindings w aor_id update_bindings remove_bindings remove_subscriptions
          associated_uris).2.2.calls = w.calls ++ [Call.handle_patch aor_id po] ∧
      po._increment_cseq = true) ∧
    (∃ po, (sm.patch_subscription w aor_id update_subscription
          remove_subscription).2.2.calls = w.calls ++ [Call.handle_patch aor_id po] ∧
      po._increment_cseq = true) ∧
    (∃ po, (sm.patch_associated_uris w aor_id associated_uris).2.2.calls =
        w.calls ++ [Call.handle_patch aor_id po] ∧
      po._increment_cseq = true) := by
  refine ⟨rfl,
    ⟨patch_bindings_object update_bindings remove_bindings remove_subscriptions
      associated_uris, ?_, rfl⟩,
    ⟨patch_subscription_object update_subscription remove_subscription, ?_, rfl⟩,
    ⟨patch_associated_uris_object associated_uris, ?_, rfl⟩⟩
  · simp only [patch_bindings, World.call]
  · simp only [patch_subscription, World.call]
  · simp only [patch_associated_uris, World.call]

end Sprout

namespace Sprout

open SubscriberManager

/-- C21. `update_associated_uris` changes associated URIs only.  When the GET returns
200 it sends exactly one PATCH for `aor_id`, whose associated URIs are the supplied
ones, whose update-bindings, remove-bindings, update-subscriptions and
remove-subscriptions are empty, and it returns the code of the PATCH (`HTTP_OK` when
that is 200).  When the GET returns another code it returns that code and sends no
PATCH. -/
theorem update_associated_uris_patches_uris_only {σ : Type}
    (sm : SubscriberManager σ) (w : World σ) (aor_id : String)
    (associated_uris : AssociatedURIs) (got patched : Option AoR) (version : Nat)
    (rc : HTTPCode) (st1 st2 : σ) :
    (sm._s4.handle_get w.state aor_id = (HTTP_OK, got, version, st1) →
      sm._s4.handle_patch st1 aor_id
        { _update_bindings := [], _remove_bindings := [], _update_subscriptions := [],
          _remove_subscriptions := [], _associated_uris := some associated_uris,
          _increment_cseq := true } = (rc, patched, st2) →
      sm.update_associated_uris w aor_id associated_uris =
        (rc,
          { state := st2,
            calls := w.calls ++
              [Call.handle_get aor_id,
               Call.handle_patch aor_id
                { _update_bindings := [], _remove_bindings := [],
                  _update_subscriptions := [], _remove_subscriptions := [],
                  _associated_uris := some associated_uris, _increment_cseq := true }] })) ∧
    (sm._s4.handle_get w.state aor_id = (rc, got, version, st1) → rc ≠ HTTP_OK →
      sm.update_associated_uris w aor_id associated_uris =
        (rc, { state := st1, calls := w.calls ++ [Call.handle_get aor_id] })) := by
  have hpo : patch_associated_uris_object associated_uris =
      { _update_bindings := [], _remove_bindings := [], _update_subscriptions := [],
        _remove_subscriptions := [], _associated_uris := some associated_uris,
        _increment_cseq := true } := rfl
  constructor
  · intro hget hpatch
    have hw : (w.call (Call.handle_get aor_id) st1).state = st1 := rfl
    by_cases hrc : rc = HTTP_OK
    · subst hrc
      simp only [update_associated_uris, patch_associated_uris, hpo, hget, hw, hpatch, ne_eq,
        not_true_eq_false, if_false]
      simp [World.call]
    · simp only [update_associated_uris, patch_associated_uris, hpo, hget, hw, hpatch, ne_eq,
        not_true_eq_false, if_false, hrc, not_false_eq_true, if_true]
      simp [World.call]
  · intro hget hrc
    simp only [update_associated_uris, hget, ne_eq, hrc, not_false_eq_true, if_true,
      World.call]

/-- Witness for C21: the set-up of `TestUpdateAssociatedURIs`, where the PATCH answers
200 without an AoR, and a store that answers 404 to the GET. -/
theorem update_associated_uris_patches_uris_only_witness :
    (SubscriberManager.mk (MockS4 200 (some (sample_aor [] [])) 7 200 200 none 200)
        (MockHSSConnection 200 sample_irs_info 200)).update_associated_uris world0
        "sip:example.com" [("sip:example.com", false), ("sip:another.com", false)] =
      (200,
        { state := (),
          calls := world0.calls ++
            [Call.handle_get "sip:example.com",
             Call.handle_patch "sip:example.com"
              { _update_bindings := [], _remove_bindings := [],
                _update_subscriptions := [], _remove_subscriptions := [],
                _associated_uris :=
                  some [("sip:example.com", false), ("sip:another.com", false)],
                _increment_cseq := true }] }) ∧
    (SubscriberManager.mk (MockS4 HTTP_NOT_FOUND none 0 200 200 none 200)
        (MockHSSConnection 200 sample_irs_info 200)).update_associated_uris world0
        "sip:example.com" [("sip:example.com", false)] =
      (HTTP_NOT_FOUND,
        { state := (), calls := world0.calls ++ [Call.handle_get "sip:example.com"] }) :=
  ⟨(update_associated_uris_patches_uris_only
      (SubscriberManager.mk (MockS4 200 (some (sample_aor [] [])) 7 200 200 none 200)
        (MockHSSConnection 200 sample_irs_info 200))
      world0 "sip:example.com" [("sip:example.com", false), ("sip:another.com", false)]
      (some (sample_aor [] [])) none 7 200 () ()).1 rfl rfl,
   (update_associated_uris_patches_uris_only
      (SubscriberManager.mk (MockS4 HTTP_NOT_FOUND none 0 200 200 none 200)
        (MockHSSConnection 200 sample_irs_info 200))
      world0 "sip:example.com" [("sip:example.com", false)]
      none none 0 HTTP_NOT_FOUND () ()).2 rfl (by decide)⟩

/-- C24. `get_bindings` and `get_subscriptions` are read-only views: each makes one
call, the GET for the given id.  When the GET returns 200 with the stored AoR the
operation returns `HTTP_OK` and the out-parameter is the bindings map, respectively
the subscriptions map, of that AoR; when the GET returns another code, that code is
returned and the out-parameter is unchanged. -/
theorem get_bindings_and_subscriptions_are_views {σ : Type}
    (sm : SubscriberManager σ) (w : World σ) (public_id : String) (bindings : Bindings)
    (subscriptions : Subscriptions) (aor : AoR) (got : Option AoR) (version : Nat)
    (rc : HTTPCode) (st1 : σ) :
    (sm._s4.handle_get w.state public_id = (HTTP_OK, some aor, version, st1) →
      sm.get_bindings w public_id bindings =
          some (HTTP_OK, aor.bindings,
            { state := st1, calls := w.calls ++ [Call.handle_get public_id] }) ∧
        sm.get_subscriptions w public_id subscriptions =
          some (HTTP_OK, aor.subscriptions,
            { state := st1, calls := w.calls ++ [Call.handle_get public_id] })) ∧
    (sm._s4.handle_get w.state public_id = (rc, got, version, st1) → rc ≠ HTTP_OK →
      sm.get_bindings w public_id bindings =
          some (rc, bindings,
            { state := st1, calls := w.calls ++ [Call.handle_get public_id] }) ∧
        sm.get_subscriptions w public_id subscriptions =
          some (rc, subscriptions,
            { state := st1, calls := w.calls ++ [Call.handle_get public_id] })) := by
  constructor
  · intro hget
    constructor
    · simp only [get_bindings, hget, ne_eq, not_true_eq_false, if_false,
        AoRUtils.copy_bindings, World.call]
    · simp only [get_subscriptions, hget, ne_eq, not_true_eq_false, if_false,
        AoRUtils.copy_subscriptions, World.call]
  · intro hget hrc
    constructor
    · simp only [get_bindings, hget, ne_eq, hrc, not_false_eq_true, if_true, World.call]
    · simp only [get_subscriptions, hget, ne_eq, hrc, not_false_eq_true, if_true, World.call]

/-- Witness for C24: a store that returns the registered subscriber, and one that
answers 404. -/
theorem get_bindings_and_subscriptions_are_views_witness :
    (succeeding_manager.get_bindings world0 "sip:example.com"
          [("old", sample_binding "sip:example.com" "sip:a@3")] =
        some (HTTP_OK, registered_aor.bindings,
          { state := (), calls := world0.calls ++ [Call.handle_get "sip:example.com"] }) ∧
      succeeding_manager.get_subscriptions world0 "sip:example.com" [] =
        some (HTTP_OK, registered_aor.subscriptions,
          { state := (), calls := world0.calls ++ [Call.handle_get "sip:example.com"] })) ∧
    ((SubscriberManager.mk (MockS4 HTTP_NOT_FOUND none 0 200 200 none 200)
          (MockHSSConnection 200 sample_irs_info 200)).get_bindings world0
          "sip:example.com" [("old", sample_binding "sip:example.com" "sip:a@3")] =
        some (HTTP_NOT_FOUND, [("old", sample_binding "sip:example.com" "sip:a@3")],
          { state := (), calls := world0.calls ++ [Call.handle_get "sip:example.com"] }) ∧
      (SubscriberManager.mk (MockS4 HTTP_NOT_FOUND none 0 200 200 none 200)
          (MockHSSConnection 200 sample_irs_info 200)).get_subscriptions world0
          "sip:example.com" [("olds", sample_subscription "sip:a@3")] =
        some (HTTP_NOT_FOUND, [("olds", sample_subscription "sip:a@3")],
          { state := (), calls := world0.calls ++ [Call.handle_get "sip:example.com"] })) :=
  ⟨(get_bindings_and_subscriptions_are_views succeeding_manager world0 "sip:example.com"
      [("old", sample_binding "sip:example.com" "sip:a@3")] [] registered_aor
      (some registered_aor) 7 200 ()).1 rfl,
   (get_bindings_and_subscriptions_are_views
      (SubscriberManager.mk (MockS4 HTTP_NOT_FOUND none 0 200 200 none 200)
        (MockHSSConnection 200 sample_irs_info 200))
      world0 "sip:example.com" [("old", sample_binding "sip:example.com" "sip:a@3")]
      [("olds", sample_subscription "sip:a@3")] registered_aor none 0 HTTP_NOT_FOUND ()).2
      rfl (by decide)⟩

/-- C30. A 404 from the DELETE is not a success: when the HSS lookup succeeds, the GET
returns 200 and the DELETE returns 404, `deregister_subscriber` returns 404 and makes
no call after the DELETE (no HSS deregistration); whereas when it is the GET that
returns 404 the operation returns `HTTP_OK`. -/
theorem deregister_subscriber_delete_not_found {σ : Type}
    (sm : SubscriberManager σ) (fuel : Nat) (w : World σ) (public_id aor_id : String)
    (event_trigger : EventTrigger) (info : irs_info) (got : Option AoR) (version : Nat)
    (st0 st1 st2 : σ)
    (hhss : sm._hss_connection.get_registration_data w.state public_id irs_info.new =
      (HTTP_OK, info, st0))
    (himpu : info._associated_uris.get_default_impu = some aor_id) :
    (sm._s4.handle_get st0 aor_id = (HTTP_OK, got, version, st1) →
      sm._s4.handle_delete st1 aor_id version = (HTTP_NOT_FOUND, st2) →
      sm.deregister_subscriber (fuel + 1) w public_id event_trigger =
        some (HTTP_NOT_FOUND,
          { state := st2,
            calls := w.calls ++
              [Call.get_registration_data public_id,
               Call.handle_get aor_id,
               Call.handle_delete aor_id version] })) ∧
    (sm._s4.handle_get st0 aor_id = (HTTP_NOT_FOUND, got, version, st1) →
      sm.deregister_subscriber (fuel + 1) w public_id event_trigger =
        some (HTTP_OK,
          { state := st1,
            calls := w.calls ++
              [Call.get_registration_data public_id, Call.handle_get aor_id] })) := by
  have hid := get_cached_default_id_found sm w public_id "" aor_id irs_info.new info st0
    hhss himpu
  have h1 : HTTP_NOT_FOUND ≠ HTTP_OK := by decide
  have h2 : HTTP_NOT_FOUND ≠ HTTP_NO_CONTENT := by decide
  have h3 : HTTP_NOT_FOUND ≠ HTTP_PRECONDITION_FAILED := by decide
  constructor
  · intro hget hdelete
    simp only [deregister_subscriber, hid, deregister_subscriber_loop, World.call, hget,
      hdelete, ne_eq, not_true_eq_false, if_false, h1, h2, h3, not_false_eq_true, and_self,
      if_true]
    simp
  · intro hget
    simp only [deregister_subscriber, hid, deregister_subscriber_loop, World.call, hget,
      ne_eq, not_true_eq_false, if_false, h1, not_false_eq_true, if_true, List.append_assoc,
      List.singleton_append]

/-- Witness for C30: a store whose GET answers 200 and whose DELETE answers 404, and a
store whose GET answers 404. -/
theorem deregister_subscriber_delete_not_found_witness :
    (SubscriberManager.mk (MockS4 200 (some registered_aor) 7 200 200 none HTTP_NOT_FOUND)
        (MockHSSConnection 200 sample_irs_info 200)).deregister_subscriber (0 + 1) world0
        "sip:example.com" EventTrigger.ADMIN =
      some (HTTP_NOT_FOUND,
        { state := (),
          calls := world0.calls ++
            [Call.get_registration_data "sip:example.com",
             Call.handle_get "sip:example.com",
             Call.handle_delete "sip:example.com" 7] }) ∧
    (SubscriberManager.mk (MockS4 HTTP_NOT_FOUND none 0 200 200 none HTTP_NOT_FOUND)
        (MockHSSConnection 200 sample_irs_info 200)).deregister_subscriber (0 + 1) world0
        "sip:example.com" EventTrigger.ADMIN =
      some (HTTP_OK,
        { state := (),
          calls := world0.calls ++
            [Call.get_registration_data "sip:example.com",
             Call.handle_get "sip:example.com"] }) :=
  ⟨(deregister_subscriber_delete_not_found
      (SubscriberManager.mk (MockS4 200 (some registered_aor) 7 200 200 none HTTP_NOT_FOUND)
        (MockHSSConnection 200 sample_irs_info 200))
      0 world0 "sip:example.com" "sip:example.com" EventTrigger.ADMIN sample_irs_info
      (some registered_aor) 7 () () () rfl rfl).1 rfl rfl,
   (deregister_subscriber_delete_not_found
      (SubscriberManager.mk (MockS4 HTTP_NOT_FOUND none 0 200 200 none HTTP_NOT_FOUND)
        (MockHSSConnection 200 sample_irs_info 200))
      0 world0 "sip:example.com" "sip:example.com" EventTrigger.ADMIN sample_irs_info
      none 0 () () () rfl rfl).2 rfl⟩

end Sprout

namespace Sprout

open SubscriberManager

/-! ## Analytics records -/

/-- The record that `log_shortened_bindings` emits for a classified binding, if any. -/
theorem log_shortened_bindings_calls {σ : Type} (sm : SubscriberManager σ) (w : World σ)
    (cbs : ClassifiedBindings) (now : Int) :
    (sm.log_shortened_bindings w cbs now).state = w.state ∧
    (sm.log_shortened_bindings w cbs now).calls = w.calls ++
      cbs.filterMap (fun cb =>
        if cb._contact_event = ContactEvent.EXPIRED ∨
            cb._contact_event = ContactEvent.DEACTIVATED ∨
            cb._contact_event = ContactEvent.UNREGISTERED then
          some (Call.registration cb._binding._address_of_record cb._id cb._binding._uri 0)
        else none) := by
  induction cbs generalizing w with
  | nil => simp [log_shortened_bindings]
  | cons cb rest ih =>
    have hstep : sm.log_shortened_bindings w (cb :: rest) now =
        sm.log_shortened_bindings
          (if cb._contact_event = ContactEvent.EXPIRED ∨
              cb._contact_event = ContactEvent.DEACTIVATED ∨
              cb._contact_event = ContactEvent.UNREGISTERED then
            w.call (Call.registration cb._binding._address_of_record cb._id
              cb._binding._uri 0) w.state
           else w) rest now := rfl
    rw [hstep]
    by_cases h : cb._contact_event = ContactEvent.EXPIRED ∨
        cb._contact_event = ContactEvent.DEACTIVATED ∨
        cb._contact_event = ContactEvent.UNREGISTERED
    · simp only [h, if_true, List.filterMap_cons]
      obtain ⟨hs, hc⟩ := ih
        (w.call (Call.registration cb._binding._address_of_record cb._id
          cb._binding._uri 0) w.state)
      exact ⟨hs, by rw [hc]; simp [World.call]⟩
    · simp only [h, if_false, List.filterMap_cons]
      exact ih w

/-- The record that `log_lengthened_bindings` emits for a classified binding, if
any. -/
theorem log_lengthened_bindings_calls {σ : Type} (sm : SubscriberManager σ) (w : World σ)
    (cbs : ClassifiedBindings) (now : Int) :
    (sm.log_lengthened_bindings w cbs now).state = w.state ∧
    (sm.log_lengthened_bindings w cbs now).calls = w.calls ++
      cbs.filterMap (fun cb =>
        if cb._contact_event = ContactEvent.CREATED ∨
            cb._contact_event = ContactEvent.REFRESHED ∨
            cb._contact_event = ContactEvent.SHORTENED then
          some (Call.registration cb._binding._address_of_record cb._id cb._binding._uri
            (cb._binding._expires - now))
        else none) := by
  induction cbs generalizing w with
  | nil => simp [log_lengthened_bindings]
  | cons cb rest ih =>
    have hstep : sm.log_lengthened_bindings w (cb :: rest) now =
        sm.log_lengthened_bindings
          (if cb._contact_event = ContactEvent.CREATED ∨
              cb._contact_event = ContactEvent.REFRESHED ∨
              cb._contact_event = ContactEvent.SHORTENED then
            w.call (Call.registration cb._binding._address_of_record cb._id
              cb._binding._uri (cb._binding._expires - now)) w.state
           else w) rest now := rfl
    rw [hstep]
    by_cases h : cb._contact_event = ContactEvent.CREATED ∨
        cb._contact_event = ContactEvent.REFRESHED ∨
        cb._contact_event = ContactEvent.SHORTENED
    · simp only [h, if_true, List.filterMap_cons]
      obtain ⟨hs, hc⟩ := ih
        (w.call (Call.registration cb._binding._address_of_record cb._id
          cb._binding._uri (cb._binding._expires - now)) w.state)
      exact ⟨hs, by rw [hc]; simp [World.call]⟩
    · simp only [h, if_false, List.filterMap_cons]
      exact ih w

/-- C22, counterexample. A binding classified as CREATED whose expiry time equals `now`
is logged by `log_lengthened_bindings` with the expiry delta 0, although its contact
event is none of EXPIRED, DEACTIVATED and UNREGISTERED. -/
theorem created_binding_logged_with_delta_zero :
    (succeeding_manager.log_lengthened_bindings
        (succeeding_manager.log_shortened_bindings world0
          [{ _id := "b1", _binding := sample_binding "sip:example.com" "sip:a@1",
             _contact_event := ContactEvent.CREATED }] 300)
        [{ _id := "b1", _binding := sample_binding "sip:example.com" "sip:a@1",
           _contact_event := ContactEvent.CREATED }] 300).calls =
      [Call.registration "sip:example.com" "b1" "sip:a@1" 0] ∧
    (sample_binding "sip:example.com" "sip:a@1")._expires = 300 := by
  exact ⟨by decide, rfl⟩

/-- C22, amended. Running `log_shortened_bindings` and then `log_lengthened_bindings`
on a list of classified bindings emits a registration record with the expiry delta 0
for a binding (its address of record, id and contact URI) if and only if the list
holds that binding with a contact event EXPIRED, DEACTIVATED or UNREGISTERED, or with a
contact event CREATED, REFRESHED or SHORTENED and an expiry time equal to `now`. -/
theorem registration_delta_zero_iff {σ : Type} (sm : SubscriberManager σ) (w : World σ)
    (cbs : ClassifiedBindings) (now : Int) (aor binding_id contact : String) :
    Call.registration aor binding_id contact 0 ∈
        (sm.log_lengthened_bindings (sm.log_shortened_bindings w cbs now) cbs
          now).calls.drop w.calls.length ↔
      ∃ cb ∈ cbs, cb._binding._address_of_record = aor ∧ cb._id = binding_id ∧
        cb._binding._uri = contact ∧
        ((cb._contact_event = ContactEvent.EXPIRED ∨
            cb._contact_event = ContactEvent.DEACTIVATED ∨
            cb._contact_event = ContactEvent.UNREGISTERED) ∨
          ((cb._contact_event = ContactEvent.CREATED ∨
              cb._contact_event = ContactEvent.REFRESHED ∨
              cb._contact_event = ContactEvent.SHORTENED) ∧
            cb._binding._expires = now)) := by
  rw [(log_lengthened_bindings_calls sm _ cbs now).2,
    (log_shortened_bindings_calls sm w cbs now).2, List.append_assoc, List.drop_left]
  simp only [List.mem_append, List.mem_filterMap]
  constructor
  · rintro (⟨cb, hcb, h⟩ | ⟨cb, hcb, h⟩)
    · by_cases he : cb._contact_event = ContactEvent.EXPIRED ∨
          cb._contact_event = ContactEvent.DEACTIVATED ∨
          cb._contact_event = ContactEvent.UNREGISTERED
      · simp only [he, if_true, Option.some.injEq, Call.registration.injEq] at h
        exact ⟨cb, hcb, h.1, h.2.1, h.2.2.1, Or.inl he⟩
      · simp [he] at h
    · by_cases he : cb._contact_event = ContactEvent.CREATED ∨
          cb._contact_event = ContactEvent.REFRESHED ∨
          cb._contact_event = ContactEvent.SHORTENED
      · simp only [he, if_true, Option.some.injEq, Call.registration.injEq] at h
        exact ⟨cb, hcb, h.1, h.2.1, h.2.2.1, Or.inr ⟨he, by omega⟩⟩
      · simp [he] at h
  · rintro ⟨cb, hcb, ha, hi, hu, (he | ⟨he, hexp⟩)⟩
    · exact Or.inl ⟨cb, hcb, by simp [he, ha, hi, hu]⟩
    · exact Or.inr ⟨cb, hcb, by simp [he, ha, hi, hu, hexp]⟩

/-- C28. `patch_subscription` always sends a remove-subscriptions list of exactly one
element, the id it is given: its single `handle_patch` carries the list
`[remove_subscription]`; and for `update_subscription`, which passes the empty id, the
patch sent after a successful HSS lookup and a GET answering 200 carries the
one-element list holding the empty string, whatever subscription is supplied. -/
theorem patch_subscription_remove_list_is_singleton {σ : Type}
    (sm : SubscriberManager σ) (w : World σ) (public_id aor_id : String)
    (update_subscription : SubscriptionPair) (remove_subscription : String)
    (info0 info : irs_info) (got : Option AoR) (version : Nat) (st0 st1 : σ) :
    (∃ po, (sm.patch_subscription w aor_id update_subscription
          remove_subscription).2.2.calls = w.calls ++ [Call.handle_patch aor_id po] ∧
      po._remove_subscriptions = [remove_subscription]) ∧
    (sm._hss_connection.get_registration_data w.state public_id info0 = (HTTP_OK, info, st0) →
      info._associated_uris.get_default_impu = some aor_id →
      sm._s4.handle_get st0 aor_id = (HTTP_OK, got, version, st1) →
      ∃ po, patches_sent
          ((sm.update_subscription w public_id update_subscription info0).2.2.calls.drop
            w.calls.length) = [po] ∧
        po._remove_subscriptions = [""]) := by
  constructor
  · exact ⟨patch_subscription_object update_subscription remove_subscription,
      by simp only [patch_subscription, World.call], rfl⟩
  · intro hhss himpu hget
    have hid := get_cached_default_id_found sm w public_id "" aor_id info0 info st0 hhss himpu
    refine ⟨patch_subscription_object update_subscription "", ?_, rfl⟩
    rcases hp : sm._s4.handle_patch st1 aor_id
        (patch_subscription_object update_subscription "") with ⟨rc, patched, st2⟩
    by_cases hrc : rc = HTTP_OK
    · simp [SubscriberManager.update_subscription, modify_subscription, hid, World.call,
        patch_subscription, hget, hp, hrc, patches_sent]
    · simp [SubscriberManager.update_subscription, modify_subscription, hid, World.call,
        patch_subscription, hget, hp, hrc, patches_sent]

/-- Witness for C28: the subscription `1234` of the unit tests. -/
theorem patch_subscription_remove_list_is_singleton_witness :
    (∃ po, (succeeding_manager.patch_subscription world0 "sip:example.com"
          ("1234", some (sample_subscription "sip:a@1")) "").2.2.calls =
        world0.calls ++ [Call.handle_patch "sip:example.com" po] ∧
      po._remove_subscriptions = [""]) ∧
    (∃ po, patches_sent
        ((succeeding_manager.update_subscription world0 "sip:example.com"
          ("1234", some (sample_subscription "sip:a@1")) irs_info.new).2.2.calls.drop
          world0.calls.length) = [po] ∧
      po._remove_subscriptions = [""]) :=
  have h := patch_subscription_remove_list_is_singleton succeeding_manager world0
    "sip:example.com" "sip:example.com" ("1234", some (sample_subscription "sip:a@1")) ""
    irs_info.new sample_irs_info (some registered_aor) 7 () ()
  ⟨h.1, h.2 rfl rfl rfl⟩

/-- C29. `classify_bindings_and_subscriptions` passes to the subscription classifier a
flag that is true if and only if both AoRs are present and their associated URIs
differ: it is false when either AoR is absent and when the same AoR is given twice.
An absent AoR is classified with empty bindings and empty subscriptions. -/
theorem classify_associated_uris_changed_flag (classify_bindings : BindingClassifier)
    (classify_subscriptions : SubscriptionClassifier) (aor_id : String)
    (event_trigger : EventTrigger) (orig_aor updated_aor : Option AoR)
    (classified_bindings : ClassifiedBindings)
    (classified_subscriptions : ClassifiedSubscriptions) :
    (∃ flag : Bool,
      classify_bindings_and_subscriptions classify_bindings classify_subscriptions aor_id
          event_trigger orig_aor updated_aor classified_bindings classified_subscriptions =
        (classify_bindings aor_id event_trigger
            ((orig_aor.map AoR.bindings).getD []) ((updated_aor.map AoR.bindings).getD [])
            classified_bindings,
          classify_subscriptions aor_id event_trigger
            ((orig_aor.map AoR.subscriptions).getD [])
            ((updated_aor.map AoR.subscriptions).getD [])
            (classify_bindings aor_id event_trigger
              ((orig_aor.map AoR.bindings).getD [])
              ((updated_aor.map AoR.bindings).getD []) classified_bindings)
            flag classified_subscriptions) ∧
      (flag = true ↔
        ∃ o u, orig_aor = some o ∧ updated_aor = some u ∧
          o._associated_uris ≠ u._associated_uris) ∧
      (orig_aor = none ∨ updated_aor = none → flag = false) ∧
      (orig_aor = updated_aor → flag = false)) := by
  cases orig_aor with
  | none =>
    cases updated_aor with
    | none => exact ⟨false, rfl, by simp, by simp, by simp⟩
    | some u => exact ⟨false, rfl, by simp, by simp, by simp⟩
  | some o =>
    cases updated_aor with
    | none => exact ⟨false, rfl, by simp, by simp, by simp⟩
    | some u =>
      refine ⟨decide (o._associated_uris ≠ u._associated_uris), rfl, by simp, by simp, ?_⟩
      intro h
      cases h
      simp

end Sprout

namespace Sprout

open SubscriberManager

/-! ## More on maps as association lists -/

theorem filter_key_ne_of_not_mem {β : Type} (m : List (String × β)) (k : String)
    (h : k ∉ m.map Prod.fst) : m.filter (fun q => q.1 ≠ k) = m := by
  rw [List.filter_eq_self]
  intro q hq
  have hne : q.1 ≠ k := fun heq => h (heq ▸ List.mem_map_of_mem Prod.fst hq)
  simpa using hne

theorem foldl_map_put_append {β : Type} (m acc : List (String × β))
    (hnd : (m.map Prod.fst).Nodup) (hdis : ∀ k ∈ m.map Prod.fst, k ∉ acc.map Prod.fst) :
    m.foldl map_put acc = acc ++ m := by
  induction m generalizing acc with
  | nil => simp
  | cons p rest ih =>
    rw [List.map_cons, List.nodup_cons] at hnd
    have hp : p.1 ∉ acc.map Prod.fst := hdis p.1 (by simp)
    have hput : map_put acc p = acc ++ [p] := by
      unfold map_put
      rw [filter_key_ne_of_not_mem acc p.1 hp]
    rw [List.foldl_cons, hput, ih (acc ++ [p]) hnd.2]
    · simp
    · intro k hk
      have hk2 : k ∉ acc.map Prod.fst := hdis k (by simp [hk])
      have hne : k ≠ p.1 := fun heq => hnd.1 (heq ▸ hk)
      simp only [List.map_append, List.map_cons, List.map_nil, List.mem_append,
        List.mem_singleton, not_or]
      exact ⟨hk2, hne⟩

/-- C25. `register_subscriber` makes one call, the PUT for `aor_id`, of an AoR that
holds exactly the supplied bindings (a map: distinct ids), no subscription, the
supplied associated URIs, the supplied server name as its S-CSCF URI and
`notify_cseq = 1`; when the PUT returns 200 the operation returns `HTTP_OK` with
`all_bindings` equal to the bindings of that AoR. -/
theorem register_subscriber_puts_initial_aor {σ : Type}
    (sm : SubscriberManager σ) (w : World σ) (aor_id server_name : String)
    (associated_uris : AssociatedURIs) (add_bindings all_bindings : Bindings)
    (hmap : (add_bindings.map Prod.fst).Nodup) :
    ∃ aor, (sm.register_subscriber w aor_id server_name associated_uris add_bindings
          all_bindings).2.2.calls = w.calls ++ [Call.handle_put aor_id aor] ∧
      aor.bindings = add_bindings ∧ aor.subscriptions = [] ∧
      aor._associated_uris = associated_uris ∧ aor._scscf_uri = server_name ∧
      aor._notify_cseq = 1 ∧
      ((sm._s4.handle_put w.state aor_id aor).1 = HTTP_OK →
        (sm.register_subscriber w aor_id server_name associated_uris add_bindings
            all_bindings).1 = HTTP_OK ∧
        (sm.register_subscriber w aor_id server_name associated_uris add_bindings
            all_bindings).2.1 = aor.bindings) := by
  have hb : (put_bindings_aor aor_id add_bindings associated_uris server_name).bindings =
      add_bindings := by
    simp only [put_bindings_aor, put_bindings_object, AoR.bindings, AoR.patch_aor, AoR.new,
      PatchObject.new, PatchObject.set_update_bindings, PatchObject.set_associated_uris,
      PatchObject.set_increment_cseq, AoRUtils.copy_bindings, List.foldl_nil]
    rw [foldl_map_put_append add_bindings [] hmap (by simp)]
    simp
  refine ⟨put_bindings_aor aor_id add_bindings associated_uris server_name, ?_, hb, rfl, rfl,
    rfl, rfl, ?_⟩
  · rcases hp : sm._s4.handle_put w.state aor_id
        (put_bindings_aor aor_id add_bindings associated_uris server_name) with ⟨rc, st⟩
    by_cases hrc : rc = HTTP_OK
    · simp [register_subscriber, put_bindings, hp, hrc, World.call]
    · simp [register_subscriber, put_bindings, hp, hrc, World.call]
  · intro hok
    rcases hp : sm._s4.handle_put w.state aor_id
        (put_bindings_aor aor_id add_bindings associated_uris server_name) with ⟨rc, st⟩
    rw [hp] at hok
    have hrc : rc = HTTP_OK := hok
    simp [register_subscriber, put_bindings, hp, hrc, AoRUtils.copy_bindings]

/-- Witness for C25: the fresh registration of the binding `b1`. -/
theorem register_subscriber_puts_initial_aor_witness :
    ∃ aor, (succeeding_manager.register_subscriber world0 "sip:example.com"
          "scscf.sprout.site1.example.com" [("sip:example.com", false)]
          [("b1", sample_binding "sip:example.com" "sip:a@1")] []).2.2.calls =
        world0.calls ++ [Call.handle_put "sip:example.com" aor] ∧
      aor.bindings = [("b1", sample_binding "sip:example.com" "sip:a@1")] ∧
      aor.subscriptions = [] ∧
      aor._associated_uris = [("sip:example.com", false)] ∧
      aor._scscf_uri = "scscf.sprout.site1.example.com" ∧
      aor._notify_cseq = 1 ∧
      ((succeeding_manager._s4.handle_put world0.state "sip:example.com" aor).1 = HTTP_OK →
        (succeeding_manager.register_subscriber world0 "sip:example.com"
            "scscf.sprout.site1.example.com" [("sip:example.com", false)]
            [("b1", sample_binding "sip:example.com" "sip:a@1")] []).1 = HTTP_OK ∧
        (succeeding_manager.register_subscriber world0 "sip:example.com"
            "scscf.sprout.site1.example.com" [("sip:example.com", false)]
            [("b1", sample_binding "sip:example.com" "sip:a@1")] []).2.1 = aor.bindings) :=
  register_subscriber_puts_initial_aor succeeding_manager world0 "sip:example.com"
    "scscf.sprout.site1.example.com" [("sip:example.com", false)]
    [("b1", sample_binding "sip:example.com" "sip:a@1")] [] (by decide)

/-! ## The cascade, whatever the order of removals and updates -/

/-- A subscription that the cascade keeps has, in a cascade-complete AoR whose
bindings have distinct ids, a binding with its contact that is not removed and that
every update leaves on the same contact. -/
theorem kept_subscription_has_stable_binding (aor : AoR) (updated_bindings : Bindings)
    (binding_ids_to_remove : List String) (sp : String × Subscription)
    (hmap : (aor.bindings.map Prod.fst).Nodup) (hp2 : cascade_complete aor)
    (hmem : sp ∈ aor.subscriptions)
    (hkeep : sp.1 ∉ subscriptions_to_remove aor.bindings aor.subscriptions updated_bindings
      binding_ids_to_remove) :
    ∃ bid b, (bid, b) ∈ aor.bindings ∧ b._uri = sp.2._req_uri ∧
      bid ∉ binding_ids_to_remove ∧
      ∀ nb, (bid, nb) ∈ updated_bindings → nb._uri = sp.2._req_uri := by
  have huri := hp2 sp hmem
  simp only [contact_uris, List.mem_map] at huri
  obtain ⟨bp, hbp, hbu⟩ := huri
  obtain ⟨bid, b⟩ := bp
  have hlk : aor.bindings.lookup bid = some b := lookup_of_mem_of_nodup_keys _ _ _ hmap hbp
  have hnot : sp.2._req_uri ∉
      missing_uris_of_updated aor.bindings updated_bindings
        (missing_uris_of_removed aor.bindings binding_ids_to_remove []) := by
    intro hin
    apply hkeep
    unfold subscriptions_to_remove
    exact (mem_collect_subscriptions _ _ _ _).mpr (Or.inr ⟨sp.2, hmem, hin⟩)
  rw [mem_missing_uris_of_updated, mem_missing_uris_of_removed] at hnot
  simp only [List.not_mem_nil, false_or, not_or, not_exists, not_and] at hnot
  obtain ⟨hrem, hupd⟩ := hnot
  refine ⟨bid, b, hbp, hbu, fun h => hrem bid h b hlk hbu, ?_⟩
  intro nb hnb
  by_contra hne
  exact hupd bid nb hnb b hlk (fun h => hne (by rw [← h]; exact hbu)) hbu

/-- C26. The binding cascade preserves cascade completeness: from an AoR whose
bindings have distinct ids and in which each subscription's `req_uri` is the contact
URI of some binding, removing the listed bindings, applying the binding updates (in
either order) and removing the subscriptions returned by `subscriptions_to_remove`
yields an AoR in which every remaining subscription's `req_uri` is the contact URI of
some remaining binding. -/
theorem cascade_preserves_completeness (aor : AoR) (updated_bindings : Bindings)
    (binding_ids_to_remove : List String)
    (hmap : (aor.bindings.map Prod.fst).Nodup) (hp2 : cascade_complete aor) :
    cascade_complete (cascade_remove_then_update aor updated_bindings binding_ids_to_remove) ∧
    cascade_complete (cascade_update_then_remove aor updated_bindings binding_ids_to_remove) := by
  constructor
  · intro sp hsp
    simp only [AoR.subscriptions, cascade_remove_then_update] at hsp
    rw [mem_foldl_map_erase] at hsp
    obtain ⟨bid, b, hbp, hbu, hbid, hall⟩ := kept_subscription_has_stable_binding aor
      updated_bindings binding_ids_to_remove sp hmap hp2 hsp.1 hsp.2
    obtain ⟨x, hx, hxu⟩ := foldl_map_put_keeps_uri updated_bindings
      (binding_ids_to_remove.foldl map_erase aor._bindings) bid sp.2._req_uri hall
      ⟨b, (mem_foldl_map_erase _ _ _).mpr ⟨hbp, hbid⟩, hbu⟩
    simp only [contact_uris, AoR.bindings, cascade_remove_then_update, List.mem_map]
    exact ⟨(bid, x), hx, hxu⟩
  · intro sp hsp
    simp only [AoR.subscriptions, cascade_update_then_remove] at hsp
    rw [mem_foldl_map_erase] at hsp
    obtain ⟨bid, b, hbp, hbu, hbid, hall⟩ := kept_subscription_has_stable_binding aor
      updated_bindings binding_ids_to_remove sp hmap hp2 hsp.1 hsp.2
    obtain ⟨x, hx, hxu⟩ := foldl_map_put_keeps_uri updated_bindings aor._bindings bid
      sp.2._req_uri hall ⟨b, hbp, hbu⟩
    simp only [contact_uris, AoR.bindings, cascade_update_then_remove, List.mem_map]
    exact ⟨(bid, x), (mem_foldl_map_erase _ _ _).mpr ⟨hx, hbid⟩, hxu⟩

/-- Witness for C26: the binding `b1` of the registered subscriber moves to another
contact while `b2` is added; the subscription on the old contact goes. -/
theorem cascade_preserves_completeness_witness :
    cascade_complete
      (cascade_remove_then_update registered_aor
        [("b1", sample_binding "sip:example.com" "sip:a@2"),
         ("b2", sample_binding "sip:example.com" "sip:a@1")] ["b3"]) ∧
    cascade_complete
      (cascade_update_then_remove registered_aor
        [("b1", sample_binding "sip:example.com" "sip:a@2"),
         ("b2", sample_binding "sip:example.com" "sip:a@1")] ["b3"]) :=
  cascade_preserves_completeness registered_aor
    [("b1", sample_binding "sip:example.com" "sip:a@2"),
     ("b2", sample_binding "sip:example.com" "sip:a@1")] ["b3"] (by decide) (by decide)

/-- C27. The cascade matches by contact URI and can over-remove: in an AoR whose
bindings `b1` and `b2` share the contact `sip:a@1`, removing `b1` alone makes
`subscriptions_to_remove` mark the subscription `s1`, whose `req_uri` is the contact
of `b2`, and `b2` remains in the patched AoR. -/
theorem cascade_over_removes_on_shared_contact :
    ∃ (aor : AoR) (removed kept : String) (b_removed b_kept : Binding)
        (sp : String × Subscription),
      (aor.bindings.map Prod.fst).Nodup ∧
      aor.bindings.lookup removed = some b_removed ∧
      aor.bindings.lookup kept = some b_kept ∧
      removed ≠ kept ∧ b_removed._uri = b_kept._uri ∧
      sp ∈ aor.subscriptions ∧ sp.2._req_uri = b_kept._uri ∧
      sp.1 ∈ subscriptions_to_remove aor.bindings aor.subscriptions [] [removed] ∧
      (kept, b_kept) ∈
        (aor.patch_aor
          (SubscriberManager.patch_bindings_object [] [removed]
            (subscriptions_to_remove aor.bindings aor.subscriptions [] [removed])
            aor._associated_uris)).bindings ∧
      removed ∉
        ((aor.patch_aor
          (SubscriberManager.patch_bindings_object [] [removed]
            (subscriptions_to_remove aor.bindings aor.subscriptions [] [removed])
            aor._associated_uris)).bindings.map Prod.fst) :=
  ⟨shared_contact_aor, "b1", "b2", sample_binding "sip:example.com" "sip:a@1",
    sample_binding "sip:example.com" "sip:a@1", ("s1", sample_subscription "sip:a@1"),
    by decide, by decide, by decide, by decide, by decide, by decide, by decide, by decide,
    by decide, by decide⟩

end Sprout

namespace Sprout

open SubscriberManager

/-! ## The model store -/

theorem lookup_filter_key_ne_self {β : Type} (m : List (String × β)) (k : String) :
    (m.filter (fun q => q.1 ≠ k)).lookup k = none := by
  induction m with
  | nil => rfl
  | cons p rest ih =>
    by_cases hp : p.1 = k
    · have hd : decide (p.1 ≠ k) = false := by simp [hp]
      rw [List.filter_cons, hd]
      simp only [Bool.false_eq_true, if_false]
      exact ih
    · have hb : (k == p.1) = false := by
        simpa using fun h : k = p.1 => hp h.symm
      simp only [List.filter_cons, ne_eq, hp, not_false_eq_true, decide_True, if_true]
      rw [show p = (p.1, p.2) from rfl, List.lookup_cons, hb]
      exact ih

theorem lookup_append_of_none {β : Type} (m1 m2 : List (String × β)) (k : String)
    (h : m1.lookup k = none) : (m1 ++ m2).lookup k = m2.lookup k := by
  induction m1 with
  | nil => rfl
  | cons p rest ih =>
    obtain ⟨k0, v0⟩ := p
    by_cases hk : k = k0
    · subst hk
      simp [List.lookup_cons] at h
    · have hb : (k == k0) = false := by simpa using hk
      rw [List.lookup_cons, hb] at h
      rw [List.cons_append, List.lookup_cons, hb]
      exact ih h

theorem lookup_map_put_self {β : Type} (m : List (String × β)) (k : String) (v : β) :
    (map_put m (k, v)).lookup k = some v := by
  unfold map_put
  rw [lookup_append_of_none _ _ _ (lookup_filter_key_ne_self m k)]
  simp [List.lookup_cons]

theorem map_put_map_put {β : Type} (m : List (String × β)) (k : String) (v v2 : β) :
    map_put (map_put m (k, v)) (k, v2) = map_put m (k, v2) := by
  simp [map_put, List.filter_append, List.filter_filter]

theorem subscriptions_to_remove_of_absent (orig_bindings : Bindings)
    (orig_subscriptions : Subscriptions) (b : String)
    (h : orig_bindings.lookup b = none) :
    subscriptions_to_remove orig_bindings orig_subscriptions [] [b] = [] := by
  have hmiss : missing_uris_of_updated orig_bindings []
      (missing_uris_of_removed orig_bindings [b] []) = [] := by
    simp [missing_uris_of_updated, missing_uris_of_removed, h]
  unfold subscriptions_to_remove
  simp only [hmiss, List.not_mem_nil, if_false]
  induction orig_subscriptions with
  | nil => rfl
  | cons sp rest ih => simp

/-- Removing a binding from an AoR from which it has just been removed changes the
notify CSeq and nothing else. -/
theorem patch_aor_remove_again (aor : AoR) (b : String) (removed_subscriptions : List String)
    (uris : AssociatedURIs) :
    (aor.patch_aor (patch_bindings_object [] [b] removed_subscriptions uris)).patch_aor
        (patch_bindings_object [] [b]
          (subscriptions_to_remove
            (aor.patch_aor (patch_bindings_object [] [b] removed_subscriptions uris)).bindings
            (aor.patch_aor
              (patch_bindings_object [] [b] removed_subscriptions uris)).subscriptions
            [] [b]) uris) =
      { aor.patch_aor (patch_bindings_object [] [b] removed_subscriptions uris) with
        _notify_cseq :=
          int32_add
            (aor.patch_aor
              (patch_bindings_object [] [b] removed_subscriptions uris))._notify_cseq 1 } := by
  have habsent :
      (aor.patch_aor (patch_bindings_object [] [b] removed_subscriptions uris)).bindings.lookup
        b = none := by
    simp only [AoR.bindings, AoR.patch_aor, patch_bindings_object, PatchObject.new,
      PatchObject.set_update_bindings, PatchObject.set_remove_bindings,
      PatchObject.set_remove_subscriptions, PatchObject.set_associated_uris,
      PatchObject.set_increment_cseq, AoRUtils.copy_bindings, List.foldl_nil,
      List.foldl_cons, map_erase]
    exact lookup_filter_key_ne_self _ _
  rw [subscriptions_to_remove_of_absent _ _ _ habsent]
  simp [AoR.patch_aor, patch_bindings_object, PatchObject.new,
    PatchObject.set_update_bindings, PatchObject.set_remove_bindings,
    PatchObject.set_remove_subscriptions, PatchObject.set_associated_uris,
    PatchObject.set_increment_cseq, AoRUtils.copy_bindings, map_erase, List.filter_filter]

/-- One `remove_bindings` against the model store that holds the AoR: it returns
`HTTP_OK` with the bindings of the post-image; the store now holds the post-image
under the next version, or no AoR for the id when the post-image has no bindings. -/
theorem model_remove_bindings_stored (info : irs_info) (public_id aor_id : String)
    (binding_ids : List String) (event_trigger : EventTrigger) (bindings : Bindings)
    (st : StoreState) (calls : List Call) (aor : AoR) (version : Nat)
    (himpu : info._associated_uris.get_default_impu = some aor_id)
    (hlk : st.lookup aor_id = some (aor, version)) :
    ∃ calls2, (model_manager info).remove_bindings { state := st, calls := calls } public_id
        binding_ids event_trigger bindings =
      some (HTTP_OK,
        (aor.patch_aor
          (patch_bindings_object [] binding_ids
            (subscriptions_to_remove aor.bindings aor.subscriptions [] binding_ids)
            info._associated_uris)).bindings,
        { state :=
            if (aor.patch_aor
                (patch_bindings_object [] binding_ids
                  (subscriptions_to_remove aor.bindings aor.subscriptions [] binding_ids)
                  info._associated_uris)).bindings.isEmpty then
              map_erase st aor_id
            else
              map_put st (aor_id,
                (aor.patch_aor
                  (patch_bindings_object [] binding_ids
                    (subscriptions_to_remove aor.bindings aor.subscriptions [] binding_ids)
                    info._associated_uris), version + 1)),
          calls := calls2 }) := by
  have hid := get_cached_default_id_found (model_manager info)
    { state := st, calls := calls } public_id "" aor_id irs_info.new info st rfl himpu
  have hget : (model_manager info)._s4.handle_get st aor_id =
      (HTTP_OK, some aor, version, st) := by
    simp [model_manager, ModelS4, hlk]
  cases hb : (aor.patch_aor
      (patch_bindings_object [] binding_ids
        (subscriptions_to_remove aor.bindings aor.subscriptions [] binding_ids)
        info._associated_uris)).bindings with
  | nil =>
    have hpatch : (model_manager info)._s4.handle_patch st aor_id
        (patch_bindings_object [] binding_ids
          (subscriptions_to_remove aor.bindings aor.subscriptions [] binding_ids)
          info._associated_uris) =
        (HTTP_OK,
          some (aor.patch_aor
            (patch_bindings_object [] binding_ids
              (subscriptions_to_remove aor.bindings aor.subscriptions [] binding_ids)
              info._associated_uris)),
          map_erase st aor_id) := by
      simp [model_manager, ModelS4, hlk, hb]
    simp only [remove_bindings, hid, World.call, patch_bindings, hget, hpatch, ne_eq,
      not_true_eq_false, if_false, AoRUtils.copy_bindings, hb, List.isEmpty_nil, if_true,
      deregister_with_hss, get_subscriber_state]
    exact ⟨_, rfl⟩
  | cons p rest =>
    have hpatch : (model_manager info)._s4.handle_patch st aor_id
        (patch_bindings_object [] binding_ids
          (subscriptions_to_remove aor.bindings aor.subscriptions [] binding_ids)
          info._associated_uris) =
        (HTTP_OK,
          some (aor.patch_aor
            (patch_bindings_object [] binding_ids
              (subscriptions_to_remove aor.bindings aor.subscriptions [] binding_ids)
              info._associated_uris)),
          map_put st (aor_id,
            (aor.patch_aor
              (patch_bindings_object [] binding_ids
                (subscriptions_to_remove aor.bindings aor.subscriptions [] binding_ids)
                info._associated_uris), version + 1))) := by
      simp [model_manager, ModelS4, hlk, hb]
    simp only [remove_bindings, hid, World.call, patch_bindings, hget, hpatch, ne_eq,
      not_true_eq_false, if_false, AoRUtils.copy_bindings, hb, List.isEmpty_cons,
      Bool.false_eq_true]
    exact ⟨_, rfl⟩

/-- One `remove_bindings` against the model store that holds no AoR for the id: it
returns `HTTP_OK` after the HSS lookup and the GET, and the store is as it was. -/
theorem model_remove_bindings_absent (info : irs_info) (public_id aor_id : String)
    (binding_ids : List String) (event_trigger : EventTrigger) (bindings : Bindings)
    (st : StoreState) (calls : List Call)
    (himpu : info._associated_uris.get_default_impu = some aor_id)
    (hlk : st.lookup aor_id = none) :
    (model_manager info).remove_bindings { state := st, calls := calls } public_id
        binding_ids event_trigger bindings =
      some (HTTP_OK, bindings,
        { state := st,
          calls := calls ++
            [Call.get_registration_data public_id, Call.handle_get aor_id] }) := by
  have hnf : HTTP_NOT_FOUND ≠ HTTP_OK := by decide
  have hid := get_cached_default_id_found (model_manager info)
    { state := st, calls := calls } public_id "" aor_id irs_info.new info st rfl himpu
  have hget : (model_manager info)._s4.handle_get st aor_id =
      (HTTP_NOT_FOUND, none, 0, st) := by
    simp [model_manager, ModelS4, hlk]
  simp only [remove_bindings, hid, World.call, hget, ne_eq, not_true_eq_false, if_false,
    hnf, not_false_eq_true, if_true, List.append_assoc, List.singleton_append]

/-- C23, counterexample. The model store holds an AoR with the bindings `b1` and `b2`
and `notify_cseq = 1` at version 0.  Two calls of `remove_bindings(id, [b1], USER)`
both return 200, but the store state after the second call is not the state after the
first: a binding remains, the stored `notify_cseq` is 3 instead of 2 and the version
2 instead of 1. -/
theorem remove_bindings_twice_changes_store :
    ((model_manager sample_irs_info).remove_bindings stored_world "sip:example.com" ["b1"]
        EventTrigger.USER []).map (fun r => (r.1, r.2.2.state)) =
      some (200,
        [("sip:example.com",
          ({ sample_aor [("b2", sample_binding "sip:example.com" "sip:a@1")] [] with
             _notify_cseq := 2 }, 1))]) ∧
    (((model_manager sample_irs_info).remove_bindings stored_world "sip:example.com" ["b1"]
        EventTrigger.USER []).bind
      (fun r => (model_manager sample_irs_info).remove_bindings r.2.2 "sip:example.com"
        ["b1"] EventTrigger.USER r.2.1)).map (fun r => (r.1, r.2.2.state)) =
      some (200,
        [("sip:example.com",
          ({ sample_aor [("b2", sample_binding "sip:example.com" "sip:a@1")] [] with
             _notify_cseq := 3 }, 2))]) ∧
    (((model_manager sample_irs_info).remove_bindings stored_world "sip:example.com" ["b1"]
        EventTrigger.USER []).bind
      (fun r => (model_manager sample_irs_info).remove_bindings r.2.2 "sip:example.com"
        ["b1"] EventTrigger.USER r.2.1)).map (fun r => r.2.2.state) ≠
      ((model_manager sample_irs_info).remove_bindings stored_world "sip:example.com" ["b1"]
        EventTrigger.USER []).map (fun r => r.2.2.state) := by
  refine ⟨by decide, by decide, by decide⟩

/-- C23, amended. Over the model store, with an HSS that resolves the public id to
`aor_id`, two calls of `remove_bindings(id, [b], trigger)` in succession both return
`HTTP_OK` with the same bindings view.  When the store holds no AoR for `aor_id`, or
when the first call leaves the AoR without bindings (the store then deletes it), the
store state after the second call is the state after the first.  When bindings remain
after the first call, the AoR stored after the second call is the AoR stored after
the first with `notify_cseq` incremented once more (the increment of a 32-bit `int`),
under a version one higher, the rest of the store being the same. -/
theorem remove_bindings_twice (info : irs_info) (public_id aor_id b : String)
    (event_trigger : EventTrigger) (bindings : Bindings) (st : StoreState)
    (calls : List Call)
    (himpu : info._associated_uris.get_default_impu = some aor_id) :
    (∀ aor version a1, st.lookup aor_id = some (aor, version) →
      a1 = aor.patch_aor
        (patch_bindings_object [] [b]
          (subscriptions_to_remove aor.bindings aor.subscriptions [] [b])
          info._associated_uris) →
      (a1.bindings = [] →
        ∃ w1 w2,
          (model_manager info).remove_bindings { state := st, calls := calls } public_id [b]
            event_trigger bindings = some (HTTP_OK, [], w1) ∧
          (model_manager info).remove_bindings w1 public_id [b] event_trigger [] =
            some (HTTP_OK, [], w2) ∧
          w1.state = map_erase st aor_id ∧ w2.state = w1.state) ∧
      (a1.bindings ≠ [] →
        ∃ w1 w2,
          (model_manager info).remove_bindings { state := st, calls := calls } public_id [b]
            event_trigger bindings = some (HTTP_OK, a1.bindings, w1) ∧
          (model_manager info).remove_bindings w1 public_id [b] event_trigger a1.bindings =
            some (HTTP_OK, a1.bindings, w2) ∧
          w1.state = map_put st (aor_id, (a1, version + 1)) ∧
          w2.state = map_put st (aor_id,
            ({ a1 with _notify_cseq := int32_add a1._notify_cseq 1 }, version + 2)))) ∧
    (st.lookup aor_id = none →
      ∃ w1 w2,
        (model_manager info).remove_bindings { state := st, calls := calls } public_id [b]
          event_trigger bindings = some (HTTP_OK, bindings, w1) ∧
        (model_manager info).remove_bindings w1 public_id [b] event_trigger bindings =
          some (HTTP_OK, bindings, w2) ∧
        w1.state = st ∧ w2.state = st) := by
  constructor
  · intro aor version a1 hlk ha1
    obtain ⟨calls1, h1⟩ := model_remove_bindings_stored info public_id aor_id [b]
      event_trigger bindings st calls aor version himpu hlk
    rw [← ha1] at h1
    constructor
    · intro hempty
      rw [hempty] at h1
      simp only [List.isEmpty_nil, if_true] at h1
      have habsent : (map_erase st aor_id).lookup aor_id = none :=
        lookup_filter_key_ne_self st aor_id
      have h2 := model_remove_bindings_absent info public_id aor_id [b] event_trigger []
        (map_erase st aor_id) calls1 himpu habsent
      exact ⟨_, _, h1, h2, rfl, rfl⟩
    · intro hne
      have hfalse : a1.bindings.isEmpty = false := by
        cases hb : a1.bindings with
        | nil => exact absurd hb hne
        | cons p rest => rfl
      rw [hfalse] at h1
      simp only [Bool.false_eq_true, if_false] at h1
      have hlk1 := lookup_map_put_self st aor_id (a1, version + 1)
      obtain ⟨calls2, h2⟩ := model_remove_bindings_stored info public_id aor_id [b]
        event_trigger a1.bindings _ calls1 _ (version + 1) himpu hlk1
      have hagain := patch_aor_remove_again aor b
        (subscriptions_to_remove aor.bindings aor.subscriptions [] [b])
        info._associated_uris
      rw [← ha1] at hagain
      rw [hagain] at h2
      have hsame : ({ a1 with _notify_cseq := int32_add a1._notify_cseq 1 } : AoR).bindings =
          a1.bindings := rfl
      rw [hsame, hfalse, map_put_map_put] at h2
      simp only [Bool.false_eq_true, if_false] at h2
      exact ⟨_, _, h1, h2, rfl, rfl⟩
  · intro hlk
    exact ⟨_, _,
      model_remove_bindings_absent info public_id aor_id [b] event_trigger bindings st calls
        himpu hlk,
      model_remove_bindings_absent info public_id aor_id [b] event_trigger bindings st _
        himpu hlk, rfl, rfl⟩

/-- Witness for the amended C23: the removal of the only binding of the registered
subscriber, after which the store holds no AoR, and the removal of `b1` from the
subscriber that also has `b2`. -/
theorem remove_bindings_twice_witness :
    (∃ w1 w2,
      (model_manager sample_irs_info).remove_bindings
        { state := single_binding_world.state, calls := [] } "sip:example.com" ["b1"]
        EventTrigger.USER [] = some (HTTP_OK, [], w1) ∧
      (model_manager sample_irs_info).remove_bindings w1 "sip:example.com" ["b1"]
        EventTrigger.USER [] = some (HTTP_OK, [], w2) ∧
      w1.state = map_erase single_binding_world.state "sip:example.com" ∧
      w2.state = w1.state) ∧
    (∃ w1 w2,
      (model_manager sample_irs_info).remove_bindings
        { state := stored_world.state, calls := [] } "sip:example.com" ["b1"]
        EventTrigger.USER [] =
        some (HTTP_OK,
          (shared_contact_aor.patch_aor
            (patch_bindings_object [] ["b1"]
              (subscriptions_to_remove shared_contact_aor.bindings
                shared_contact_aor.subscriptions [] ["b1"])
              sample_irs_info._associated_uris)).bindings, w1) ∧
      (model_manager sample_irs_info).remove_bindings w1 "sip:example.com" ["b1"]
        EventTrigger.USER
        (shared_contact_aor.patch_aor
          (patch_bindings_object [] ["b1"]
            (subscriptions_to_remove shared_contact_aor.bindings
              shared_contact_aor.subscriptions [] ["b1"])
            sample_irs_info._associated_uris)).bindings =
        some (HTTP_OK,
          (shared_contact_aor.patch_aor
            (patch_bindings_object [] ["b1"]
              (subscriptions_to_remove shared_contact_aor.bindings
                shared_contact_aor.subscriptions [] ["b1"])
              sample_irs_info._associated_uris)).bindings, w2) ∧
      w1.state = map_put stored_world.state ("sip:example.com",
        (shared_contact_aor.patch_aor
          (patch_bindings_object [] ["b1"]
            (subscriptions_to_remove shared_contact_aor.bindings
              shared_contact_aor.subscriptions [] ["b1"])
            sample_irs_info._associated_uris), 0 + 1)) ∧
      w2.state = map_put stored_world.state ("sip:example.com",
        ({ shared_contact_aor.patch_aor
            (patch_bindings_object [] ["b1"]
              (subscriptions_to_remove shared_contact_aor.bindings
                shared_contact_aor.subscriptions [] ["b1"])
              sample_irs_info._associated_uris) with
           _notify_cseq :=
            int32_add
              (shared_contact_aor.patch_aor
                (patch_bindings_object [] ["b1"]
                  (subscriptions_to_remove shared_contact_aor.bindings
                    shared_contact_aor.subscriptions [] ["b1"])
                  sample_irs_info._associated_uris))._notify_cseq 1 }, 0 + 2))) :=
  ⟨((remove_bindings_twice sample_irs_info "sip:example.com" "sip:example.com" "b1"
      EventTrigger.USER [] single_binding_world.state [] rfl).1 registered_aor 0 _ rfl
      rfl).1 (by decide),
   ((remove_bindings_twice sample_irs_info "sip:example.com" "sip:example.com" "b1"
      EventTrigger.USER [] stored_world.state [] rfl).1 shared_contact_aor 0 _ rfl
      rfl).2 (by decide)⟩

end Sprout
